import Mathlib

/-!
Verification of the MiniVSFS tools (mkfs_builder.c and mkfs_adder.c).

The image buffer is modelled as a function from byte index to byte value
(`Image`), and the two operations of the repository — formatting a fresh
image (`mkfs`, from mkfs_builder.c main) and inserting one host file into
the root directory of an existing image (`add_file`, from mkfs_adder.c
main) — are translated statement by statement, with in-place buffer
mutation turned into explicit state passing.  All integer fields are
natural numbers; truncation to the C integer widths happens exactly where
the C code stores values into the byte buffer (`leBytes`).  Every call of
time(NULL) inside one invocation is modelled by the single parameter
`now`.  Command-line parsing and host file I/O are outside the modelled
core, as the specification prescribes: `add_file` receives the base name
and the raw content bytes of the host file directly.
-/

namespace MiniVSFS

/-- Block size in bytes (BS in the source). -/
def BS : Nat := 4096

/-- Size of one inode record in bytes (INODE_SIZE in the source). -/
def INODE_SIZE : Nat := 128

/-- Inode number of the root directory (ROOT_INO in the source). -/
def ROOT_INO : Nat := 1

/-- Number of direct block pointers per inode (DIRECT_MAX in the source). -/
def DIRECT_MAX : Nat := 12

/-- Capacity of the name field of a directory entry (MAX_FILENAME in the source). -/
def MAX_FILENAME : Nat := 58

/-- The superblock magic tag 0x4D565346 ("MVSF"). -/
def MAGIC : Nat := 0x4D565346

/-- A filesystem image buffer: byte index to byte value. -/
abbrev Image : Type := Nat → Nat

/-- Store one byte at index `i` (a single C assignment into the buffer). -/
def setByte (img : Image) (i v : Nat) : Image :=
  fun j => if j = i then v else img j

/-- memcpy of the list `bs` to offset `off`; `len` is the byte count of the
C write (call sites always pass `len = bs.length`). -/
def writeBytesAt (img : Image) (off len : Nat) (bs : List Nat) : Image :=
  fun j => if off ≤ j ∧ j < off + len then bs.getD (j - off) 0 else img j

/-- memset of `len` bytes at offset `off` to the byte `v`. -/
def fillBytes (img : Image) (off len v : Nat) : Image :=
  fun j => if off ≤ j ∧ j < off + len then v else img j

/-- Read an `n`-byte little-endian unsigned integer at offset `off`
(the effect of memcpy from the buffer into a C integer field). -/
def readLE (img : Image) (off : Nat) : Nat → Nat
  | 0 => 0
  | n + 1 => img off + 256 * readLE img (off + 1) n

/-- The `n` little-endian bytes of the value `v` (the effect of memcpy
from a C integer field into the buffer; truncates `v` to `n` bytes). -/
def leBytes (v : Nat) : Nat → List Nat
  | 0 => []
  | n + 1 => v % 256 :: leBytes (v / 256) n

/-- The little-endian value of a whole byte list. -/
def listReadLE (l : List Nat) : Nat :=
  l.foldr (fun b acc => b + 256 * acc) 0

/-- bit_get from the source: bit `idx` of the bitmap starting at byte
offset `base`; index i maps to byte i/8, bit i%8. -/
def bit_get (img : Image) (base idx : Nat) : Nat :=
  img (base + idx / 8) >>> (idx % 8) &&& 1

/-- bit_set from the source: `bm[idx/8] |= 1 << (idx%8)`. -/
def bit_set (img : Image) (base idx : Nat) : Image :=
  setByte img (base + idx / 8) (img (base + idx / 8) ||| 1 <<< (idx % 8))

/-- bit_clear from the source: `bm[idx/8] &= ~(1 << (idx%8))` on a uint8
cell, i.e. the complement mask truncated to 8 bits. -/
def bit_clear (img : Image) (base idx : Nat) : Image :=
  setByte img (base + idx / 8) (img (base + idx / 8) &&& (255 ^^^ 1 <<< (idx % 8)))

/-- One round of the CRC32 table generator loop body:
`c = (c&1) ? 0xEDB88320 ^ (c>>1) : (c>>1)`. -/
def crcStep (c : Nat) : Nat :=
  if c &&& 1 = 1 then 0xEDB88320 ^^^ c >>> 1 else c >>> 1

/-- Entry `i` of the CRC32 table (crc32_init applies crcStep 8 times). -/
def crcTabEntry (i : Nat) : Nat :=
  crcStep (crcStep (crcStep (crcStep (crcStep (crcStep (crcStep (crcStep i)))))))

/-- The body of the crc32 loop of the source:
`c = CRC32_TAB[(c^p[i])&0xFF] ^ (c>>8)`. -/
def crcFoldStep (c b : Nat) : Nat :=
  crcTabEntry ((c ^^^ b) &&& 255) ^^^ c >>> 8

/-- crc32 from the source: standard reflected CRC-32 with initial and
final XOR 0xFFFFFFFF, consuming the bytes of `data` through the table. -/
def crc32 (data : List Nat) : Nat :=
  (data.foldl crcFoldStep 0xFFFFFFFF) ^^^ 0xFFFFFFFF

/-- The crc32 accumulator after consuming `n` zero bytes starting from
accumulator `c` (an evaluation helper for concrete checksums). -/
def crcZeroSteps : Nat → Nat → Nat
  | c, 0 => c
  | c, n + 1 => crcZeroSteps (crcFoldStep c 0) n

/-- The on-disk superblock (superblock_t), one field per struct member. -/
structure Superblock where
  magic : Nat
  version : Nat
  block_size : Nat
  total_blocks : Nat
  inode_count : Nat
  inode_bitmap_start : Nat
  inode_bitmap_blocks : Nat
  data_bitmap_start : Nat
  data_bitmap_blocks : Nat
  inode_table_start : Nat
  inode_table_blocks : Nat
  data_region_start : Nat
  data_region_blocks : Nat
  root_inode : Nat
  mtime_epoch : Nat
  flags : Nat
  checksum : Nat
deriving DecidableEq

/-- The 116-byte packed little-endian serialization of a superblock. -/
def sbBytes (sb : Superblock) : List Nat :=
  leBytes sb.magic 4 ++ leBytes sb.version 4 ++ leBytes sb.block_size 4 ++
  leBytes sb.total_blocks 8 ++ leBytes sb.inode_count 8 ++
  leBytes sb.inode_bitmap_start 8 ++ leBytes sb.inode_bitmap_blocks 8 ++
  leBytes sb.data_bitmap_start 8 ++ leBytes sb.data_bitmap_blocks 8 ++
  leBytes sb.inode_table_start 8 ++ leBytes sb.inode_table_blocks 8 ++
  leBytes sb.data_region_start 8 ++ leBytes sb.data_region_blocks 8 ++
  leBytes sb.root_inode 8 ++ leBytes sb.mtime_epoch 8 ++
  leBytes sb.flags 4 ++ leBytes sb.checksum 4

/-- Parse the superblock from the first 116 bytes of the image
(the memcpy into `sb` at the start of the adder main). -/
def readSB (img : Image) : Superblock where
  magic := readLE img 0 4
  version := readLE img 4 4
  block_size := readLE img 8 4
  total_blocks := readLE img 12 8
  inode_count := readLE img 20 8
  inode_bitmap_start := readLE img 28 8
  inode_bitmap_blocks := readLE img 36 8
  data_bitmap_start := readLE img 44 8
  data_bitmap_blocks := readLE img 52 8
  inode_table_start := readLE img 60 8
  inode_table_blocks := readLE img 68 8
  data_region_start := readLE img 76 8
  data_region_blocks := readLE img 84 8
  root_inode := readLE img 92 8
  mtime_epoch := readLE img 100 8
  flags := readLE img 108 4
  checksum := readLE img 112 4

/-- superblock_crc_finalize from the source: zero the checksum field,
serialize into a zero-padded one-block buffer, and store
`crc32(block, BS-4)` into the checksum field. -/
def superblock_crc_finalize (sb : Superblock) : Superblock :=
  let block := (sbBytes { sb with checksum := 0 } ++ List.replicate (BS - 116) 0).take (BS - 4)
  { sb with checksum := crc32 block }

/-- The on-disk inode record (inode_t), one field per struct member;
`direct` lists the direct pointers (at most DIRECT_MAX of them, missing
entries serialize as zero). -/
structure Inode where
  mode : Nat
  links : Nat
  uid : Nat
  gid : Nat
  size_bytes : Nat
  atime : Nat
  mtime : Nat
  ctime : Nat
  direct : List Nat
  reserved_0 : Nat
  reserved_1 : Nat
  reserved_2 : Nat
  proj_id : Nat
  uid16_gid16 : Nat
  xattr_ptr : Nat
  inode_crc : Nat
deriving DecidableEq

/-- The 128-byte packed little-endian serialization of an inode record. -/
def inodeBytes (i : Inode) : List Nat :=
  leBytes i.mode 2 ++ leBytes i.links 2 ++ leBytes i.uid 4 ++ leBytes i.gid 4 ++
  leBytes i.size_bytes 8 ++ leBytes i.atime 8 ++ leBytes i.mtime 8 ++ leBytes i.ctime 8 ++
  (((List.range DIRECT_MAX).map fun k => leBytes (i.direct.getD k 0) 4).flatten) ++
  leBytes i.reserved_0 4 ++ leBytes i.reserved_1 4 ++ leBytes i.reserved_2 4 ++
  leBytes i.proj_id 4 ++ leBytes i.uid16_gid16 4 ++ leBytes i.xattr_ptr 8 ++
  leBytes i.inode_crc 8

/-- Parse the inode record stored at byte offset `off` of the image. -/
def readInodeAt (img : Image) (off : Nat) : Inode where
  mode := readLE img off 2
  links := readLE img (off + 2) 2
  uid := readLE img (off + 4) 4
  gid := readLE img (off + 8) 4
  size_bytes := readLE img (off + 12) 8
  atime := readLE img (off + 20) 8
  mtime := readLE img (off + 28) 8
  ctime := readLE img (off + 36) 8
  direct := (List.range DIRECT_MAX).map fun k => readLE img (off + 44 + 4 * k) 4
  reserved_0 := readLE img (off + 92) 4
  reserved_1 := readLE img (off + 96) 4
  reserved_2 := readLE img (off + 100) 4
  proj_id := readLE img (off + 104) 4
  uid16_gid16 := readLE img (off + 108) 4
  xattr_ptr := readLE img (off + 112) 8
  inode_crc := readLE img (off + 120) 8

/-- inode_crc_finalize from the source: crc32 of bytes 0..119 of the
record, stored in the 8-byte inode_crc field (upper 4 bytes zero). -/
def inode_crc_finalize (ino : Inode) : Inode :=
  { ino with inode_crc := crc32 ((inodeBytes ino).take 120) }

/-- The on-disk 64-byte directory entry (dirent64_t); `name` lists the
leading name bytes (missing entries serialize as zero). -/
structure Dirent where
  inode_no : Nat
  type : Nat
  name : List Nat
  checksum : Nat
deriving DecidableEq

/-- The 64-byte packed serialization of a directory entry: 4-byte
little-endian inode_no, 1-byte type, 58 name bytes, 1-byte checksum. -/
def direntBytes (d : Dirent) : List Nat :=
  leBytes d.inode_no 4 ++ [d.type % 256] ++
  ((List.range MAX_FILENAME).map fun k => d.name.getD k 0) ++ [d.checksum % 256]

/-- Parse the directory entry stored at byte offset `off` of the image. -/
def readDirentAt (img : Image) (off : Nat) : Dirent where
  inode_no := readLE img off 4
  type := img (off + 4)
  name := (List.range MAX_FILENAME).map fun k => img (off + 5 + k)
  checksum := img (off + 63)

/-- dirent_checksum_finalize from the source: XOR of bytes 0..62 of the
record, stored in the final checksum byte. -/
def dirent_checksum_finalize (d : Dirent) : Dirent :=
  { d with checksum := ((direntBytes d).take 63).foldl (fun a b => a ^^^ b) 0 }

/-- The region offsets the layout computation of mkfs_builder derives. -/
structure Layout where
  inode_bitmap_start : Nat
  data_bitmap_start : Nat
  inode_table_start : Nat
  inode_table_blocks : Nat
  data_region_start : Nat
  data_region_blocks : Nat
deriving DecidableEq

/-- The layout computation of mkfs_builder main (its lines 441 to 453):
fixed blocks 0..2, then the inode table of ceil(inode_count*128/4096)
blocks at block 3, then the data region taking every remaining block;
fails when no data block would remain. -/
def computeLayout (total_blocks inode_count : Nat) : Option Layout :=
  let inode_tbl_blocks := (inode_count * INODE_SIZE + BS - 1) / BS
  let data_region_start := 3 + inode_tbl_blocks
  if total_blocks ≤ data_region_start then none
  else some ⟨1, 2, 3, inode_tbl_blocks, data_region_start, total_blocks - data_region_start⟩

/-- The superblock mkfs_builder constructs and finalizes for a fresh image. -/
def buildSB (total_blocks inode_cnt now : Nat) (L : Layout) : Superblock :=
  superblock_crc_finalize
    { magic := MAGIC, version := 1, block_size := BS, total_blocks := total_blocks,
      inode_count := inode_cnt, inode_bitmap_start := 1, inode_bitmap_blocks := 1,
      data_bitmap_start := 2, data_bitmap_blocks := 1,
      inode_table_start := 3, inode_table_blocks := L.inode_table_blocks,
      data_region_start := L.data_region_start, data_region_blocks := L.data_region_blocks,
      root_inode := ROOT_INO, mtime_epoch := now, flags := 0, checksum := 0 }

/-- The root inode mkfs_builder constructs: a directory with two links,
size of two directory entries, all timestamps `now`, first direct
pointer 0, checksum finalized. -/
def buildRootInode (now : Nat) : Inode :=
  inode_crc_finalize
    { mode := 0x4000, links := 2, uid := 0, gid := 0, size_bytes := 2 * 64,
      atime := now, mtime := now, ctime := now, direct := List.replicate DIRECT_MAX 0,
      reserved_0 := 0, reserved_1 := 0, reserved_2 := 0, proj_id := 0,
      uid16_gid16 := 0, xattr_ptr := 0, inode_crc := 0 }

/-- The "." entry of the fresh root directory. -/
def dotDirent : Dirent :=
  dirent_checksum_finalize { inode_no := ROOT_INO, type := 2, name := [46], checksum := 0 }

/-- The ".." entry of the fresh root directory. -/
def dotdotDirent : Dirent :=
  dirent_checksum_finalize { inode_no := ROOT_INO, type := 2, name := [46, 46], checksum := 0 }

/-- The image buffer mkfs_builder produces after a successful layout
computation, following its write sequence: calloc-zeroed buffer,
superblock at block 0, zeroed bitmaps with bit 0 of each set, zeroed
inode table with the root inode at slot 0, zeroed first data block with
the "." and ".." entries at offsets 0 and 64. -/
def buildImage (total_blocks inode_cnt now : Nat) (L : Layout) : Image :=
  let img0 : Image := fun _ => 0
  let img1 := writeBytesAt img0 0 116 (sbBytes (buildSB total_blocks inode_cnt now L))
  let img2 := fillBytes img1 (1 * BS) BS 0
  let img3 := fillBytes img2 (2 * BS) BS 0
  let img4 := bit_set img3 (1 * BS) 0
  let img5 := bit_set img4 (2 * BS) 0
  let img6 := fillBytes img5 (3 * BS) (L.inode_table_blocks * BS) 0
  let img7 := writeBytesAt img6 (3 * BS) INODE_SIZE (inodeBytes (buildRootInode now))
  let img8 := fillBytes img7 (L.data_region_start * BS) BS 0
  let img9 := writeBytesAt img8 (L.data_region_start * BS) 64 (direntBytes dotDirent)
  writeBytesAt img9 (L.data_region_start * BS + 64) 64 (direntBytes dotdotDirent)

/-- mkfs_builder main without the CLI and file output: validates the
size and inode-count arguments, computes the layout and builds the
image; `none` on any validation or capacity failure. -/
def mkfs (size_kib inode_cnt now : Nat) : Option Image :=
  if size_kib < 180 ∨ 4096 < size_kib ∨ size_kib % 4 ≠ 0 then none
  else if inode_cnt < 128 ∨ 512 < inode_cnt then none
  else
    let total_blocks := size_kib * 1024 / BS
    if total_blocks < 8 then none
    else
      match computeLayout total_blocks inode_cnt with
      | none => none
      | some L => some (buildImage total_blocks inode_cnt now L)

/-- Required data block count of the adder: ceil(file_size / BS) with
minimum 1 (an empty file still occupies one block). -/
def needBlocks (file_size : Nat) : Nat :=
  let n := (file_size + BS - 1) / BS
  if n = 0 then 1 else n

/-- The free-inode scan of the adder: first index below `count` whose
bit in the inode bitmap at `base` is clear. -/
def findFreeInode (img : Image) (base count : Nat) : Option Nat :=
  (List.range count).find? fun i => bit_get img base i = 0

/-- The free-data-block scan of the adder: starting at index `i` with
`remaining` indices left to inspect, collect (in ascending order) up to
`need` indices whose bit in the data bitmap at `base` is clear. -/
def scanFreeBlocks (img : Image) (base : Nat) : Nat → Nat → Nat → List Nat
  | _, _, 0 => []
  | _, 0, _ + 1 => []
  | i, need + 1, remaining + 1 =>
    if bit_get img base i = 0 then
      i :: scanFreeBlocks img base (i + 1) need remaining
    else
      scanFreeBlocks img base (i + 1) (need + 1) remaining

/-- The root-directory slot scan of the adder: first of the 64 entry
offsets 0, 64, ..., 4032 inside the block at `blockOff` whose stored
inode_no is zero. -/
def findFreeDirent (img : Image) (blockOff : Nat) : Option Nat :=
  ((List.range 64).map fun s => s * 64).find? fun off => readLE img (blockOff + off) 4 = 0

/-- The bytes the adder writes into the data block holding chunk `i` of
the file: the corresponding content slice, zero-padded to a full block
(the memcpy of `tocopy` bytes plus the memset of the tail). -/
def blockChunk (content : List Nat) (i : Nat) : List Nat :=
  let chunk := (content.drop (i * BS)).take BS
  chunk ++ List.replicate (BS - chunk.length) 0

/-- The allocation loop of the adder: for each chosen relative block
index (in scan order, the counter `i` numbering the content chunks),
set its data bitmap bit and write the matching content chunk into the
data region. -/
def applyBlocks (dbmOff dataOff : Nat) (content : List Nat) : Image → Nat → List Nat → Image
  | img, _, [] => img
  | img, i, b :: rest =>
    applyBlocks dbmOff dataOff content
      (writeBytesAt (bit_set img dbmOff b) (dataOff + b * BS) BS (blockChunk content i)) (i + 1) rest

/-- The rollback loop of the NoFreeDirEntry path: clear the data bitmap
bit of every chosen block. -/
def clearBlocks (dbmOff : Nat) : Image → List Nat → Image
  | img, [] => img
  | img, b :: rest => clearBlocks dbmOff (bit_clear img dbmOff b) rest

/-- The inode the adder constructs for the new file: a regular file with
one link, size of the content, all timestamps `now`, the chosen blocks
as direct pointers (missing slots zero), checksum finalized. -/
def newInode (file_size now : Nat) (blocks : List Nat) : Inode :=
  inode_crc_finalize
    { mode := 0x8000, links := 1, uid := 0, gid := 0, size_bytes := file_size,
      atime := now, mtime := now, ctime := now, direct := blocks,
      reserved_0 := 0, reserved_1 := 0, reserved_2 := 0, proj_id := 0,
      uid16_gid16 := 0, xattr_ptr := 0, inode_crc := 0 }

/-- The directory entry the adder constructs: the new inode number,
type 1 (file), and the base name copied by strncpy with bound
MAX_FILENAME - 1 = 57 (so at most the first 57 name bytes are stored and
the 58th name byte stays zero), checksum finalized. -/
def newDirent (new_ino : Nat) (fname : List Nat) : Dirent :=
  dirent_checksum_finalize
    { inode_no := new_ino, type := 1, name := fname.take (MAX_FILENAME - 1), checksum := 0 }

/-- The failure kinds of the adder (each a distinct fprintf/exit path). -/
inductive AddErr where
  | badMagic
  | fileTooLarge
  | noFreeInode
  | noFreeBlocks
  | corruptRootPointer
  | noFreeDirEntry
deriving DecidableEq

/-- Steps 5 and 6 of the adder, after the scans chose the inode index
`fi` and the relative block list `bf`: set the inode bitmap bit, run the
allocation loop over the chosen blocks, and write the new inode record
into its table slot. -/
def addStage3 (img : Image) (sb : Superblock) (content : List Nat) (now : Nat)
    (fi : Nat) (bf : List Nat) : Image :=
  writeBytesAt
    (applyBlocks (sb.data_bitmap_start * BS) (sb.data_region_start * BS) content
      (bit_set img (sb.inode_bitmap_start * BS) fi) 0 bf)
    (sb.inode_table_start * BS + fi * INODE_SIZE) INODE_SIZE
    (inodeBytes (newInode content.length now bf))

/-- The rollback of the NoFreeDirEntry path: clear the chosen inode bit
and every chosen data-block bit (the written inode record and data-block
contents of `img3` stay). -/
def addRollback (img3 : Image) (sb : Superblock) (fi : Nat) (bf : List Nat) : Image :=
  clearBlocks (sb.data_bitmap_start * BS)
    (bit_clear img3 (sb.inode_bitmap_start * BS) fi) bf

/-- Steps 9 to 11 of the adder: write the new directory entry at slot
offset `off` of the root block, rewrite the root inode with one more
link and one more directory entry of size, and rewrite the superblock
with a fresh mtime and checksum. -/
def addCommit (img3 : Image) (sb : Superblock) (fname : List Nat) (now : Nat)
    (fi root_rel off : Nat) : Image :=
  let img4 := writeBytesAt img3 (sb.data_region_start * BS + root_rel * BS + off) 64
    (direntBytes (newDirent (fi + 1) fname))
  let root_inode := readInodeAt img3 (sb.inode_table_start * BS)
  let root2 := inode_crc_finalize
    { root_inode with links := root_inode.links + 1, size_bytes := root_inode.size_bytes + 64 }
  let img5 := writeBytesAt img4 (sb.inode_table_start * BS) INODE_SIZE (inodeBytes root2)
  writeBytesAt img5 0 116 (sbBytes (superblock_crc_finalize { sb with mtime_epoch := now }))

/-- mkfs_adder main without the CLI and file I/O: takes the existing
image buffer, the base name and content bytes of the host file, and the
current time; returns the outcome (new inode number or failure kind)
together with the buffer as it stands when main returns, mutations
included. -/
def add_file (img : Image) (fname content : List Nat) (now : Nat) : Except AddErr Nat × Image :=
  let sb := readSB img
  if sb.magic ≠ MAGIC then (.error .badMagic, img) else
  let need_blocks := needBlocks content.length
  if DIRECT_MAX < need_blocks then (.error .fileTooLarge, img) else
  match findFreeInode img (sb.inode_bitmap_start * BS) sb.inode_count with
  | none => (.error .noFreeInode, img)
  | some found_inode =>
    let blocks_found := scanFreeBlocks img (sb.data_bitmap_start * BS) 0 need_blocks sb.data_region_blocks
    if blocks_found.length < need_blocks then (.error .noFreeBlocks, img) else
    let img3 := addStage3 img sb content now found_inode blocks_found
    let root_rel := (readInodeAt img3 (sb.inode_table_start * BS)).direct.getD 0 0
    if sb.data_region_blocks ≤ root_rel then (.error .corruptRootPointer, img3) else
    match findFreeDirent img3 (sb.data_region_start * BS + root_rel * BS) with
    | none => (.error .noFreeDirEntry, addRollback img3 sb found_inode blocks_found)
    | some off =>
      (.ok (found_inode + 1), addCommit img3 sb fname now found_inode root_rel off)

/-- A name list padded (with zeros) or truncated to the 58-byte name field. -/
def padName (l : List Nat) : List Nat :=
  (List.range MAX_FILENAME).map fun k => l.getD k 0

/-- The direct-pointer list of an inode record padded or truncated to
DIRECT_MAX entries (the shape `readInodeAt` returns). -/
def padDirect (l : List Nat) : List Nat :=
  (List.range DIRECT_MAX).map fun k => l.getD k 0

/-- Number of occupied entry slots (stored inode_no nonzero) among the 64
directory-entry slots of the block at byte offset `blockOff`. -/
def countUsedDirents (img : Image) (blockOff : Nat) : Nat :=
  (List.range 64).countP fun s => readLE img (blockOff + s * 64) 4 != 0

/-- Number of clear bits of the bitmap at `base` among indices
i, i+1, ..., i+r-1. -/
def freeCount (img : Image) (base : Nat) : Nat → Nat → Nat
  | _, 0 => 0
  | i, r + 1 => (if bit_get img base i = 0 then 1 else 0) + freeCount img base (i + 1) r

/-- The bitmap/inode-table agreement invariant: a data bitmap bit is set
exactly when some allocated inode (inode bitmap bit set) holds that
relative index among its first ceil(size_bytes/BS) (min 1) direct
slots, and an inode bitmap bit is set exactly when the corresponding
table record is allocated (nonzero link count). -/
def Consistent (img : Image) : Prop :=
  (∀ i, i < (readSB img).data_region_blocks →
    (bit_get img ((readSB img).data_bitmap_start * BS) i = 1 ↔
      ∃ j, j < (readSB img).inode_count ∧
        bit_get img ((readSB img).inode_bitmap_start * BS) j = 1 ∧
        ∃ k, k < needBlocks (readInodeAt img ((readSB img).inode_table_start * BS + j * INODE_SIZE)).size_bytes ∧
          k < DIRECT_MAX ∧
          (readInodeAt img ((readSB img).inode_table_start * BS + j * INODE_SIZE)).direct.getD k 0 = i)) ∧
  (∀ j, j < (readSB img).inode_count →
    (bit_get img ((readSB img).inode_bitmap_start * BS) j = 1 ↔
      (readInodeAt img ((readSB img).inode_table_start * BS + j * INODE_SIZE)).links ≠ 0))

/-- The images produced by the two operations of the repository: a fresh
formatted image, or the result of a successful add_file on a reachable
image (with byte-valued name and content lists and a 64-bit time, as the
C caller supplies them). -/
inductive Reachable : Image → Prop where
  | fmt : ∀ size_kib inode_cnt now img, now < 2 ^ 64 → mkfs size_kib inode_cnt now = some img →
      Reachable img
  | add : ∀ img fname content now n img', Reachable img →
      (∀ b ∈ fname, b < 256) → (∀ b ∈ content, b < 256) → now < 2 ^ 64 →
      add_file img fname content now = (.ok n, img') → Reachable img'

/-- The layout of the 45-block, 128-inode example image of the spec. -/
def L45 : Layout := ⟨1, 2, 3, 4, 7, 38⟩

/-- The freshly formatted 45-block, 128-inode example image (format time 0). -/
def fmt45 : Image := buildImage 45 128 0 L45

/-- The superblock record mkfs_builder fills for the 45-block, 128-inode
example, before checksum finalization (checksum still 0). -/
def preC3 : Superblock :=
  { magic := MAGIC, version := 1, block_size := BS, total_blocks := 45,
    inode_count := 128, inode_bitmap_start := 1, inode_bitmap_blocks := 1,
    data_bitmap_start := 2, data_bitmap_blocks := 1, inode_table_start := 3,
    inode_table_blocks := 4, data_region_start := 7, data_region_blocks := 38,
    root_inode := ROOT_INO, mtime_epoch := 0, flags := 0, checksum := 0 }

/-- The bytes of the name "hello.txt". -/
def helloName : List Nat := [104, 101, 108, 108, 111, 46, 116, 120, 116]

/-- A superblock for the hand-built counterexample images: 6 blocks, 8
inodes, one inode-table block, data region of 2 blocks at block 4. -/
def cexSB : Superblock where
  magic := MAGIC
  version := 1
  block_size := BS
  total_blocks := 6
  inode_count := 8
  inode_bitmap_start := 1
  inode_bitmap_blocks := 1
  data_bitmap_start := 2
  data_bitmap_blocks := 1
  inode_table_start := 3
  inode_table_blocks := 1
  data_region_start := 4
  data_region_blocks := 2
  root_inode := 1
  mtime_epoch := 0
  flags := 0
  checksum := 0

/-- A root directory inode whose first direct pointer is `rel`. -/
def cexRoot (rel : Nat) : Inode where
  mode := 0x4000
  links := 2
  uid := 0
  gid := 0
  size_bytes := 4096
  atime := 0
  mtime := 0
  ctime := 0
  direct := [rel]
  reserved_0 := 0
  reserved_1 := 0
  reserved_2 := 0
  proj_id := 0
  uid16_gid16 := 0
  xattr_ptr := 0
  inode_crc := 0

/-- A concrete image whose root directory block is completely full (all
64 entry slots carry inode_no = 1): root inode and root data block
allocated, inode 2 and data block 1 free. -/
def imgFull : Image := fun j =>
  if j < 116 then (sbBytes cexSB).getD j 0
  else if j = BS then 1
  else if j = 2 * BS then 1
  else if 3 * BS ≤ j ∧ j < 3 * BS + 128 then (inodeBytes (cexRoot 0)).getD (j - 3 * BS) 0
  else if 4 * BS ≤ j ∧ j < 5 * BS ∧ (j - 4 * BS) % 64 = 0 then 1
  else 0

/-- A concrete image whose root inode carries an out-of-range first
direct pointer (5, with only 2 data-region blocks): root inode
allocated, inode 2 and data block 1 free. -/
def imgBadRoot : Image := fun j =>
  if j < 116 then (sbBytes cexSB).getD j 0
  else if j = BS then 1
  else if j = 2 * BS then 1
  else if 3 * BS ≤ j ∧ j < 3 * BS + 128 then (inodeBytes (cexRoot 5)).getD (j - 3 * BS) 0
  else 0

/-- Field bounds of a superblock that fits its C integer widths (readSB
always produces such values from a byte-valued buffer). -/
def SBBounds (sb : Superblock) : Prop :=
  sb.magic < 2 ^ 32 ∧ sb.version < 2 ^ 32 ∧ sb.block_size < 2 ^ 32 ∧
  sb.total_blocks < 2 ^ 64 ∧ sb.inode_count < 2 ^ 64 ∧
  sb.inode_bitmap_start < 2 ^ 64 ∧ sb.inode_bitmap_blocks < 2 ^ 64 ∧
  sb.data_bitmap_start < 2 ^ 64 ∧ sb.data_bitmap_blocks < 2 ^ 64 ∧
  sb.inode_table_start < 2 ^ 64 ∧ sb.inode_table_blocks < 2 ^ 64 ∧
  sb.data_region_start < 2 ^ 64 ∧ sb.data_region_blocks < 2 ^ 64 ∧
  sb.root_inode < 2 ^ 64 ∧ sb.mtime_epoch < 2 ^ 64 ∧
  sb.flags < 2 ^ 32 ∧ sb.checksum < 2 ^ 32

/-- Field bounds of an inode record that fits its C integer widths. -/
def InodeBounds (i : Inode) : Prop :=
  i.mode < 2 ^ 16 ∧ i.links < 2 ^ 16 ∧ i.uid < 2 ^ 32 ∧ i.gid < 2 ^ 32 ∧
  i.size_bytes < 2 ^ 64 ∧ i.atime < 2 ^ 64 ∧ i.mtime < 2 ^ 64 ∧ i.ctime < 2 ^ 64 ∧
  (∀ b ∈ i.direct, b < 2 ^ 32) ∧
  i.reserved_0 < 2 ^ 32 ∧ i.reserved_1 < 2 ^ 32 ∧ i.reserved_2 < 2 ^ 32 ∧
  i.proj_id < 2 ^ 32 ∧ i.uid16_gid16 < 2 ^ 32 ∧ i.xattr_ptr < 2 ^ 64 ∧
  i.inode_crc < 2 ^ 64

/-- The standard region layout every image built by mkfs carries: fixed
bitmap and table starts, an inode table that fits between block 3 and
the data region, and the mkfs argument bounds. -/
def StdLayout (img : Image) : Prop :=
  (readSB img).magic = MAGIC ∧
  (readSB img).inode_bitmap_start = 1 ∧
  (readSB img).data_bitmap_start = 2 ∧
  (readSB img).inode_table_start = 3 ∧
  3 ≤ (readSB img).data_region_start ∧
  (readSB img).inode_count * INODE_SIZE ≤ ((readSB img).data_region_start - 3) * BS ∧
  128 ≤ (readSB img).inode_count ∧
  (readSB img).inode_count ≤ 512 ∧
  1 ≤ (readSB img).data_region_blocks ∧
  (readSB img).data_region_blocks ≤ 1024

/-- The root-directory bookkeeping invariant: the root inode's first
direct pointer stays in range, its link count equals the number of
occupied entry slots of its directory block, and its size is 64 bytes
per link, at least two ("." and ".."). -/
def RootGood (img : Image) : Prop :=
  (readInodeAt img (3 * BS)).direct.getD 0 0 < (readSB img).data_region_blocks ∧
  (readInodeAt img (3 * BS)).links =
    countUsedDirents img ((readSB img).data_region_start * BS +
      (readInodeAt img (3 * BS)).direct.getD 0 0 * BS) ∧
  (readInodeAt img (3 * BS)).size_bytes = 64 * (readInodeAt img (3 * BS)).links ∧
  2 ≤ (readInodeAt img (3 * BS)).links

/-- The inductive invariant of reachable images: byte-valued buffer,
standard layout, root bookkeeping and the bitmap or table consistency of
the specification. -/
def Good (img : Image) : Prop :=
  (∀ k, img k < 256) ∧ StdLayout img ∧ RootGood img ∧ Consistent img

/-! ### Little-endian byte-list infrastructure -/

theorem leBytes_length (v n : Nat) : (leBytes v n).length = n := by
  induction n generalizing v with
  | zero => rfl
  | succ n ih => simp [leBytes, ih]

theorem leBytes_getD (v : Nat) : ∀ n k, k < n → (leBytes v n).getD k 0 = v / 256 ^ k % 256
  | n + 1, 0, _ => by simp [leBytes]
  | n + 1, k + 1, h => by
    have := leBytes_getD (v / 256) n k (by omega)
    simpa [leBytes, Nat.div_div_eq_div_mul, Nat.pow_succ, Nat.mul_comm] using this

theorem leBytes_mem_lt (v : Nat) : ∀ n, ∀ b ∈ leBytes v n, b < 256
  | n + 1, b, h => by
    rcases List.mem_cons.mp h with h | h
    · subst h; exact Nat.mod_lt _ (by omega)
    · exact leBytes_mem_lt (v / 256) n b h

theorem listReadLE_nil : listReadLE [] = 0 := rfl

theorem listReadLE_cons (b : Nat) (l : List Nat) :
    listReadLE (b :: l) = b + 256 * listReadLE l := rfl

theorem listReadLE_append (l1 l2 : List Nat) :
    listReadLE (l1 ++ l2) = listReadLE l1 + 256 ^ l1.length * listReadLE l2 := by
  induction l1 with
  | nil => simp [listReadLE_nil, listReadLE]
  | cons b t ih =>
    simp only [List.cons_append, listReadLE_cons, ih, List.length_cons]
    ring

theorem listReadLE_leBytes (v : Nat) : ∀ n, listReadLE (leBytes v n) = v % 256 ^ n
  | 0 => by simp [leBytes, listReadLE_nil, Nat.mod_one]
  | n + 1 => by
    rw [leBytes, listReadLE_cons, listReadLE_leBytes (v / 256) n, Nat.pow_succ,
      Nat.mul_comm (256 ^ n) 256, Nat.mod_mul]

theorem listReadLE_lt (l : List Nat) (h : ∀ b ∈ l, b < 256) :
    listReadLE l < 256 ^ l.length := by
  induction l with
  | nil => simp [listReadLE_nil]
  | cons b t ih =>
    have hb : b < 256 := h b (List.mem_cons_self _ _)
    have ht := ih fun x hx => h x (List.mem_cons_of_mem _ hx)
    simp only [listReadLE_cons, List.length_cons, Nat.pow_succ]
    calc b + 256 * listReadLE t < 256 + 256 * listReadLE t := by omega
    _ = 256 * (listReadLE t + 1) := by ring
    _ ≤ 256 * 256 ^ t.length := by
        have : listReadLE t + 1 ≤ 256 ^ t.length := ht
        exact Nat.mul_le_mul_left _ this
    _ = 256 ^ t.length * 256 := by ring

theorem listReadLE_replicate_zero : ∀ n, listReadLE (List.replicate n 0) = 0
  | 0 => rfl
  | n + 1 => by
    simpa [List.replicate_succ, listReadLE_cons] using listReadLE_replicate_zero n

/-! ### readLE infrastructure -/

theorem readLE_congr {img1 img2 : Image} {off : Nat} :
    ∀ n, (∀ k, k < n → img1 (off + k) = img2 (off + k)) →
      readLE img1 off n = readLE img2 off n := by
  intro n
  induction n generalizing off with
  | zero => intro _; rfl
  | succ n ih =>
    intro h
    have h0 := h 0 (by omega)
    simp only [Nat.add_zero] at h0
    simp only [readLE, h0]
    congr 1
    congr 1
    exact ih fun k hk => by
      have := h (1 + k) (by omega)
      simpa [Nat.add_assoc] using this

theorem readLE_zero {img : Image} {off : Nat} :
    ∀ n, (∀ k, k < n → img (off + k) = 0) → readLE img off n = 0 := by
  intro n
  induction n generalizing off with
  | zero => intro _; rfl
  | succ n ih =>
    intro h
    have h0 := h 0 (by omega)
    simp only [Nat.add_zero] at h0
    simp only [readLE, h0]
    have := @ih (off + 1) fun k hk => by
      have := h (1 + k) (by omega)
      simpa [Nat.add_assoc] using this
    simp [this]

theorem readLE_eq_listReadLE {img : Image} {l : List Nat} :
    ∀ n, ∀ off, l.length ≤ n → (∀ k, k < n → img (off + k) = l.getD k 0) →
      readLE img off n = listReadLE l := by
  induction l with
  | nil =>
    intro n off _ h
    rw [listReadLE_nil]
    exact readLE_zero n fun k hk => by simpa using h k hk
  | cons b t ih =>
    intro n off hlen h
    match n with
    | n + 1 =>
      have h0 := h 0 (by omega)
      simp only [Nat.add_zero, List.getD_cons_zero] at h0
      simp only [readLE, h0, listReadLE_cons]
      congr 1
      congr 1
      exact ih n (off + 1) (by simpa using hlen) fun k hk => by
        have := h (1 + k) (by omega)
        simpa [Nat.add_assoc, Nat.add_comm 1 k] using this

theorem readLE_lt {img : Image} {off : Nat} :
    ∀ n, (∀ k, k < n → img (off + k) < 256) → readLE img off n < 256 ^ n := by
  intro n
  induction n generalizing off with
  | zero => intro _; simp [readLE]
  | succ n ih =>
    intro h
    have h0 := h 0 (by omega)
    simp only [Nat.add_zero] at h0
    have ht := @ih (off + 1) fun k hk => by
      have := h (1 + k) (by omega)
      simpa [Nat.add_assoc] using this
    simp only [readLE, Nat.pow_succ]
    calc img off + 256 * readLE img (off + 1) n
        < 256 + 256 * readLE img (off + 1) n := by omega
    _ = 256 * (readLE img (off + 1) n + 1) := by ring
    _ ≤ 256 * 256 ^ n := Nat.mul_le_mul_left _ ht
    _ = 256 ^ n * 256 := by ring

/-! ### Pointwise write lemmas -/

theorem writeBytesAt_pos {img : Image} {off len j : Nat} (bs : List Nat)
    (h1 : off ≤ j) (h2 : j < off + len) :
    writeBytesAt img off len bs j = bs.getD (j - off) 0 := by
  simp [writeBytesAt, h1, h2]

theorem writeBytesAt_neg {img : Image} {off len j : Nat} (bs : List Nat)
    (h : j < off ∨ off + len ≤ j) :
    writeBytesAt img off len bs j = img j := by
  unfold writeBytesAt
  rw [if_neg (by omega)]

theorem fillBytes_pos {img : Image} {off len v j : Nat}
    (h1 : off ≤ j) (h2 : j < off + len) : fillBytes img off len v j = v := by
  simp [fillBytes, h1, h2]

theorem fillBytes_neg {img : Image} {off len v j : Nat}
    (h : j < off ∨ off + len ≤ j) : fillBytes img off len v j = img j := by
  unfold fillBytes
  rw [if_neg (by omega)]

theorem setByte_self {img : Image} {i v : Nat} : setByte img i v i = v := by
  simp [setByte]

theorem setByte_ne {img : Image} {i v j : Nat} (h : j ≠ i) : setByte img i v j = img j := by
  simp [setByte, h]

theorem bit_set_apply_ne {img : Image} {base idx j : Nat} (h : j ≠ base + idx / 8) :
    bit_set img base idx j = img j := setByte_ne h

theorem bit_clear_apply_ne {img : Image} {base idx j : Nat} (h : j ≠ base + idx / 8) :
    bit_clear img base idx j = img j := setByte_ne h

theorem readLE_writeBytesAt_disj {img : Image} {off len off2 n : Nat} (bs : List Nat)
    (h : off2 + n ≤ off ∨ off + len ≤ off2) :
    readLE (writeBytesAt img off len bs) off2 n = readLE img off2 n :=
  readLE_congr n fun k hk => writeBytesAt_neg bs (by omega)

/-! ### Bit-level lemmas -/

theorem bit_get_eq_testBit (img : Image) (base idx : Nat) :
    bit_get img base idx = ((img (base + idx / 8)).testBit (idx % 8)).toNat := by
  unfold bit_get
  rw [Nat.and_one_is_mod, Nat.shiftRight_eq_div_pow, Nat.testBit_to_div_mod]
  rcases Nat.mod_two_eq_zero_or_one (img (base + idx / 8) / 2 ^ (idx % 8)) with h | h <;>
    simp [h]

theorem bit_get_congr {img1 img2 : Image} {base idx : Nat}
    (h : img1 (base + idx / 8) = img2 (base + idx / 8)) :
    bit_get img1 base idx = bit_get img2 base idx := by
  unfold bit_get
  rw [h]

theorem bit_get_zero_or_one (img : Image) (base idx : Nat) :
    bit_get img base idx = 0 ∨ bit_get img base idx = 1 := by
  rw [bit_get_eq_testBit]
  cases (img (base + idx / 8)).testBit (idx % 8) <;> simp

theorem bit_get_bit_set_self {img : Image} {base idx : Nat} :
    bit_get (bit_set img base idx) base idx = 1 := by
  rw [bit_get_eq_testBit]
  unfold bit_set
  rw [setByte_self, Nat.one_shiftLeft, Nat.testBit_or, Nat.testBit_two_pow_self]
  simp

theorem bit_get_bit_set_ne {img : Image} {base idx idx2 : Nat} (h : idx2 ≠ idx) :
    bit_get (bit_set img base idx) base idx2 = bit_get img base idx2 := by
  by_cases hb : idx2 / 8 = idx / 8
  · have hm : idx2 % 8 ≠ idx % 8 := by omega
    rw [bit_get_eq_testBit, bit_get_eq_testBit]
    unfold bit_set
    rw [hb, setByte_self, Nat.one_shiftLeft, Nat.testBit_or,
      Nat.testBit_two_pow_of_ne (by omega)]
    simp
  · exact bit_get_congr (bit_set_apply_ne (by omega))

theorem bit_get_bit_clear_self {img : Image} {base idx : Nat} :
    bit_get (bit_clear img base idx) base idx = 0 := by
  rw [bit_get_eq_testBit]
  unfold bit_clear
  rw [setByte_self, Nat.one_shiftLeft, Nat.testBit_and, Nat.testBit_xor,
    show (255 : Nat) = 2 ^ 8 - 1 by norm_num, Nat.testBit_two_pow_sub_one,
    Nat.testBit_two_pow_self]
  have : idx % 8 < 8 := Nat.mod_lt _ (by omega)
  simp [this]

theorem bit_get_bit_clear_ne {img : Image} {base idx idx2 : Nat} (h : idx2 ≠ idx) :
    bit_get (bit_clear img base idx) base idx2 = bit_get img base idx2 := by
  by_cases hb : idx2 / 8 = idx / 8
  · have hm : idx2 % 8 ≠ idx % 8 := by omega
    rw [bit_get_eq_testBit, bit_get_eq_testBit]
    unfold bit_clear
    rw [hb, setByte_self, Nat.one_shiftLeft, Nat.testBit_and, Nat.testBit_xor,
      show (255 : Nat) = 2 ^ 8 - 1 by norm_num, Nat.testBit_two_pow_sub_one,
      Nat.testBit_two_pow_of_ne (by omega)]
    have : idx2 % 8 < 8 := Nat.mod_lt _ (by omega)
    simp [this]
  · exact bit_get_congr (bit_clear_apply_ne (by omega))

/-! ### Reading back stored records -/

theorem getD_drop_take (bs : List Nat) (d n k : Nat) (hk : k < n) :
    ((bs.drop d).take n).getD k 0 = bs.getD (d + k) 0 := by
  rw [List.getD_eq_getElem?_getD, List.getD_eq_getElem?_getD,
    List.getElem?_take_of_lt hk, List.getElem?_drop]

theorem readLE_write_inside {img : Image} {off len off2 n : Nat} (bs : List Nat)
    (h1 : off ≤ off2) (h2 : off2 + n ≤ off + len) :
    readLE (writeBytesAt img off len bs) off2 n =
      listReadLE ((bs.drop (off2 - off)).take n) := by
  refine readLE_eq_listReadLE n off2 ?_ ?_
  · rw [List.length_take]
    omega
  · intro k hk
    rw [writeBytesAt_pos bs (by omega) (by omega), getD_drop_take _ _ _ _ hk]
    congr 1
    omega

theorem drop_leBytes_append (v m n : Nat) (l2 : List Nat) (h : m ≤ n) :
    (leBytes v m ++ l2).drop n = l2.drop (n - m) := by
  have hl : (leBytes v m).length = m := leBytes_length v m
  calc (leBytes v m ++ l2).drop n = ((leBytes v m ++ l2).drop m).drop (n - m) := by
        rw [List.drop_drop]
        congr 1
        omega
  _ = l2.drop (n - m) := by rw [List.drop_left' hl]

theorem take_leBytes_append (v n : Nat) (l2 : List Nat) :
    (leBytes v n ++ l2).take n = leBytes v n :=
  List.take_left' (leBytes_length v n)

theorem take_leBytes (v n : Nat) : (leBytes v n).take n = leBytes v n :=
  List.take_of_length_le (by rw [leBytes_length])

theorem sbBytes_length (sb : Superblock) : (sbBytes sb).length = 116 := by
  simp [sbBytes, leBytes_length]

theorem sb_ext {a b : Superblock} (e1 : a.magic = b.magic) (e2 : a.version = b.version)
    (e3 : a.block_size = b.block_size) (e4 : a.total_blocks = b.total_blocks)
    (e5 : a.inode_count = b.inode_count) (e6 : a.inode_bitmap_start = b.inode_bitmap_start)
    (e7 : a.inode_bitmap_blocks = b.inode_bitmap_blocks)
    (e8 : a.data_bitmap_start = b.data_bitmap_start)
    (e9 : a.data_bitmap_blocks = b.data_bitmap_blocks)
    (e10 : a.inode_table_start = b.inode_table_start)
    (e11 : a.inode_table_blocks = b.inode_table_blocks)
    (e12 : a.data_region_start = b.data_region_start)
    (e13 : a.data_region_blocks = b.data_region_blocks) (e14 : a.root_inode = b.root_inode)
    (e15 : a.mtime_epoch = b.mtime_epoch) (e16 : a.flags = b.flags)
    (e17 : a.checksum = b.checksum) : a = b := by
  cases a; cases b; simp_all

set_option maxHeartbeats 1000000 in
theorem readSB_writeBytesAt (img : Image) (sb : Superblock) (h : SBBounds sb) :
    readSB (writeBytesAt img 0 116 (sbBytes sb)) = sb := by
  obtain ⟨h1, h2, h3, h4, h5, h6, h7, h8, h9, h10, h11, h12, h13, h14, h15, h16, h17⟩ := h
  refine sb_ext ?_ ?_ ?_ ?_ ?_ ?_ ?_ ?_ ?_ ?_ ?_ ?_ ?_ ?_ ?_ ?_ ?_ <;>
  · simp only [readSB]
    rw [readLE_write_inside _ (by omega) (by omega)]
    simp only [sbBytes, Nat.sub_zero]
    simp [drop_leBytes_append, take_leBytes_append, take_leBytes, listReadLE_leBytes]
    omega

theorem range_direct_max : List.range DIRECT_MAX = [0, 1, 2, 3, 4, 5, 6, 7, 8, 9, 10, 11] := rfl

theorem inode_ext {a b : Inode} (e1 : a.mode = b.mode) (e2 : a.links = b.links)
    (e3 : a.uid = b.uid) (e4 : a.gid = b.gid) (e5 : a.size_bytes = b.size_bytes)
    (e6 : a.atime = b.atime) (e7 : a.mtime = b.mtime) (e8 : a.ctime = b.ctime)
    (e9 : a.direct = b.direct) (e10 : a.reserved_0 = b.reserved_0)
    (e11 : a.reserved_1 = b.reserved_1) (e12 : a.reserved_2 = b.reserved_2)
    (e13 : a.proj_id = b.proj_id) (e14 : a.uid16_gid16 = b.uid16_gid16)
    (e15 : a.xattr_ptr = b.xattr_ptr) (e16 : a.inode_crc = b.inode_crc) : a = b := by
  cases a; cases b; simp_all

theorem getD_lt_of_forall_mem {l : List Nat} {c : Nat} (h : ∀ b ∈ l, b < c) (hc : 0 < c)
    (k : Nat) : l.getD k 0 < c := by
  rcases Nat.lt_or_ge k l.length with hlt | hge
  · rw [List.getD_eq_getElem _ _ hlt]
    exact h _ (List.getElem_mem hlt)
  · rw [List.getD_eq_default _ _ hge]
    exact hc

set_option maxHeartbeats 2000000 in
theorem readInodeAt_writeBytesAt (img : Image) (off : Nat) (ino : Inode) (h : InodeBounds ino) :
    readInodeAt (writeBytesAt img off 128 (inodeBytes ino)) off =
      { ino with direct := padDirect ino.direct } := by
  obtain ⟨h1, h2, h3, h4, h5, h6, h7, h8, hdir, h10, h11, h12, h13, h14, h15, h16⟩ := h
  have hg : ∀ k, ino.direct.getD k 0 < 4294967296 :=
    getD_lt_of_forall_mem (by intro b hb; have := hdir b hb; omega) (by omega)
  have edir : (readInodeAt (writeBytesAt img off 128 (inodeBytes ino)) off).direct =
      padDirect ino.direct := by
    simp only [readInodeAt, padDirect]
    refine List.map_congr_left ?_
    intro k hk
    rw [List.mem_range] at hk
    have hk12 : k < 12 := hk
    rw [readLE_write_inside _ (by omega) (by omega),
      show off + 44 + 4 * k - off = 44 + 4 * k from by omega]
    interval_cases k <;>
    · simp only [inodeBytes, range_direct_max]
      simp [drop_leBytes_append, take_leBytes_append, take_leBytes, listReadLE_leBytes]
      exact List.getD_eq_getElem?_getD _ _ _ ▸ hg _
  refine inode_ext ?_ ?_ ?_ ?_ ?_ ?_ ?_ ?_ edir ?_ ?_ ?_ ?_ ?_ ?_ ?_ <;>
  · simp only [readInodeAt]
    rw [readLE_write_inside _ (by omega) (by omega)]
    simp only [Nat.add_sub_cancel_left, Nat.sub_self]
    simp only [inodeBytes, range_direct_max]
    simp [drop_leBytes_append, take_leBytes_append, take_leBytes, listReadLE_leBytes]
    omega

theorem dirent_ext {a b : Dirent} (e1 : a.inode_no = b.inode_no) (e2 : a.type = b.type)
    (e3 : a.name = b.name) (e4 : a.checksum = b.checksum) : a = b := by
  cases a; cases b; simp_all

theorem direntBytes_length (d : Dirent) : (direntBytes d).length = 64 := by
  simp [direntBytes, leBytes_length, MAX_FILENAME]

theorem direntBytes_getD_type (d : Dirent) : (direntBytes d).getD 4 0 = d.type % 256 := by
  rw [direntBytes]
  rw [List.getD_append _ _ _ _ (by simp [leBytes_length, MAX_FILENAME])]
  rw [List.getD_append _ _ _ _ (by simp [leBytes_length])]
  rw [List.getD_append_right _ _ _ _ (by simp [leBytes_length])]
  simp [leBytes_length]

theorem direntBytes_getD_name (d : Dirent) (k : Nat) (hk : k < 58) :
    (direntBytes d).getD (5 + k) 0 = d.name.getD k 0 := by
  rw [direntBytes]
  rw [List.getD_append _ _ _ _ (by simp [leBytes_length, MAX_FILENAME]; omega)]
  rw [List.getD_append_right _ _ _ _ (by simp [leBytes_length])]
  have hidx : 5 + k - (leBytes d.inode_no 4 ++ [d.type % 256]).length = k := by
    simp [leBytes_length]
  rw [hidx]
  rw [List.getD_eq_getElem _ _ (by simp [MAX_FILENAME]; omega)]
  simp

theorem direntBytes_getD_checksum (d : Dirent) : (direntBytes d).getD 63 0 = d.checksum % 256 := by
  rw [direntBytes]
  rw [List.getD_append_right _ _ _ _ (by simp [leBytes_length, MAX_FILENAME])]
  simp [leBytes_length, MAX_FILENAME]

theorem readDirentAt_writeBytesAt (img : Image) (off : Nat) (d : Dirent)
    (h1 : d.inode_no < 2 ^ 32) :
    readDirentAt (writeBytesAt img off 64 (direntBytes d)) off =
      { inode_no := d.inode_no, type := d.type % 256, name := padName d.name,
        checksum := d.checksum % 256 } := by
  refine dirent_ext ?_ ?_ ?_ ?_ <;> simp only [readDirentAt]
  · rw [readLE_write_inside _ (by omega) (by omega), Nat.sub_self]
    simp only [direntBytes]
    simp [drop_leBytes_append, take_leBytes_append, take_leBytes, listReadLE_leBytes]
    omega
  · rw [writeBytesAt_pos _ (by omega) (by omega), show off + 4 - off = 4 from by omega]
    exact direntBytes_getD_type d
  · unfold padName
    refine List.map_congr_left ?_
    intro k hk
    rw [List.mem_range] at hk
    have hk58 : k < 58 := hk
    rw [writeBytesAt_pos _ (by omega) (by omega), show off + 5 + k - off = 5 + k from by omega]
    exact direntBytes_getD_name d k hk58
  · rw [writeBytesAt_pos _ (by omega) (by omega), show off + 63 - off = 63 from by omega]
    exact direntBytes_getD_checksum d

/-! ### Congruence of the readers under pointwise equal buffers -/

theorem readSB_congr {img1 img2 : Image} (h : ∀ k, k < 116 → img1 k = img2 k) :
    readSB img1 = readSB img2 := by
  refine sb_ext ?_ ?_ ?_ ?_ ?_ ?_ ?_ ?_ ?_ ?_ ?_ ?_ ?_ ?_ ?_ ?_ ?_ <;>
  · simp only [readSB]
    exact readLE_congr _ fun k hk => h _ (by omega)

theorem readInodeAt_congr {img1 img2 : Image} {off : Nat}
    (h : ∀ k, k < 128 → img1 (off + k) = img2 (off + k)) :
    readInodeAt img1 off = readInodeAt img2 off := by
  have hr : ∀ δ n, δ + n ≤ 128 → readLE img1 (off + δ) n = readLE img2 (off + δ) n := by
    intro δ n hδ
    exact readLE_congr _ fun k hk => by
      have := h (δ + k) (by omega)
      simpa [Nat.add_assoc] using this
  have hr0 : ∀ n, n ≤ 128 → readLE img1 off n = readLE img2 off n := by
    intro n hn
    have := hr 0 n (by omega)
    simpa using this
  refine inode_ext ?_ ?_ ?_ ?_ ?_ ?_ ?_ ?_ ?_ ?_ ?_ ?_ ?_ ?_ ?_ ?_ <;>
    simp only [readInodeAt]
  · exact hr0 2 (by omega)
  · exact hr 2 2 (by omega)
  · exact hr 4 4 (by omega)
  · exact hr 8 4 (by omega)
  · exact hr 12 8 (by omega)
  · exact hr 20 8 (by omega)
  · exact hr 28 8 (by omega)
  · exact hr 36 8 (by omega)
  · refine List.map_congr_left ?_
    intro k hk
    rw [List.mem_range] at hk
    have hk12 : k < 12 := hk
    have := hr (44 + 4 * k) 4 (by omega)
    rw [show off + (44 + 4 * k) = off + 44 + 4 * k from by omega] at this
    exact this
  · exact hr 92 4 (by omega)
  · exact hr 96 4 (by omega)
  · exact hr 100 4 (by omega)
  · exact hr 104 4 (by omega)
  · exact hr 108 4 (by omega)
  · exact hr 112 8 (by omega)
  · exact hr 120 8 (by omega)

theorem readDirentAt_congr {img1 img2 : Image} {off : Nat}
    (h : ∀ k, k < 64 → img1 (off + k) = img2 (off + k)) :
    readDirentAt img1 off = readDirentAt img2 off := by
  refine dirent_ext ?_ ?_ ?_ ?_ <;> simp only [readDirentAt]
  · exact readLE_congr _ fun k hk => h _ (by omega)
  · exact h 4 (by omega)
  · refine List.map_congr_left ?_
    intro k hk
    rw [List.mem_range] at hk
    have hk58 : k < 58 := hk
    have := h (5 + k) (by omega)
    simpa [Nat.add_assoc] using this
  · exact h 63 (by omega)

theorem find?_congr {α : Type} {p q : α → Bool} :
    ∀ l : List α, (∀ a ∈ l, p a = q a) → l.find? p = l.find? q
  | [], _ => rfl
  | a :: t, h => by
    have ha := h a (List.mem_cons_self _ _)
    have ht := find?_congr t fun b hb => h b (List.mem_cons_of_mem _ hb)
    simp only [List.find?]
    rw [ha, ht]

theorem findFreeDirent_congr {img1 img2 : Image} {blockOff : Nat}
    (h : ∀ k, k < BS → img1 (blockOff + k) = img2 (blockOff + k)) :
    findFreeDirent img1 blockOff = findFreeDirent img2 blockOff := by
  unfold findFreeDirent
  refine find?_congr _ ?_
  intro off hoff
  simp only [List.mem_map, List.mem_range] at hoff
  obtain ⟨s, hs, rfl⟩ := hoff
  have : readLE img1 (blockOff + s * 64) 4 = readLE img2 (blockOff + s * 64) 4 := by
    refine readLE_congr _ fun k hk => ?_
    have := h (s * 64 + k) (by unfold BS; omega)
    simpa [Nat.add_assoc] using this
  rw [this]

theorem findFreeInode_congr {img1 img2 : Image} {base count : Nat}
    (h : ∀ i, i < count → bit_get img1 base i = bit_get img2 base i) :
    findFreeInode img1 base count = findFreeInode img2 base count := by
  unfold findFreeInode
  refine find?_congr _ ?_
  intro i hi
  rw [List.mem_range] at hi
  rw [h i hi]

theorem scanFreeBlocks_congr {img1 img2 : Image} {base : Nat}
    (h : ∀ i, bit_get img1 base i = bit_get img2 base i) :
    ∀ i need r, scanFreeBlocks img1 base i need r = scanFreeBlocks img2 base i need r
  | _, _, 0 => by simp [scanFreeBlocks]
  | _, 0, _ + 1 => by simp [scanFreeBlocks]
  | i, need + 1, r + 1 => by
    simp only [scanFreeBlocks, h i]
    rw [scanFreeBlocks_congr h (i + 1) need r, scanFreeBlocks_congr h (i + 1) (need + 1) r]

theorem countUsedDirents_congr {img1 img2 : Image} {blockOff : Nat}
    (h : ∀ k, k < BS → img1 (blockOff + k) = img2 (blockOff + k)) :
    countUsedDirents img1 blockOff = countUsedDirents img2 blockOff := by
  unfold countUsedDirents
  refine List.countP_congr ?_
  intro s hs
  rw [List.mem_range] at hs
  have : readLE img1 (blockOff + s * 64) 4 = readLE img2 (blockOff + s * 64) 4 := by
    refine readLE_congr _ fun k hk => ?_
    have := h (s * 64 + k) (by unfold BS; omega)
    simpa [Nat.add_assoc] using this
  rw [this]

/-! ### The free-block scan -/

theorem scanFreeBlocks_mem {img : Image} {base : Nat} :
    ∀ i need r b, b ∈ scanFreeBlocks img base i need r →
      i ≤ b ∧ b < i + r ∧ bit_get img base b = 0
  | i, need, 0 => by simp [scanFreeBlocks]
  | i, 0, r + 1 => by simp [scanFreeBlocks]
  | i, need + 1, r + 1 => by
    intro b hb
    rw [scanFreeBlocks] at hb
    by_cases h : bit_get img base i = 0
    · rw [if_pos h] at hb
      rcases List.mem_cons.mp hb with rfl | hb
      · exact ⟨Nat.le_refl _, by omega, h⟩
      · obtain ⟨h1, h2, h3⟩ := scanFreeBlocks_mem (i + 1) need r b hb
        exact ⟨by omega, by omega, h3⟩
    · rw [if_neg h] at hb
      obtain ⟨h1, h2, h3⟩ := scanFreeBlocks_mem (i + 1) (need + 1) r b hb
      exact ⟨by omega, by omega, h3⟩

theorem scanFreeBlocks_sorted {img : Image} {base : Nat} :
    ∀ i need r, List.Pairwise (· < ·) (scanFreeBlocks img base i need r)
  | i, need, 0 => by simp [scanFreeBlocks]
  | i, 0, r + 1 => by simp [scanFreeBlocks]
  | i, need + 1, r + 1 => by
    rw [scanFreeBlocks]
    by_cases h : bit_get img base i = 0
    · rw [if_pos h]
      refine List.Pairwise.cons ?_ (scanFreeBlocks_sorted (i + 1) need r)
      intro b hb
      have := (scanFreeBlocks_mem (i + 1) need r b hb).1
      omega
    · rw [if_neg h]
      exact scanFreeBlocks_sorted (i + 1) (need + 1) r

theorem scanFreeBlocks_length {img : Image} {base : Nat} :
    ∀ i need r, (scanFreeBlocks img base i need r).length =
      min need (freeCount img base i r)
  | i, need, 0 => by simp [scanFreeBlocks, freeCount]
  | i, 0, r + 1 => by simp [scanFreeBlocks]
  | i, need + 1, r + 1 => by
    rw [scanFreeBlocks, freeCount]
    by_cases h : bit_get img base i = 0
    · rw [if_pos h, if_pos h]
      have hl := @scanFreeBlocks_length img base (i + 1) need r
      simp only [List.length_cons, hl]
      omega
    · rw [if_neg h, if_neg h]
      have hl := @scanFreeBlocks_length img base (i + 1) (need + 1) r
      simp only [hl]
      omega

/-! ### needBlocks -/

theorem needBlocks_zero : needBlocks 0 = 1 := by
  unfold needBlocks BS
  norm_num

theorem needBlocks_pos_eq (n : Nat) (h : 0 < n) : needBlocks n = (n + BS - 1) / BS := by
  unfold needBlocks
  have hBS : BS = 4096 := rfl
  rw [if_neg]
  rw [hBS]
  omega

theorem needBlocks_eq_max (n : Nat) : needBlocks n = max 1 ((n + BS - 1) / BS) := by
  unfold needBlocks
  have hBS : BS = 4096 := rfl
  rw [hBS]
  simp only []
  split <;> omega

/-! ### The allocation and rollback loops -/

theorem applyBlocks_apply_out {dbmOff dataOff : Nat} {content : List Nat} {j : Nat} :
    ∀ blocks : List Nat, ∀ img i,
      (∀ b ∈ blocks, j ≠ dbmOff + b / 8 ∧ (j < dataOff + b * BS ∨ dataOff + b * BS + BS ≤ j)) →
      applyBlocks dbmOff dataOff content img i blocks j = img j
  | [], img, i, _ => rfl
  | b :: rest, img, i, h => by
    rw [applyBlocks]
    have hb := h b (List.mem_cons_self _ _)
    rw [applyBlocks_apply_out rest _ (i + 1) fun x hx => h x (List.mem_cons_of_mem _ hx)]
    rw [writeBytesAt_neg _ (by omega)]
    exact bit_set_apply_ne hb.1

theorem bit_get_applyBlocks {dbmOff dataOff : Nat} {content : List Nat} {idx : Nat} :
    ∀ blocks : List Nat, ∀ img i,
      (∀ b ∈ blocks, dbmOff + idx / 8 < dataOff + b * BS ∨ dataOff + b * BS + BS ≤ dbmOff + idx / 8) →
      bit_get (applyBlocks dbmOff dataOff content img i blocks) dbmOff idx =
        if idx ∈ blocks then 1 else bit_get img dbmOff idx
  | [], img, i, _ => by simp [applyBlocks]
  | b :: rest, img, i, h => by
    rw [applyBlocks,
      bit_get_applyBlocks rest _ (i + 1) fun x hx => h x (List.mem_cons_of_mem _ hx)]
    have hsep := h b (List.mem_cons_self _ _)
    have hw : bit_get (writeBytesAt (bit_set img dbmOff b) (dataOff + b * BS) BS
        (blockChunk content i)) dbmOff idx = bit_get (bit_set img dbmOff b) dbmOff idx :=
      bit_get_congr (writeBytesAt_neg _ (by omega))
    by_cases hidx : idx ∈ rest
    · simp [hidx, List.mem_cons]
    · rw [if_neg hidx, hw]
      by_cases he : idx = b
      · subst he
        simp [List.mem_cons, bit_get_bit_set_self]
      · rw [bit_get_bit_set_ne he]
        simp [List.mem_cons, he, hidx]

theorem clearBlocks_apply_out {dbmOff j : Nat} :
    ∀ blocks : List Nat, ∀ img : Image, (∀ b ∈ blocks, j ≠ dbmOff + b / 8) →
      clearBlocks dbmOff img blocks j = img j
  | [], img, _ => rfl
  | b :: rest, img, h => by
    rw [clearBlocks]
    rw [clearBlocks_apply_out rest _ fun x hx => h x (List.mem_cons_of_mem _ hx)]
    exact bit_clear_apply_ne (h b (List.mem_cons_self _ _))

theorem bit_get_clearBlocks {dbmOff idx : Nat} :
    ∀ blocks : List Nat, ∀ img : Image,
      bit_get (clearBlocks dbmOff img blocks) dbmOff idx =
        if idx ∈ blocks then 0 else bit_get img dbmOff idx
  | [], img => by simp [clearBlocks]
  | b :: rest, img => by
    rw [clearBlocks, bit_get_clearBlocks rest _]
    by_cases hidx : idx ∈ rest
    · simp [hidx, List.mem_cons]
    · rw [if_neg hidx]
      by_cases he : idx = b
      · subst he
        simp [List.mem_cons, bit_get_bit_clear_self]
      · rw [bit_get_bit_clear_ne he]
        simp [List.mem_cons, he, hidx]

/-! ### Branch characterizations of add_file -/

theorem add_file_eq_badMagic {img : Image} {fname content : List Nat} {now : Nat}
    (h : (readSB img).magic ≠ MAGIC) :
    add_file img fname content now = (.error .badMagic, img) := by
  unfold add_file
  rw [if_pos h]

theorem add_file_eq_fileTooLarge {img : Image} {fname content : List Nat} {now : Nat}
    (h : (readSB img).magic = MAGIC) (h2 : DIRECT_MAX < needBlocks content.length) :
    add_file img fname content now = (.error .fileTooLarge, img) := by
  unfold add_file
  rw [if_neg (by simp [h]), if_pos h2]

theorem add_file_eq_noFreeInode {img : Image} {fname content : List Nat} {now : Nat}
    (h : (readSB img).magic = MAGIC) (h2 : ¬ DIRECT_MAX < needBlocks content.length)
    (h3 : findFreeInode img ((readSB img).inode_bitmap_start * BS) (readSB img).inode_count = none) :
    add_file img fname content now = (.error .noFreeInode, img) := by
  unfold add_file
  rw [if_neg (by simp [h]), if_neg h2, h3]

theorem add_file_eq_noFreeBlocks {img : Image} {fname content : List Nat} {now : Nat} {fi : Nat}
    (h : (readSB img).magic = MAGIC) (h2 : ¬ DIRECT_MAX < needBlocks content.length)
    (h3 : findFreeInode img ((readSB img).inode_bitmap_start * BS) (readSB img).inode_count = some fi)
    (h4 : (scanFreeBlocks img ((readSB img).data_bitmap_start * BS) 0 (needBlocks content.length)
      (readSB img).data_region_blocks).length < needBlocks content.length) :
    add_file img fname content now = (.error .noFreeBlocks, img) := by
  unfold add_file
  rw [if_neg (by simp [h]), if_neg h2, h3]
  simp only []
  rw [if_pos h4]


theorem add_file_eq_corrupt {img : Image} {fname content : List Nat} {now : Nat} {fi : Nat}
    (h : (readSB img).magic = MAGIC) (h2 : ¬ DIRECT_MAX < needBlocks content.length)
    (h3 : findFreeInode img ((readSB img).inode_bitmap_start * BS) (readSB img).inode_count = some fi)
    (h4 : ¬ (scanFreeBlocks img ((readSB img).data_bitmap_start * BS) 0 (needBlocks content.length)
      (readSB img).data_region_blocks).length < needBlocks content.length)
    (h5 : (readSB img).data_region_blocks ≤
      (readInodeAt (addStage3 img (readSB img) content now fi
        (scanFreeBlocks img ((readSB img).data_bitmap_start * BS) 0 (needBlocks content.length)
          (readSB img).data_region_blocks)) ((readSB img).inode_table_start * BS)).direct.getD 0 0) :
    add_file img fname content now = (.error .corruptRootPointer,
      addStage3 img (readSB img) content now fi
        (scanFreeBlocks img ((readSB img).data_bitmap_start * BS) 0 (needBlocks content.length)
          (readSB img).data_region_blocks)) := by
  unfold add_file
  rw [if_neg (by simp [h]), if_neg h2, h3]
  simp only []
  rw [if_neg h4, if_pos h5]

theorem add_file_eq_noFreeDirEntry {img : Image} {fname content : List Nat} {now : Nat} {fi : Nat}
    (h : (readSB img).magic = MAGIC) (h2 : ¬ DIRECT_MAX < needBlocks content.length)
    (h3 : findFreeInode img ((readSB img).inode_bitmap_start * BS) (readSB img).inode_count = some fi)
    (h4 : ¬ (scanFreeBlocks img ((readSB img).data_bitmap_start * BS) 0 (needBlocks content.length)
      (readSB img).data_region_blocks).length < needBlocks content.length)
    (h5 : ¬ (readSB img).data_region_blocks ≤
      (readInodeAt (addStage3 img (readSB img) content now fi
        (scanFreeBlocks img ((readSB img).data_bitmap_start * BS) 0 (needBlocks content.length)
          (readSB img).data_region_blocks)) ((readSB img).inode_table_start * BS)).direct.getD 0 0)
    (h6 : findFreeDirent (addStage3 img (readSB img) content now fi
        (scanFreeBlocks img ((readSB img).data_bitmap_start * BS) 0 (needBlocks content.length)
          (readSB img).data_region_blocks))
      ((readSB img).data_region_start * BS +
        (readInodeAt (addStage3 img (readSB img) content now fi
          (scanFreeBlocks img ((readSB img).data_bitmap_start * BS) 0 (needBlocks content.length)
            (readSB img).data_region_blocks)) ((readSB img).inode_table_start * BS)).direct.getD 0 0 * BS) = none) :
    add_file img fname content now = (.error .noFreeDirEntry,
      addRollback (addStage3 img (readSB img) content now fi
        (scanFreeBlocks img ((readSB img).data_bitmap_start * BS) 0 (needBlocks content.length)
          (readSB img).data_region_blocks)) (readSB img) fi
        (scanFreeBlocks img ((readSB img).data_bitmap_start * BS) 0 (needBlocks content.length)
          (readSB img).data_region_blocks)) := by
  unfold add_file
  rw [if_neg (by simp [h]), if_neg h2, h3]
  simp only []
  rw [if_neg h4, if_neg h5, h6]

theorem add_file_eq_ok {img : Image} {fname content : List Nat} {now : Nat} {fi off : Nat}
    (h : (readSB img).magic = MAGIC) (h2 : ¬ DIRECT_MAX < needBlocks content.length)
    (h3 : findFreeInode img ((readSB img).inode_bitmap_start * BS) (readSB img).inode_count = some fi)
    (h4 : ¬ (scanFreeBlocks img ((readSB img).data_bitmap_start * BS) 0 (needBlocks content.length)
      (readSB img).data_region_blocks).length < needBlocks content.length)
    (h5 : ¬ (readSB img).data_region_blocks ≤
      (readInodeAt (addStage3 img (readSB img) content now fi
        (scanFreeBlocks img ((readSB img).data_bitmap_start * BS) 0 (needBlocks content.length)
          (readSB img).data_region_blocks)) ((readSB img).inode_table_start * BS)).direct.getD 0 0)
    (h6 : findFreeDirent (addStage3 img (readSB img) content now fi
        (scanFreeBlocks img ((readSB img).data_bitmap_start * BS) 0 (needBlocks content.length)
          (readSB img).data_region_blocks))
      ((readSB img).data_region_start * BS +
        (readInodeAt (addStage3 img (readSB img) content now fi
          (scanFreeBlocks img ((readSB img).data_bitmap_start * BS) 0 (needBlocks content.length)
            (readSB img).data_region_blocks)) ((readSB img).inode_table_start * BS)).direct.getD 0 0 * BS) = some off) :
    add_file img fname content now = (.ok (fi + 1),
      addCommit (addStage3 img (readSB img) content now fi
        (scanFreeBlocks img ((readSB img).data_bitmap_start * BS) 0 (needBlocks content.length)
          (readSB img).data_region_blocks)) (readSB img) fname now fi
        ((readInodeAt (addStage3 img (readSB img) content now fi
          (scanFreeBlocks img ((readSB img).data_bitmap_start * BS) 0 (needBlocks content.length)
            (readSB img).data_region_blocks)) ((readSB img).inode_table_start * BS)).direct.getD 0 0) off) := by
  unfold add_file
  rw [if_neg (by simp [h]), if_neg h2, h3]
  simp only []
  rw [if_neg h4, if_neg h5, h6]

/-! ### CRC32 bounds -/

theorem crcStep_lt {c : Nat} (h : c < 2 ^ 32) : crcStep c < 2 ^ 32 := by
  unfold crcStep
  have hs : c >>> 1 < 2 ^ 32 := by
    rw [Nat.shiftRight_eq_div_pow]
    omega
  split
  · exact Nat.xor_lt_two_pow (by norm_num) hs
  · exact hs

theorem crcTabEntry_lt {c : Nat} (h : c < 2 ^ 32) : crcTabEntry c < 2 ^ 32 := by
  unfold crcTabEntry
  exact crcStep_lt (crcStep_lt (crcStep_lt (crcStep_lt
    (crcStep_lt (crcStep_lt (crcStep_lt (crcStep_lt h)))))))

theorem crc32_lt (l : List Nat) : crc32 l < 2 ^ 32 := by
  unfold crc32
  have key : ∀ m : List Nat, ∀ c, c < 2 ^ 32 →
      m.foldl crcFoldStep c < 2 ^ 32 := by
    intro m
    induction m with
    | nil => intro c hc; exact hc
    | cons b t ih =>
      intro c hc
      refine ih _ ?_
      unfold crcFoldStep
      have h1 : (c ^^^ b) &&& 255 < 2 ^ 32 :=
        Nat.lt_of_le_of_lt Nat.and_le_right (by norm_num)
      have h2 : c >>> 8 < 2 ^ 32 := by
        rw [Nat.shiftRight_eq_div_pow]
        omega
      exact Nat.xor_lt_two_pow (crcTabEntry_lt h1) h2
  exact Nat.xor_lt_two_pow (key l _ (by norm_num)) (by norm_num)

/-! ### mkfs structure -/

theorem computeLayout_some_inv {total_blocks inode_count : Nat} {L : Layout}
    (h : computeLayout total_blocks inode_count = some L) :
    L = ⟨1, 2, 3, (inode_count * INODE_SIZE + BS - 1) / BS,
      3 + (inode_count * INODE_SIZE + BS - 1) / BS,
      total_blocks - (3 + (inode_count * INODE_SIZE + BS - 1) / BS)⟩ ∧
    3 + (inode_count * INODE_SIZE + BS - 1) / BS < total_blocks := by
  unfold computeLayout at h
  by_cases hc : total_blocks ≤ 3 + (inode_count * INODE_SIZE + BS - 1) / BS
  · rw [if_pos (by omega)] at h
    exact Option.noConfusion h
  · rw [if_neg (by omega)] at h
    exact ⟨(Option.some.inj h).symm, by omega⟩

theorem buildImage_sb_bytes {total_blocks inode_count now : Nat} {L : Layout}
    (hL : computeLayout total_blocks inode_count = some L) :
    ∀ k, k < 116 → buildImage total_blocks inode_count now L k =
      (sbBytes (buildSB total_blocks inode_count now L)).getD k 0 := by
  obtain ⟨hLeq, hcap⟩ := computeLayout_some_inv hL
  subst hLeq
  intro k hk
  unfold buildImage
  simp only [Layout.data_region_start, Layout.inode_table_blocks]
  rw [writeBytesAt_neg _ (by unfold BS; omega),
    writeBytesAt_neg _ (by unfold BS; omega),
    fillBytes_neg (by unfold BS; omega),
    writeBytesAt_neg _ (by unfold BS INODE_SIZE; omega),
    fillBytes_neg (by unfold BS; omega)]
  rw [bit_set_apply_ne (by unfold BS; omega), bit_set_apply_ne (by unfold BS; omega),
    fillBytes_neg (by unfold BS; omega), fillBytes_neg (by unfold BS; omega)]
  rw [writeBytesAt_pos _ (by omega) (by omega)]
  simp

theorem mkfs_some_inv {size_kib inode_cnt now : Nat} {img : Image}
    (h : mkfs size_kib inode_cnt now = some img) :
    ∃ L, computeLayout (size_kib * 1024 / BS) inode_cnt = some L ∧
      img = buildImage (size_kib * 1024 / BS) inode_cnt now L ∧
      180 ≤ size_kib ∧ size_kib ≤ 4096 ∧ size_kib % 4 = 0 ∧
      128 ≤ inode_cnt ∧ inode_cnt ≤ 512 := by
  by_cases c1 : size_kib < 180 ∨ 4096 < size_kib ∨ size_kib % 4 ≠ 0
  · unfold mkfs at h
    rw [if_pos c1] at h
    exact Option.noConfusion h
  · by_cases c2 : inode_cnt < 128 ∨ 512 < inode_cnt
    · unfold mkfs at h
      rw [if_neg c1, if_pos c2] at h
      exact Option.noConfusion h
    · by_cases c3 : size_kib * 1024 / BS < 8
      · unfold mkfs at h
        rw [if_neg c1, if_neg c2, if_pos c3] at h
        exact Option.noConfusion h
      · cases hL : computeLayout (size_kib * 1024 / BS) inode_cnt with
        | none =>
          unfold mkfs at h
          rw [if_neg c1, if_neg c2, if_neg c3, hL] at h
          exact Option.noConfusion h
        | some L =>
          unfold mkfs at h
          rw [if_neg c1, if_neg c2, if_neg c3, hL] at h
          exact ⟨L, rfl, (Option.some.inj h).symm, by omega, by omega, by omega,
            by omega, by omega⟩

/-! ### Superblock bounds -/

theorem readLE_lt_pow {img : Image} {off n : Nat} (h : ∀ k, img k < 256) :
    readLE img off n < 256 ^ n :=
  readLE_lt n fun k _ => h (off + k)

theorem sbBounds_readSB {img : Image} (h : ∀ k, img k < 256) : SBBounds (readSB img) := by
  unfold SBBounds
  refine ⟨?_, ?_, ?_, ?_, ?_, ?_, ?_, ?_, ?_, ?_, ?_, ?_, ?_, ?_, ?_, ?_, ?_⟩ <;>
  · show readLE img _ _ < _
    exact Nat.lt_of_lt_of_le (readLE_lt_pow h) (by norm_num)

theorem sbBounds_finalize_mtime {sb : Superblock} {now : Nat} (h : SBBounds sb)
    (hnow : now < 2 ^ 64) :
    SBBounds (superblock_crc_finalize { sb with mtime_epoch := now }) := by
  obtain ⟨h1, h2, h3, h4, h5, h6, h7, h8, h9, h10, h11, h12, h13, h14, h15, h16, h17⟩ := h
  unfold SBBounds
  refine ⟨h1, h2, h3, h4, h5, h6, h7, h8, h9, h10, h11, h12, h13, h14, hnow, h16, ?_⟩
  exact Nat.lt_of_lt_of_le (crc32_lt _) (by norm_num)

theorem superblock_crc_finalize_zero_checksum (x : Superblock) :
    ({ superblock_crc_finalize x with checksum := 0 } : Superblock) =
      { x with checksum := 0 } := by
  cases x
  rfl

theorem superblock_crc_finalize_spec (x : Superblock) :
    (superblock_crc_finalize x).checksum =
      crc32 ((sbBytes { superblock_crc_finalize x with checksum := 0 } ++
        List.replicate (BS - 116) 0).take (BS - 4)) := by
  rw [superblock_crc_finalize_zero_checksum]
  rfl

/-! ### Claim C4 -/

/-- C4: for every (total_blocks, inode_count), the layout computation of
the formatter places the inode bitmap at block 1 (one block, as the
superblock it builds records), the data bitmap at block 2 (one block),
the inode table at block 3 spanning ceil(inode_count * 128 / 4096)
blocks, and the data region immediately after, consuming every remaining
block; it fails with the capacity error exactly when the data region
would get zero blocks; block 0 stays the superblock, whose serialized
bytes occupy the first 116 bytes of the built image.  For
total_blocks = 45 and inode_count = 128 this yields
inode_table_blocks = 4, data_region_start = 7, data_region_blocks = 38. -/
theorem claim_C4 :
    (∀ total_blocks inode_count : Nat,
      (computeLayout total_blocks inode_count = none ↔
        total_blocks ≤ 3 + (inode_count * INODE_SIZE + BS - 1) / BS) ∧
      (∀ L : Layout, computeLayout total_blocks inode_count = some L →
        L.inode_bitmap_start = 1 ∧ L.data_bitmap_start = 2 ∧
        L.inode_table_start = 3 ∧
        L.inode_table_blocks = (inode_count * INODE_SIZE + BS - 1) / BS ∧
        L.data_region_start = 3 + L.inode_table_blocks ∧
        L.data_region_blocks = total_blocks - L.data_region_start ∧
        0 < L.data_region_blocks ∧
        (∀ now : Nat,
          (buildSB total_blocks inode_count now L).inode_bitmap_blocks = 1 ∧
          (buildSB total_blocks inode_count now L).data_bitmap_blocks = 1 ∧
          (∀ k, k < 116 → buildImage total_blocks inode_count now L k =
            (sbBytes (buildSB total_blocks inode_count now L)).getD k 0)))) ∧
    computeLayout 45 128 = some ⟨1, 2, 3, 4, 7, 38⟩ := by
  refine ⟨fun total_blocks inode_count => ⟨?_, ?_⟩, by decide⟩
  · unfold computeLayout
    constructor
    · intro h
      by_contra hc
      rw [if_neg (by omega)] at h
      exact Option.noConfusion h
    · intro h
      rw [if_pos (by omega)]
  · intro L hL
    unfold computeLayout at hL
    by_cases hcap : total_blocks ≤ 3 + (inode_count * INODE_SIZE + BS - 1) / BS
    · rw [if_pos (by omega)] at hL
      exact Option.noConfusion hL
    · rw [if_neg (by omega)] at hL
      have hLval := Option.some.inj hL
      subst hLval
      refine ⟨rfl, rfl, rfl, rfl, rfl, rfl, by simp only []; omega, ?_⟩
      intro now
      refine ⟨rfl, rfl, ?_⟩
      intro k hk
      unfold buildImage
      simp only [Layout.data_region_start, Layout.inode_table_blocks]
      rw [writeBytesAt_neg _ (by unfold BS; omega),
        writeBytesAt_neg _ (by unfold BS; omega),
        fillBytes_neg (by unfold BS; omega),
        writeBytesAt_neg _ (by unfold BS INODE_SIZE; omega),
        fillBytes_neg (by unfold BS; omega)]
      rw [bit_set_apply_ne (by unfold BS; omega), bit_set_apply_ne (by unfold BS; omega),
        fillBytes_neg (by unfold BS; omega), fillBytes_neg (by unfold BS; omega)]
      rw [writeBytesAt_pos _ (by omega) (by omega)]
      simp

/-- Witness for C4 at the example parameters 45 blocks, 128 inodes. -/
theorem claim_C4_witness :
    computeLayout 45 128 = some ⟨1, 2, 3, 4, 7, 38⟩ ∧
    (⟨1, 2, 3, 4, 7, 38⟩ : Layout).inode_table_blocks = 4 ∧
    (⟨1, 2, 3, 4, 7, 38⟩ : Layout).data_region_start = 3 + 4 ∧
    (⟨1, 2, 3, 4, 7, 38⟩ : Layout).data_region_blocks = 45 - 7 ∧
    (buildSB 45 128 0 ⟨1, 2, 3, 4, 7, 38⟩).inode_bitmap_blocks = 1 := by
  have h := claim_C4
  have hc := h.2
  have hfields := (h.1 45 128).2 ⟨1, 2, 3, 4, 7, 38⟩ hc
  exact ⟨hc, hfields.2.2.2.1, by decide, by decide, (hfields.2.2.2.2.2.2.2 0).1⟩

/-! ### Literal facts about the example image -/

theorem BS_eq : BS = 4096 := rfl

theorem INODE_SIZE_eq : INODE_SIZE = 128 := rfl

theorem fmt45_magic : (readSB fmt45).magic = MAGIC := rfl

theorem fmt45_ibs : (readSB fmt45).inode_bitmap_start = 1 := rfl

theorem fmt45_dbs : (readSB fmt45).data_bitmap_start = 2 := rfl

theorem fmt45_its : (readSB fmt45).inode_table_start = 3 := rfl

theorem fmt45_drs : (readSB fmt45).data_region_start = 7 := rfl

theorem fmt45_drb : (readSB fmt45).data_region_blocks = 38 := rfl

theorem fmt45_ic : (readSB fmt45).inode_count = 128 := rfl

theorem mkfs_fmt45 : mkfs 180 128 0 = some fmt45 := rfl

/-! ### The FileTooLarge branch -/

theorem add_file_fileTooLarge_iff (img : Image) (fname content : List Nat) (now : Nat)
    (hm : (readSB img).magic = MAGIC) :
    (add_file img fname content now).fst = .error .fileTooLarge ↔
      DIRECT_MAX < needBlocks content.length := by
  constructor
  · intro hres
    by_contra h2
    revert hres
    unfold add_file
    rw [if_neg (by simp [hm]), if_neg h2]
    cases hfi : findFreeInode img ((readSB img).inode_bitmap_start * BS) (readSB img).inode_count
    · simp
    · simp only []
      split
      · simp
      · split
        · simp
        · split
          · simp
          · simp
  · intro h2
    rw [add_file_eq_fileTooLarge hm h2]

/-! ### Symbolic execution of add_file on the example image for a file
of exactly 12 blocks -/

theorem fmt45_scan12 (content : List Nat) (hlen : content.length = 49152) :
    scanFreeBlocks fmt45 ((readSB fmt45).data_bitmap_start * BS) 0
      (needBlocks content.length) (readSB fmt45).data_region_blocks =
      [1, 2, 3, 4, 5, 6, 7, 8, 9, 10, 11, 12] := by
  rw [hlen]
  rfl

theorem fmt45_stage3_table_frame (content : List Nat) (now : Nat) :
    ∀ k, k < 128 →
      addStage3 fmt45 (readSB fmt45) content now 1 [1, 2, 3, 4, 5, 6, 7, 8, 9, 10, 11, 12]
        ((readSB fmt45).inode_table_start * BS + k) =
      fmt45 ((readSB fmt45).inode_table_start * BS + k) := by
  intro k hk
  unfold addStage3
  simp only [fmt45_its, fmt45_ibs, fmt45_dbs, fmt45_drs, BS_eq, INODE_SIZE_eq]
  rw [writeBytesAt_neg _ (by omega)]
  rw [applyBlocks_apply_out _ _ _
    (by intro b hb; fin_cases hb <;> simp only [BS_eq] <;> omega)]
  rw [bit_set_apply_ne (by omega)]

theorem fmt45_stage3_rootblock_frame (content : List Nat) (now : Nat) :
    ∀ k, k < BS →
      addStage3 fmt45 (readSB fmt45) content now 1 [1, 2, 3, 4, 5, 6, 7, 8, 9, 10, 11, 12]
        ((readSB fmt45).data_region_start * BS + 0 * BS + k) =
      fmt45 ((readSB fmt45).data_region_start * BS + 0 * BS + k) := by
  intro k hk
  rw [BS_eq] at hk
  unfold addStage3
  simp only [fmt45_its, fmt45_ibs, fmt45_dbs, fmt45_drs, BS_eq, INODE_SIZE_eq]
  rw [writeBytesAt_neg _ (by omega)]
  rw [applyBlocks_apply_out _ _ _
    (by intro b hb; fin_cases hb <;> simp only [BS_eq] <;> omega)]
  rw [bit_set_apply_ne (by omega)]

theorem add_fmt45_len49152 (fname content : List Nat) (now : Nat)
    (hlen : content.length = 49152) :
    (add_file fmt45 fname content now).fst = .ok 2 := by
  have hm := fmt45_magic
  have h2 : ¬ DIRECT_MAX < needBlocks content.length := by
    rw [hlen]
    decide
  have h3 : findFreeInode fmt45 ((readSB fmt45).inode_bitmap_start * BS)
      (readSB fmt45).inode_count = some 1 := rfl
  have hscan := fmt45_scan12 content hlen
  have h4 : ¬ (scanFreeBlocks fmt45 ((readSB fmt45).data_bitmap_start * BS) 0
      (needBlocks content.length) (readSB fmt45).data_region_blocks).length <
      needBlocks content.length := by
    rw [hscan, hlen]
    decide
  have h5 : ¬ (readSB fmt45).data_region_blocks ≤
      (readInodeAt (addStage3 fmt45 (readSB fmt45) content now 1
        (scanFreeBlocks fmt45 ((readSB fmt45).data_bitmap_start * BS) 0
          (needBlocks content.length) (readSB fmt45).data_region_blocks))
        ((readSB fmt45).inode_table_start * BS)).direct.getD 0 0 := by
    rw [hscan, readInodeAt_congr (fmt45_stage3_table_frame content now)]
    decide
  have h6 : findFreeDirent (addStage3 fmt45 (readSB fmt45) content now 1
      (scanFreeBlocks fmt45 ((readSB fmt45).data_bitmap_start * BS) 0
        (needBlocks content.length) (readSB fmt45).data_region_blocks))
      ((readSB fmt45).data_region_start * BS +
        (readInodeAt (addStage3 fmt45 (readSB fmt45) content now 1
          (scanFreeBlocks fmt45 ((readSB fmt45).data_bitmap_start * BS) 0
            (needBlocks content.length) (readSB fmt45).data_region_blocks))
          ((readSB fmt45).inode_table_start * BS)).direct.getD 0 0 * BS) = some 128 := by
    rw [hscan, readInodeAt_congr (fmt45_stage3_table_frame content now)]
    rw [show (readInodeAt fmt45 ((readSB fmt45).inode_table_start * BS)).direct.getD 0 0 = 0
      from rfl]
    rw [findFreeDirent_congr (fmt45_stage3_rootblock_frame content now)]
    rfl
  rw [add_file_eq_ok hm h2 h3 h4 h5 h6]

/-! ### Claim C6 -/

/-- C6: the adder computes required data blocks = ceil(file_size / 4096)
with minimum 1 (an empty file still requires one block), and fails with
the FileTooLarge capacity error exactly when this count exceeds the
direct-pointer capacity DIRECT_MAX = 12 (for any image whose magic tag
is valid); on the freshly formatted example image, a file of exactly
12 × 4096 = 49152 bytes is added successfully, and a file of 49153 bytes
fails with the capacity error. -/
theorem claim_C6 :
    needBlocks 0 = 1 ∧
    (∀ file_size : Nat, 0 < file_size → needBlocks file_size = (file_size + BS - 1) / BS) ∧
    (∀ (img : Image) (fname content : List Nat) (now : Nat), (readSB img).magic = MAGIC →
      ((add_file img fname content now).fst = .error .fileTooLarge ↔
        DIRECT_MAX < needBlocks content.length)) ∧
    (∀ (fname content : List Nat) (now : Nat), content.length = 12 * BS →
      (add_file fmt45 fname content now).fst = .ok 2) ∧
    (∀ (fname content : List Nat) (now : Nat), content.length = 12 * BS + 1 →
      (add_file fmt45 fname content now).fst = .error .fileTooLarge) := by
  refine ⟨needBlocks_zero, needBlocks_pos_eq, add_file_fileTooLarge_iff, ?_, ?_⟩
  · intro fname content now hlen
    exact add_fmt45_len49152 fname content now (by rw [hlen, BS_eq])
  · intro fname content now hlen
    rw [add_file_eq_fileTooLarge fmt45_magic (by rw [hlen, BS_eq]; decide)]

/-- Witness for C6: the boundary files of 49152 and 49153 bytes on the
example image, with every hypothesis discharged concretely. -/
theorem claim_C6_witness :
    (add_file fmt45 [104] (List.replicate 49152 7) 0).fst = .ok 2 ∧
    (add_file fmt45 [104] (List.replicate 49153 7) 0).fst = .error .fileTooLarge ∧
    ((add_file fmt45 [104] (List.replicate 49153 7) 0).fst = .error .fileTooLarge ↔
      DIRECT_MAX < needBlocks (List.replicate 49153 7).length) := by
  have h := claim_C6
  refine ⟨h.2.2.2.1 [104] _ 0 (by rw [List.length_replicate]; decide),
    h.2.2.2.2 [104] _ 0 (by rw [List.length_replicate]; decide),
    h.2.2.1 fmt45 [104] _ 0 fmt45_magic⟩

/-! ### Inversion of a successful add_file -/

set_option maxHeartbeats 2000000 in
theorem add_file_ok_inv {img : Image} {fname content : List Nat} {now : Nat} {n : Nat}
    {img' : Image} (h : add_file img fname content now = (.ok n, img')) :
    (readSB img).magic = MAGIC ∧
    ¬ DIRECT_MAX < needBlocks content.length ∧
    ∃ fi, findFreeInode img ((readSB img).inode_bitmap_start * BS) (readSB img).inode_count =
        some fi ∧
      n = fi + 1 ∧
      ¬ (scanFreeBlocks img ((readSB img).data_bitmap_start * BS) 0 (needBlocks content.length)
          (readSB img).data_region_blocks).length < needBlocks content.length ∧
      ¬ (readSB img).data_region_blocks ≤
        (readInodeAt (addStage3 img (readSB img) content now fi
          (scanFreeBlocks img ((readSB img).data_bitmap_start * BS) 0
            (needBlocks content.length) (readSB img).data_region_blocks))
          ((readSB img).inode_table_start * BS)).direct.getD 0 0 ∧
      ∃ off, findFreeDirent (addStage3 img (readSB img) content now fi
          (scanFreeBlocks img ((readSB img).data_bitmap_start * BS) 0
            (needBlocks content.length) (readSB img).data_region_blocks))
          ((readSB img).data_region_start * BS +
            (readInodeAt (addStage3 img (readSB img) content now fi
              (scanFreeBlocks img ((readSB img).data_bitmap_start * BS) 0
                (needBlocks content.length) (readSB img).data_region_blocks))
              ((readSB img).inode_table_start * BS)).direct.getD 0 0 * BS) = some off ∧
        img' = addCommit (addStage3 img (readSB img) content now fi
            (scanFreeBlocks img ((readSB img).data_bitmap_start * BS) 0
              (needBlocks content.length) (readSB img).data_region_blocks)) (readSB img)
          fname now fi
          ((readInodeAt (addStage3 img (readSB img) content now fi
            (scanFreeBlocks img ((readSB img).data_bitmap_start * BS) 0
              (needBlocks content.length) (readSB img).data_region_blocks))
            ((readSB img).inode_table_start * BS)).direct.getD 0 0) off := by
  by_cases hm : (readSB img).magic = MAGIC
  · by_cases h2 : DIRECT_MAX < needBlocks content.length
    · rw [add_file_eq_fileTooLarge hm h2] at h
      exact absurd (congrArg Prod.fst h) (by simp)
    · cases hfi : findFreeInode img ((readSB img).inode_bitmap_start * BS)
        (readSB img).inode_count with
      | none =>
        rw [add_file_eq_noFreeInode hm h2 hfi] at h
        exact absurd (congrArg Prod.fst h) (by simp)
      | some fi =>
        by_cases h4 : (scanFreeBlocks img ((readSB img).data_bitmap_start * BS) 0
            (needBlocks content.length) (readSB img).data_region_blocks).length <
            needBlocks content.length
        · rw [add_file_eq_noFreeBlocks hm h2 hfi h4] at h
          exact absurd (congrArg Prod.fst h) (by simp)
        · by_cases h5 : (readSB img).data_region_blocks ≤
            (readInodeAt (addStage3 img (readSB img) content now fi
              (scanFreeBlocks img ((readSB img).data_bitmap_start * BS) 0
                (needBlocks content.length) (readSB img).data_region_blocks))
              ((readSB img).inode_table_start * BS)).direct.getD 0 0
          · rw [add_file_eq_corrupt hm h2 hfi h4 h5] at h
            exact absurd (congrArg Prod.fst h) (by simp)
          · cases hoff : findFreeDirent (addStage3 img (readSB img) content now fi
                (scanFreeBlocks img ((readSB img).data_bitmap_start * BS) 0
                  (needBlocks content.length) (readSB img).data_region_blocks))
                ((readSB img).data_region_start * BS +
                  (readInodeAt (addStage3 img (readSB img) content now fi
                    (scanFreeBlocks img ((readSB img).data_bitmap_start * BS) 0
                      (needBlocks content.length) (readSB img).data_region_blocks))
                    ((readSB img).inode_table_start * BS)).direct.getD 0 0 * BS) with
            | none =>
              rw [add_file_eq_noFreeDirEntry hm h2 hfi h4 h5 hoff] at h
              exact absurd (congrArg Prod.fst h) (by simp)
            | some off =>
              rw [add_file_eq_ok hm h2 hfi h4 h5 hoff] at h
              rw [Prod.mk.injEq] at h
              obtain ⟨h1, h2eq⟩ := h
              exact ⟨hm, h2, fi, rfl, (Except.ok.inj h1).symm, h4, h5, off, hoff, h2eq.symm⟩
  · rw [add_file_eq_badMagic hm] at h
    exact absurd (congrArg Prod.fst h) (by simp)

/-! ### Serialized records are byte-valued -/

theorem sbBytes_mem_lt (sb : Superblock) : ∀ b ∈ sbBytes sb, b < 256 := by
  unfold sbBytes
  simp only [List.forall_mem_append]
  repeat' apply And.intro
  all_goals exact leBytes_mem_lt _ _

theorem inodeBytes_mem_lt (i : Inode) : ∀ b ∈ inodeBytes i, b < 256 := by
  unfold inodeBytes
  simp only [List.forall_mem_append]
  repeat' apply And.intro
  all_goals first
  | exact leBytes_mem_lt _ _
  | · intro b hb
      rw [List.mem_flatten] at hb
      obtain ⟨l, hl, hb⟩ := hb
      rw [List.mem_map] at hl
      obtain ⟨k, _, rfl⟩ := hl
      exact leBytes_mem_lt _ _ b hb

theorem direntBytes_mem_lt (d : Dirent) (hname : ∀ b ∈ d.name, b < 256) :
    ∀ b ∈ direntBytes d, b < 256 := by
  unfold direntBytes
  simp only [List.forall_mem_append]
  refine ⟨⟨⟨leBytes_mem_lt _ _, ?_⟩, ?_⟩, ?_⟩
  · intro b hb
    rw [List.mem_singleton] at hb
    subst hb
    exact Nat.mod_lt _ (by omega)
  · intro b hb
    rw [List.mem_map] at hb
    obtain ⟨k, _, rfl⟩ := hb
    exact getD_lt_of_forall_mem hname (by omega) k
  · intro b hb
    rw [List.mem_singleton] at hb
    subst hb
    exact Nat.mod_lt _ (by omega)

theorem or_lt_256 {a b : Nat} (ha : a < 256) (hb : b < 256) : a ||| b < 256 := by
  have : a ||| b < 2 ^ 8 := Nat.or_lt_two_pow ha hb
  simpa using this

theorem bit_set_bytes_lt {img : Image} {base idx : Nat} (h : ∀ k, img k < 256) :
    ∀ k, bit_set img base idx k < 256 := by
  intro k
  by_cases hk : k = base + idx / 8
  · subst hk
    unfold bit_set
    rw [setByte_self]
    refine or_lt_256 (h _) ?_
    rw [Nat.one_shiftLeft]
    have : idx % 8 < 8 := Nat.mod_lt _ (by omega)
    calc 2 ^ (idx % 8) ≤ 2 ^ 7 := Nat.pow_le_pow_right (by omega) (by omega)
    _ < 256 := by norm_num
  · rw [bit_set_apply_ne hk]
    exact h k

theorem writeBytesAt_bytes_lt {img : Image} {off len : Nat} {bs : List Nat}
    (h : ∀ k, img k < 256) (hbs : ∀ b ∈ bs, b < 256) :
    ∀ k, writeBytesAt img off len bs k < 256 := by
  intro k
  by_cases hk : off ≤ k ∧ k < off + len
  · rw [writeBytesAt_pos _ hk.1 hk.2]
    exact getD_lt_of_forall_mem hbs (by omega) _
  · rw [writeBytesAt_neg _ (by omega)]
    exact h k

theorem fillBytes_zero_bytes_lt {img : Image} {off len : Nat} (h : ∀ k, img k < 256) :
    ∀ k, fillBytes img off len 0 k < 256 := by
  intro k
  by_cases hk : off ≤ k ∧ k < off + len
  · rw [fillBytes_pos hk.1 hk.2]
    omega
  · rw [fillBytes_neg (by omega)]
    exact h k

theorem buildImage_bytes_lt (total_blocks inode_cnt now : Nat) (L : Layout) :
    ∀ k, buildImage total_blocks inode_cnt now L k < 256 := by
  unfold buildImage
  refine writeBytesAt_bytes_lt (writeBytesAt_bytes_lt (fillBytes_zero_bytes_lt
    (writeBytesAt_bytes_lt (fillBytes_zero_bytes_lt (bit_set_bytes_lt (bit_set_bytes_lt
      (fillBytes_zero_bytes_lt (fillBytes_zero_bytes_lt (writeBytesAt_bytes_lt
        (fun _ => by omega) (sbBytes_mem_lt _)))))))
      (inodeBytes_mem_lt _)))
    (direntBytes_mem_lt _ (by intro b hb; simp [dotDirent, dirent_checksum_finalize] at hb; omega)))
    (direntBytes_mem_lt _ (by intro b hb; simp [dotdotDirent, dirent_checksum_finalize] at hb; omega))

theorem fmt45_bytes_lt : ∀ k, fmt45 k < 256 := buildImage_bytes_lt 45 128 0 L45

/-! ### readSB of built and committed images -/

theorem sbBounds_buildSB {total_blocks inode_cnt now : Nat} {L : Layout}
    (hL : computeLayout total_blocks inode_cnt = some L) (hnow : now < 2 ^ 64)
    (htb : total_blocks ≤ 1024) (hic : inode_cnt ≤ 512) :
    SBBounds (buildSB total_blocks inode_cnt now L) := by
  obtain ⟨hLeq, hcap⟩ := computeLayout_some_inv hL
  subst hLeq
  unfold SBBounds buildSB
  refine ⟨?_, ?_, ?_, ?_, ?_, ?_, ?_, ?_, ?_, ?_, ?_, ?_, ?_, ?_, ?_, ?_, ?_⟩
  · show MAGIC < 2 ^ 32
    decide
  · show 1 < 2 ^ 32
    decide
  · show BS < 2 ^ 32
    decide
  · show total_blocks < 2 ^ 64
    omega
  · show inode_cnt < 2 ^ 64
    omega
  · show 1 < 2 ^ 64
    decide
  · show 1 < 2 ^ 64
    decide
  · show 2 < 2 ^ 64
    decide
  · show 1 < 2 ^ 64
    decide
  · show 3 < 2 ^ 64
    decide
  · show (inode_cnt * INODE_SIZE + BS - 1) / BS < 2 ^ 64
    unfold INODE_SIZE BS
    omega
  · show 3 + (inode_cnt * INODE_SIZE + BS - 1) / BS < 2 ^ 64
    unfold INODE_SIZE BS
    omega
  · show total_blocks - (3 + (inode_cnt * INODE_SIZE + BS - 1) / BS) < 2 ^ 64
    unfold INODE_SIZE BS
    omega
  · show ROOT_INO < 2 ^ 64
    decide
  · show now < 2 ^ 64
    exact hnow
  · show 0 < 2 ^ 32
    decide
  · exact Nat.lt_of_lt_of_le (crc32_lt _) (by norm_num)

theorem readSB_buildImage {total_blocks inode_cnt now : Nat} {L : Layout}
    (hL : computeLayout total_blocks inode_cnt = some L) (hnow : now < 2 ^ 64)
    (htb : total_blocks ≤ 1024) (hic : inode_cnt ≤ 512) :
    readSB (buildImage total_blocks inode_cnt now L) = buildSB total_blocks inode_cnt now L := by
  have heq : readSB (buildImage total_blocks inode_cnt now L) =
      readSB (writeBytesAt (fun _ => 0) 0 116 (sbBytes (buildSB total_blocks inode_cnt now L))) := by
    refine readSB_congr ?_
    intro k hk
    rw [buildImage_sb_bytes hL k hk, writeBytesAt_pos _ (by omega) (by omega)]
    simp
  rw [heq, readSB_writeBytesAt _ _ (sbBounds_buildSB hL hnow htb hic)]

theorem readSB_addCommit {img3 : Image} {sb : Superblock} {fname : List Nat}
    {now fi rel off : Nat} (hb : SBBounds sb) (hnow : now < 2 ^ 64) :
    readSB (addCommit img3 sb fname now fi rel off) =
      superblock_crc_finalize { sb with mtime_epoch := now } := by
  show readSB (writeBytesAt _ 0 116 (sbBytes (superblock_crc_finalize { sb with mtime_epoch := now }))) = _
  refine readSB_writeBytesAt _ _ ?_
  obtain ⟨h1, h2, h3, h4, h5, h6, h7, h8, h9, h10, h11, h12, h13, h14, h15, h16, h17⟩ := hb
  exact ⟨h1, h2, h3, h4, h5, h6, h7, h8, h9, h10, h11, h12, h13, h14, hnow, h16,
    Nat.lt_of_lt_of_le (crc32_lt _) (by norm_num)⟩

theorem foldl_replicate_zero : ∀ (n c : Nat),
    (List.replicate n 0).foldl crcFoldStep c = crcZeroSteps c n
  | 0, _ => rfl
  | n + 1, c => by
    rw [List.replicate_succ, List.foldl_cons]
    exact foldl_replicate_zero n (crcFoldStep c 0)

theorem crcZeroSteps_add : ∀ (m n c : Nat),
    crcZeroSteps c (m + n) = crcZeroSteps (crcZeroSteps c m) n := by
  intro m
  induction m with
  | zero =>
    intro n c
    rw [Nat.zero_add]
    exact rfl
  | succ k ih =>
    intro n c
    rw [show k + 1 + n = (k + n) + 1 from by omega]
    show crcZeroSteps (crcFoldStep c 0) (k + n) = _
    rw [ih]
    exact rfl

theorem crcZeroSteps_chunk40 (n c d : Nat) (h : crcZeroSteps c 40 = d) :
    crcZeroSteps c (40 + n) = crcZeroSteps d n := by
  rw [crcZeroSteps_add 40 n c, h]

theorem crc32_eq_foldl (l : List Nat) :
    crc32 l = List.foldl crcFoldStep 4294967295 l ^^^ 4294967295 := rfl

/-! ### Claim C3 -/

set_option maxRecDepth 100000 in
/-- C3 counterexample: on the superblock finalized by format for the
45-block, 128-inode example image, the stored 4-byte checksum does NOT
equal the CRC-32 over the full 4096-byte zero-padded serialization with
the checksum field zeroed; the code computes the CRC over only the first
4092 bytes (`BS - 4`) of that block. -/
theorem claim_C3_counterexample :
    mkfs 180 128 0 = some fmt45 ∧
    readLE fmt45 112 4 ≠
      crc32 (sbBytes { readSB fmt45 with checksum := 0 } ++ List.replicate (BS - 116) 0) := by
  refine ⟨rfl, ?_⟩
  have hsb : readSB fmt45 = buildSB 45 128 0 L45 :=
    readSB_buildImage rfl (by decide) (by decide) (by decide)
  have hpre : buildSB 45 128 0 L45 = superblock_crc_finalize preC3 := rfl
  have hbytes : sbBytes preC3 = (leBytes MAGIC 4 ++ leBytes 1 4 ++ leBytes BS 4 ++ leBytes 45 8 ++ leBytes 128 8 ++ leBytes 1 8) ++ ((leBytes 1 8 ++ leBytes 2 8 ++ leBytes 1 8 ++ leBytes 3 8 ++ leBytes 4 8) ++ (leBytes 7 8 ++ leBytes 38 8 ++ leBytes 1 8 ++ leBytes 0 8 ++ leBytes 0 4 ++ leBytes 0 4)) := by decide
  have c1 : List.foldl crcFoldStep 4294967295 (leBytes MAGIC 4 ++ leBytes 1 4 ++ leBytes BS 4 ++ leBytes 45 8 ++ leBytes 128 8 ++ leBytes 1 8) = 2360271109 := by decide
  have c2 : List.foldl crcFoldStep 2360271109 (leBytes 1 8 ++ leBytes 2 8 ++ leBytes 1 8 ++ leBytes 3 8 ++ leBytes 4 8) = 1099531790 := by decide
  have c3 : List.foldl crcFoldStep 1099531790 (leBytes 7 8 ++ leBytes 38 8 ++ leBytes 1 8 ++ leBytes 0 8 ++ leBytes 0 4 ++ leBytes 0 4) = 1496650053 := by decide
  have z1 : crcZeroSteps 1496650053 40 = 3656447851 := by decide
  have z2 : crcZeroSteps 3656447851 40 = 819008272 := by decide
  have z3 : crcZeroSteps 819008272 40 = 2620134531 := by decide
  have z4 : crcZeroSteps 2620134531 40 = 430938335 := by decide
  have z5 : crcZeroSteps 430938335 40 = 889551846 := by decide
  have z6 : crcZeroSteps 889551846 40 = 115001343 := by decide
  have z7 : crcZeroSteps 115001343 40 = 866993844 := by decide
  have z8 : crcZeroSteps 866993844 40 = 3994061867 := by decide
  have z9 : crcZeroSteps 3994061867 40 = 823407907 := by decide
  have z10 : crcZeroSteps 823407907 40 = 733126589 := by decide
  have z11 : crcZeroSteps 733126589 40 = 2110565146 := by decide
  have z12 : crcZeroSteps 2110565146 40 = 3708681930 := by decide
  have z13 : crcZeroSteps 3708681930 40 = 749742738 := by decide
  have z14 : crcZeroSteps 749742738 40 = 2259476690 := by decide
  have z15 : crcZeroSteps 2259476690 40 = 3542696057 := by decide
  have z16 : crcZeroSteps 3542696057 40 = 4276860724 := by decide
  have z17 : crcZeroSteps 4276860724 40 = 1353516125 := by decide
  have z18 : crcZeroSteps 1353516125 40 = 944488965 := by decide
  have z19 : crcZeroSteps 944488965 40 = 1375367516 := by decide
  have z20 : crcZeroSteps 1375367516 40 = 982573125 := by decide
  have z21 : crcZeroSteps 982573125 40 = 1305040227 := by decide
  have z22 : crcZeroSteps 1305040227 40 = 1647923850 := by decide
  have z23 : crcZeroSteps 1647923850 40 = 657412330 := by decide
  have z24 : crcZeroSteps 657412330 40 = 2126349257 := by decide
  have z25 : crcZeroSteps 2126349257 40 = 3145029526 := by decide
  have z26 : crcZeroSteps 3145029526 40 = 1267010001 := by decide
  have z27 : crcZeroSteps 1267010001 40 = 231515832 := by decide
  have z28 : crcZeroSteps 231515832 40 = 3816111865 := by decide
  have z29 : crcZeroSteps 3816111865 40 = 2415215262 := by decide
  have z30 : crcZeroSteps 2415215262 40 = 3360374691 := by decide
  have z31 : crcZeroSteps 3360374691 40 = 3301320777 := by decide
  have z32 : crcZeroSteps 3301320777 40 = 3647249683 := by decide
  have z33 : crcZeroSteps 3647249683 40 = 2268641266 := by decide
  have z34 : crcZeroSteps 2268641266 40 = 3976656642 := by decide
  have z35 : crcZeroSteps 3976656642 40 = 4074696183 := by decide
  have z36 : crcZeroSteps 4074696183 40 = 3445426770 := by decide
  have z37 : crcZeroSteps 3445426770 40 = 966712758 := by decide
  have z38 : crcZeroSteps 966712758 40 = 2594415331 := by decide
  have z39 : crcZeroSteps 2594415331 40 = 2551045041 := by decide
  have z40 : crcZeroSteps 2551045041 40 = 2865451689 := by decide
  have z41 : crcZeroSteps 2865451689 40 = 3293868245 := by decide
  have z42 : crcZeroSteps 3293868245 40 = 1898485947 := by decide
  have z43 : crcZeroSteps 1898485947 40 = 1115893708 := by decide
  have z44 : crcZeroSteps 1115893708 40 = 540093973 := by decide
  have z45 : crcZeroSteps 540093973 40 = 3313873688 := by decide
  have z46 : crcZeroSteps 3313873688 40 = 785073480 := by decide
  have z47 : crcZeroSteps 785073480 40 = 1040630396 := by decide
  have z48 : crcZeroSteps 1040630396 40 = 1227366485 := by decide
  have z49 : crcZeroSteps 1227366485 40 = 2173852649 := by decide
  have z50 : crcZeroSteps 2173852649 40 = 2160342919 := by decide
  have z51 : crcZeroSteps 2160342919 40 = 3170659198 := by decide
  have z52 : crcZeroSteps 3170659198 40 = 2743460941 := by decide
  have z53 : crcZeroSteps 2743460941 40 = 739180555 := by decide
  have z54 : crcZeroSteps 739180555 40 = 2273014902 := by decide
  have z55 : crcZeroSteps 2273014902 40 = 1515105131 := by decide
  have z56 : crcZeroSteps 1515105131 40 = 1283835963 := by decide
  have z57 : crcZeroSteps 1283835963 40 = 2648678756 := by decide
  have z58 : crcZeroSteps 2648678756 40 = 491423850 := by decide
  have z59 : crcZeroSteps 491423850 40 = 1798699146 := by decide
  have z60 : crcZeroSteps 1798699146 40 = 852004178 := by decide
  have z61 : crcZeroSteps 852004178 40 = 965628043 := by decide
  have z62 : crcZeroSteps 965628043 40 = 473696668 := by decide
  have z63 : crcZeroSteps 473696668 40 = 4194642015 := by decide
  have z64 : crcZeroSteps 4194642015 40 = 3987375675 := by decide
  have z65 : crcZeroSteps 3987375675 40 = 3292321070 := by decide
  have z66 : crcZeroSteps 3292321070 40 = 2053468394 := by decide
  have z67 : crcZeroSteps 2053468394 40 = 3593525591 := by decide
  have z68 : crcZeroSteps 3593525591 40 = 2693164570 := by decide
  have z69 : crcZeroSteps 2693164570 40 = 2452615927 := by decide
  have z70 : crcZeroSteps 2452615927 40 = 3702565586 := by decide
  have z71 : crcZeroSteps 3702565586 40 = 4157793601 := by decide
  have z72 : crcZeroSteps 4157793601 40 = 2401861123 := by decide
  have z73 : crcZeroSteps 2401861123 40 = 273178610 := by decide
  have z74 : crcZeroSteps 273178610 40 = 1415459973 := by decide
  have z75 : crcZeroSteps 1415459973 40 = 2097397318 := by decide
  have z76 : crcZeroSteps 2097397318 40 = 3450730582 := by decide
  have z77 : crcZeroSteps 3450730582 40 = 3153520262 := by decide
  have z78 : crcZeroSteps 3153520262 40 = 64751237 := by decide
  have z79 : crcZeroSteps 64751237 40 = 3705957587 := by decide
  have z80 : crcZeroSteps 3705957587 40 = 4187308873 := by decide
  have z81 : crcZeroSteps 4187308873 40 = 1842350451 := by decide
  have z82 : crcZeroSteps 1842350451 40 = 3625938999 := by decide
  have z83 : crcZeroSteps 3625938999 40 = 4176815293 := by decide
  have z84 : crcZeroSteps 4176815293 40 = 3293490168 := by decide
  have z85 : crcZeroSteps 3293490168 40 = 4118420432 := by decide
  have z86 : crcZeroSteps 4118420432 40 = 3607824444 := by decide
  have z87 : crcZeroSteps 3607824444 40 = 762758564 := by decide
  have z88 : crcZeroSteps 762758564 40 = 3696436376 := by decide
  have z89 : crcZeroSteps 3696436376 40 = 2770074850 := by decide
  have z90 : crcZeroSteps 2770074850 40 = 4268651053 := by decide
  have z91 : crcZeroSteps 4268651053 40 = 759660024 := by decide
  have z92 : crcZeroSteps 759660024 40 = 1691537512 := by decide
  have z93 : crcZeroSteps 1691537512 40 = 217789639 := by decide
  have z94 : crcZeroSteps 217789639 40 = 3144905240 := by decide
  have z95 : crcZeroSteps 3144905240 40 = 4245852772 := by decide
  have z96 : crcZeroSteps 4245852772 40 = 2050170243 := by decide
  have z97 : crcZeroSteps 2050170243 40 = 3729549903 := by decide
  have z98 : crcZeroSteps 3729549903 40 = 1629421833 := by decide
  have z99 : crcZeroSteps 1629421833 40 = 2554148374 := by decide
  have zS : crcZeroSteps 2554148374 16 = 162088470 := by decide
  have zF : crcZeroSteps 2554148374 20 = 125584949 := by decide
  have t1 : crcZeroSteps 1496650053 3976 = crcZeroSteps 3656447851 3936 :=
    crcZeroSteps_chunk40 3936 1496650053 3656447851 z1
  have t2 : crcZeroSteps 1496650053 3976 = crcZeroSteps 819008272 3896 :=
    Eq.trans t1 (crcZeroSteps_chunk40 3896 3656447851 819008272 z2)
  have t3 : crcZeroSteps 1496650053 3976 = crcZeroSteps 2620134531 3856 :=
    Eq.trans t2 (crcZeroSteps_chunk40 3856 819008272 2620134531 z3)
  have t4 : crcZeroSteps 1496650053 3976 = crcZeroSteps 430938335 3816 :=
    Eq.trans t3 (crcZeroSteps_chunk40 3816 2620134531 430938335 z4)
  have t5 : crcZeroSteps 1496650053 3976 = crcZeroSteps 889551846 3776 :=
    Eq.trans t4 (crcZeroSteps_chunk40 3776 430938335 889551846 z5)
  have t6 : crcZeroSteps 1496650053 3976 = crcZeroSteps 115001343 3736 :=
    Eq.trans t5 (crcZeroSteps_chunk40 3736 889551846 115001343 z6)
  have t7 : crcZeroSteps 1496650053 3976 = crcZeroSteps 866993844 3696 :=
    Eq.trans t6 (crcZeroSteps_chunk40 3696 115001343 866993844 z7)
  have t8 : crcZeroSteps 1496650053 3976 = crcZeroSteps 3994061867 3656 :=
    Eq.trans t7 (crcZeroSteps_chunk40 3656 866993844 3994061867 z8)
  have t9 : crcZeroSteps 1496650053 3976 = crcZeroSteps 823407907 3616 :=
    Eq.trans t8 (crcZeroSteps_chunk40 3616 3994061867 823407907 z9)
  have t10 : crcZeroSteps 1496650053 3976 = crcZeroSteps 733126589 3576 :=
    Eq.trans t9 (crcZeroSteps_chunk40 3576 823407907 733126589 z10)
  have t11 : crcZeroSteps 1496650053 3976 = crcZeroSteps 2110565146 3536 :=
    Eq.trans t10 (crcZeroSteps_chunk40 3536 733126589 2110565146 z11)
  have t12 : crcZeroSteps 1496650053 3976 = crcZeroSteps 3708681930 3496 :=
    Eq.trans t11 (crcZeroSteps_chunk40 3496 2110565146 3708681930 z12)
  have t13 : crcZeroSteps 1496650053 3976 = crcZeroSteps 749742738 3456 :=
    Eq.trans t12 (crcZeroSteps_chunk40 3456 3708681930 749742738 z13)
  have t14 : crcZeroSteps 1496650053 3976 = crcZeroSteps 2259476690 3416 :=
    Eq.trans t13 (crcZeroSteps_chunk40 3416 749742738 2259476690 z14)
  have t15 : crcZeroSteps 1496650053 3976 = crcZeroSteps 3542696057 3376 :=
    Eq.trans t14 (crcZeroSteps_chunk40 3376 2259476690 3542696057 z15)
  have t16 : crcZeroSteps 1496650053 3976 = crcZeroSteps 4276860724 3336 :=
    Eq.trans t15 (crcZeroSteps_chunk40 3336 3542696057 4276860724 z16)
  have t17 : crcZeroSteps 1496650053 3976 = crcZeroSteps 1353516125 3296 :=
    Eq.trans t16 (crcZeroSteps_chunk40 3296 4276860724 1353516125 z17)
  have t18 : crcZeroSteps 1496650053 3976 = crcZeroSteps 944488965 3256 :=
    Eq.trans t17 (crcZeroSteps_chunk40 3256 1353516125 944488965 z18)
  have t19 : crcZeroSteps 1496650053 3976 = crcZeroSteps 1375367516 3216 :=
    Eq.trans t18 (crcZeroSteps_chunk40 3216 944488965 1375367516 z19)
  have t20 : crcZeroSteps 1496650053 3976 = crcZeroSteps 982573125 3176 :=
    Eq.trans t19 (crcZeroSteps_chunk40 3176 1375367516 982573125 z20)
  have t21 : crcZeroSteps 1496650053 3976 = crcZeroSteps 1305040227 3136 :=
    Eq.trans t20 (crcZeroSteps_chunk40 3136 982573125 1305040227 z21)
  have t22 : crcZeroSteps 1496650053 3976 = crcZeroSteps 1647923850 3096 :=
    Eq.trans t21 (crcZeroSteps_chunk40 3096 1305040227 1647923850 z22)
  have t23 : crcZeroSteps 1496650053 3976 = crcZeroSteps 657412330 3056 :=
    Eq.trans t22 (crcZeroSteps_chunk40 3056 1647923850 657412330 z23)
  have t24 : crcZeroSteps 1496650053 3976 = crcZeroSteps 2126349257 3016 :=
    Eq.trans t23 (crcZeroSteps_chunk40 3016 657412330 2126349257 z24)
  have t25 : crcZeroSteps 1496650053 3976 = crcZeroSteps 3145029526 2976 :=
    Eq.trans t24 (crcZeroSteps_chunk40 2976 2126349257 3145029526 z25)
  have t26 : crcZeroSteps 1496650053 3976 = crcZeroSteps 1267010001 2936 :=
    Eq.trans t25 (crcZeroSteps_chunk40 2936 3145029526 1267010001 z26)
  have t27 : crcZeroSteps 1496650053 3976 = crcZeroSteps 231515832 2896 :=
    Eq.trans t26 (crcZeroSteps_chunk40 2896 1267010001 231515832 z27)
  have t28 : crcZeroSteps 1496650053 3976 = crcZeroSteps 3816111865 2856 :=
    Eq.trans t27 (crcZeroSteps_chunk40 2856 231515832 3816111865 z28)
  have t29 : crcZeroSteps 1496650053 3976 = crcZeroSteps 2415215262 2816 :=
    Eq.trans t28 (crcZeroSteps_chunk40 2816 3816111865 2415215262 z29)
  have t30 : crcZeroSteps 1496650053 3976 = crcZeroSteps 3360374691 2776 :=
    Eq.trans t29 (crcZeroSteps_chunk40 2776 2415215262 3360374691 z30)
  have t31 : crcZeroSteps 1496650053 3976 = crcZeroSteps 3301320777 2736 :=
    Eq.trans t30 (crcZeroSteps_chunk40 2736 3360374691 3301320777 z31)
  have t32 : crcZeroSteps 1496650053 3976 = crcZeroSteps 3647249683 2696 :=
    Eq.trans t31 (crcZeroSteps_chunk40 2696 3301320777 3647249683 z32)
  have t33 : crcZeroSteps 1496650053 3976 = crcZeroSteps 2268641266 2656 :=
    Eq.trans t32 (crcZeroSteps_chunk40 2656 3647249683 2268641266 z33)
  have t34 : crcZeroSteps 1496650053 3976 = crcZeroSteps 3976656642 2616 :=
    Eq.trans t33 (crcZeroSteps_chunk40 2616 2268641266 3976656642 z34)
  have t35 : crcZeroSteps 1496650053 3976 = crcZeroSteps 4074696183 2576 :=
    Eq.trans t34 (crcZeroSteps_chunk40 2576 3976656642 4074696183 z35)
  have t36 : crcZeroSteps 1496650053 3976 = crcZeroSteps 3445426770 2536 :=
    Eq.trans t35 (crcZeroSteps_chunk40 2536 4074696183 3445426770 z36)
  have t37 : crcZeroSteps 1496650053 3976 = crcZeroSteps 966712758 2496 :=
    Eq.trans t36 (crcZeroSteps_chunk40 2496 3445426770 966712758 z37)
  have t38 : crcZeroSteps 1496650053 3976 = crcZeroSteps 2594415331 2456 :=
    Eq.trans t37 (crcZeroSteps_chunk40 2456 966712758 2594415331 z38)
  have t39 : crcZeroSteps 1496650053 3976 = crcZeroSteps 2551045041 2416 :=
    Eq.trans t38 (crcZeroSteps_chunk40 2416 2594415331 2551045041 z39)
  have t40 : crcZeroSteps 1496650053 3976 = crcZeroSteps 2865451689 2376 :=
    Eq.trans t39 (crcZeroSteps_chunk40 2376 2551045041 2865451689 z40)
  have t41 : crcZeroSteps 1496650053 3976 = crcZeroSteps 3293868245 2336 :=
    Eq.trans t40 (crcZeroSteps_chunk40 2336 2865451689 3293868245 z41)
  have t42 : crcZeroSteps 1496650053 3976 = crcZeroSteps 1898485947 2296 :=
    Eq.trans t41 (crcZeroSteps_chunk40 2296 3293868245 1898485947 z42)
  have t43 : crcZeroSteps 1496650053 3976 = crcZeroSteps 1115893708 2256 :=
    Eq.trans t42 (crcZeroSteps_chunk40 2256 1898485947 1115893708 z43)
  have t44 : crcZeroSteps 1496650053 3976 = crcZeroSteps 540093973 2216 :=
    Eq.trans t43 (crcZeroSteps_chunk40 2216 1115893708 540093973 z44)
  have t45 : crcZeroSteps 1496650053 3976 = crcZeroSteps 3313873688 2176 :=
    Eq.trans t44 (crcZeroSteps_chunk40 2176 540093973 3313873688 z45)
  have t46 : crcZeroSteps 1496650053 3976 = crcZeroSteps 785073480 2136 :=
    Eq.trans t45 (crcZeroSteps_chunk40 2136 3313873688 785073480 z46)
  have t47 : crcZeroSteps 1496650053 3976 = crcZeroSteps 1040630396 2096 :=
    Eq.trans t46 (crcZeroSteps_chunk40 2096 785073480 1040630396 z47)
  have t48 : crcZeroSteps 1496650053 3976 = crcZeroSteps 1227366485 2056 :=
    Eq.trans t47 (crcZeroSteps_chunk40 2056 1040630396 1227366485 z48)
  have t49 : crcZeroSteps 1496650053 3976 = crcZeroSteps 2173852649 2016 :=
    Eq.trans t48 (crcZeroSteps_chunk40 2016 1227366485 2173852649 z49)
  have t50 : crcZeroSteps 1496650053 3976 = crcZeroSteps 2160342919 1976 :=
    Eq.trans t49 (crcZeroSteps_chunk40 1976 2173852649 2160342919 z50)
  have t51 : crcZeroSteps 1496650053 3976 = crcZeroSteps 3170659198 1936 :=
    Eq.trans t50 (crcZeroSteps_chunk40 1936 2160342919 3170659198 z51)
  have t52 : crcZeroSteps 1496650053 3976 = crcZeroSteps 2743460941 1896 :=
    Eq.trans t51 (crcZeroSteps_chunk40 1896 3170659198 2743460941 z52)
  have t53 : crcZeroSteps 1496650053 3976 = crcZeroSteps 739180555 1856 :=
    Eq.trans t52 (crcZeroSteps_chunk40 1856 2743460941 739180555 z53)
  have t54 : crcZeroSteps 1496650053 3976 = crcZeroSteps 2273014902 1816 :=
    Eq.trans t53 (crcZeroSteps_chunk40 1816 739180555 2273014902 z54)
  have t55 : crcZeroSteps 1496650053 3976 = crcZeroSteps 1515105131 1776 :=
    Eq.trans t54 (crcZeroSteps_chunk40 1776 2273014902 1515105131 z55)
  have t56 : crcZeroSteps 1496650053 3976 = crcZeroSteps 1283835963 1736 :=
    Eq.trans t55 (crcZeroSteps_chunk40 1736 1515105131 1283835963 z56)
  have t57 : crcZeroSteps 1496650053 3976 = crcZeroSteps 2648678756 1696 :=
    Eq.trans t56 (crcZeroSteps_chunk40 1696 1283835963 2648678756 z57)
  have t58 : crcZeroSteps 1496650053 3976 = crcZeroSteps 491423850 1656 :=
    Eq.trans t57 (crcZeroSteps_chunk40 1656 2648678756 491423850 z58)
  have t59 : crcZeroSteps 1496650053 3976 = crcZeroSteps 1798699146 1616 :=
    Eq.trans t58 (crcZeroSteps_chunk40 1616 491423850 1798699146 z59)
  have t60 : crcZeroSteps 1496650053 3976 = crcZeroSteps 852004178 1576 :=
    Eq.trans t59 (crcZeroSteps_chunk40 1576 1798699146 852004178 z60)
  have t61 : crcZeroSteps 1496650053 3976 = crcZeroSteps 965628043 1536 :=
    Eq.trans t60 (crcZeroSteps_chunk40 1536 852004178 965628043 z61)
  have t62 : crcZeroSteps 1496650053 3976 = crcZeroSteps 473696668 1496 :=
    Eq.trans t61 (crcZeroSteps_chunk40 1496 965628043 473696668 z62)
  have t63 : crcZeroSteps 1496650053 3976 = crcZeroSteps 4194642015 1456 :=
    Eq.trans t62 (crcZeroSteps_chunk40 1456 473696668 4194642015 z63)
  have t64 : crcZeroSteps 1496650053 3976 = crcZeroSteps 3987375675 1416 :=
    Eq.trans t63 (crcZeroSteps_chunk40 1416 4194642015 3987375675 z64)
  have t65 : crcZeroSteps 1496650053 3976 = crcZeroSteps 3292321070 1376 :=
    Eq.trans t64 (crcZeroSteps_chunk40 1376 3987375675 3292321070 z65)
  have t66 : crcZeroSteps 1496650053 3976 = crcZeroSteps 2053468394 1336 :=
    Eq.trans t65 (crcZeroSteps_chunk40 1336 3292321070 2053468394 z66)
  have t67 : crcZeroSteps 1496650053 3976 = crcZeroSteps 3593525591 1296 :=
    Eq.trans t66 (crcZeroSteps_chunk40 1296 2053468394 3593525591 z67)
  have t68 : crcZeroSteps 1496650053 3976 = crcZeroSteps 2693164570 1256 :=
    Eq.trans t67 (crcZeroSteps_chunk40 1256 3593525591 2693164570 z68)
  have t69 : crcZeroSteps 1496650053 3976 = crcZeroSteps 2452615927 1216 :=
    Eq.trans t68 (crcZeroSteps_chunk40 1216 2693164570 2452615927 z69)
  have t70 : crcZeroSteps 1496650053 3976 = crcZeroSteps 3702565586 1176 :=
    Eq.trans t69 (crcZeroSteps_chunk40 1176 2452615927 3702565586 z70)
  have t71 : crcZeroSteps 1496650053 3976 = crcZeroSteps 4157793601 1136 :=
    Eq.trans t70 (crcZeroSteps_chunk40 1136 3702565586 4157793601 z71)
  have t72 : crcZeroSteps 1496650053 3976 = crcZeroSteps 2401861123 1096 :=
    Eq.trans t71 (crcZeroSteps_chunk40 1096 4157793601 2401861123 z72)
  have t73 : crcZeroSteps 1496650053 3976 = crcZeroSteps 273178610 1056 :=
    Eq.trans t72 (crcZeroSteps_chunk40 1056 2401861123 273178610 z73)
  have t74 : crcZeroSteps 1496650053 3976 = crcZeroSteps 1415459973 1016 :=
    Eq.trans t73 (crcZeroSteps_chunk40 1016 273178610 1415459973 z74)
  have t75 : crcZeroSteps 1496650053 3976 = crcZeroSteps 2097397318 976 :=
    Eq.trans t74 (crcZeroSteps_chunk40 976 1415459973 2097397318 z75)
  have t76 : crcZeroSteps 1496650053 3976 = crcZeroSteps 3450730582 936 :=
    Eq.trans t75 (crcZeroSteps_chunk40 936 2097397318 3450730582 z76)
  have t77 : crcZeroSteps 1496650053 3976 = crcZeroSteps 3153520262 896 :=
    Eq.trans t76 (crcZeroSteps_chunk40 896 3450730582 3153520262 z77)
  have t78 : crcZeroSteps 1496650053 3976 = crcZeroSteps 64751237 856 :=
    Eq.trans t77 (crcZeroSteps_chunk40 856 3153520262 64751237 z78)
  have t79 : crcZeroSteps 1496650053 3976 = crcZeroSteps 3705957587 816 :=
    Eq.trans t78 (crcZeroSteps_chunk40 816 64751237 3705957587 z79)
  have t80 : crcZeroSteps 1496650053 3976 = crcZeroSteps 4187308873 776 :=
    Eq.trans t79 (crcZeroSteps_chunk40 776 3705957587 4187308873 z80)
  have t81 : crcZeroSteps 1496650053 3976 = crcZeroSteps 1842350451 736 :=
    Eq.trans t80 (crcZeroSteps_chunk40 736 4187308873 1842350451 z81)
  have t82 : crcZeroSteps 1496650053 3976 = crcZeroSteps 3625938999 696 :=
    Eq.trans t81 (crcZeroSteps_chunk40 696 1842350451 3625938999 z82)
  have t83 : crcZeroSteps 1496650053 3976 = crcZeroSteps 4176815293 656 :=
    Eq.trans t82 (crcZeroSteps_chunk40 656 3625938999 4176815293 z83)
  have t84 : crcZeroSteps 1496650053 3976 = crcZeroSteps 3293490168 616 :=
    Eq.trans t83 (crcZeroSteps_chunk40 616 4176815293 3293490168 z84)
  have t85 : crcZeroSteps 1496650053 3976 = crcZeroSteps 4118420432 576 :=
    Eq.trans t84 (crcZeroSteps_chunk40 576 3293490168 4118420432 z85)
  have t86 : crcZeroSteps 1496650053 3976 = crcZeroSteps 3607824444 536 :=
    Eq.trans t85 (crcZeroSteps_chunk40 536 4118420432 3607824444 z86)
  have t87 : crcZeroSteps 1496650053 3976 = crcZeroSteps 762758564 496 :=
    Eq.trans t86 (crcZeroSteps_chunk40 496 3607824444 762758564 z87)
  have t88 : crcZeroSteps 1496650053 3976 = crcZeroSteps 3696436376 456 :=
    Eq.trans t87 (crcZeroSteps_chunk40 456 762758564 3696436376 z88)
  have t89 : crcZeroSteps 1496650053 3976 = crcZeroSteps 2770074850 416 :=
    Eq.trans t88 (crcZeroSteps_chunk40 416 3696436376 2770074850 z89)
  have t90 : crcZeroSteps 1496650053 3976 = crcZeroSteps 4268651053 376 :=
    Eq.trans t89 (crcZeroSteps_chunk40 376 2770074850 4268651053 z90)
  have t91 : crcZeroSteps 1496650053 3976 = crcZeroSteps 759660024 336 :=
    Eq.trans t90 (crcZeroSteps_chunk40 336 4268651053 759660024 z91)
  have t92 : crcZeroSteps 1496650053 3976 = crcZeroSteps 1691537512 296 :=
    Eq.trans t91 (crcZeroSteps_chunk40 296 759660024 1691537512 z92)
  have t93 : crcZeroSteps 1496650053 3976 = crcZeroSteps 217789639 256 :=
    Eq.trans t92 (crcZeroSteps_chunk40 256 1691537512 217789639 z93)
  have t94 : crcZeroSteps 1496650053 3976 = crcZeroSteps 3144905240 216 :=
    Eq.trans t93 (crcZeroSteps_chunk40 216 217789639 3144905240 z94)
  have t95 : crcZeroSteps 1496650053 3976 = crcZeroSteps 4245852772 176 :=
    Eq.trans t94 (crcZeroSteps_chunk40 176 3144905240 4245852772 z95)
  have t96 : crcZeroSteps 1496650053 3976 = crcZeroSteps 2050170243 136 :=
    Eq.trans t95 (crcZeroSteps_chunk40 136 4245852772 2050170243 z96)
  have t97 : crcZeroSteps 1496650053 3976 = crcZeroSteps 3729549903 96 :=
    Eq.trans t96 (crcZeroSteps_chunk40 96 2050170243 3729549903 z97)
  have t98 : crcZeroSteps 1496650053 3976 = crcZeroSteps 1629421833 56 :=
    Eq.trans t97 (crcZeroSteps_chunk40 56 3729549903 1629421833 z98)
  have t99 : crcZeroSteps 1496650053 3976 = crcZeroSteps 2554148374 16 :=
    Eq.trans t98 (crcZeroSteps_chunk40 16 1629421833 2554148374 z99)
  have tS : crcZeroSteps 1496650053 3976 = 162088470 := Eq.trans t99 zS
  have u1 : crcZeroSteps 1496650053 3980 = crcZeroSteps 3656447851 3940 :=
    crcZeroSteps_chunk40 3940 1496650053 3656447851 z1
  have u2 : crcZeroSteps 1496650053 3980 = crcZeroSteps 819008272 3900 :=
    Eq.trans u1 (crcZeroSteps_chunk40 3900 3656447851 819008272 z2)
  have u3 : crcZeroSteps 1496650053 3980 = crcZeroSteps 2620134531 3860 :=
    Eq.trans u2 (crcZeroSteps_chunk40 3860 819008272 2620134531 z3)
  have u4 : crcZeroSteps 1496650053 3980 = crcZeroSteps 430938335 3820 :=
    Eq.trans u3 (crcZeroSteps_chunk40 3820 2620134531 430938335 z4)
  have u5 : crcZeroSteps 1496650053 3980 = crcZeroSteps 889551846 3780 :=
    Eq.trans u4 (crcZeroSteps_chunk40 3780 430938335 889551846 z5)
  have u6 : crcZeroSteps 1496650053 3980 = crcZeroSteps 115001343 3740 :=
    Eq.trans u5 (crcZeroSteps_chunk40 3740 889551846 115001343 z6)
  have u7 : crcZeroSteps 1496650053 3980 = crcZeroSteps 866993844 3700 :=
    Eq.trans u6 (crcZeroSteps_chunk40 3700 115001343 866993844 z7)
  have u8 : crcZeroSteps 1496650053 3980 = crcZeroSteps 3994061867 3660 :=
    Eq.trans u7 (crcZeroSteps_chunk40 3660 866993844 3994061867 z8)
  have u9 : crcZeroSteps 1496650053 3980 = crcZeroSteps 823407907 3620 :=
    Eq.trans u8 (crcZeroSteps_chunk40 3620 3994061867 823407907 z9)
  have u10 : crcZeroSteps 1496650053 3980 = crcZeroSteps 733126589 3580 :=
    Eq.trans u9 (crcZeroSteps_chunk40 3580 823407907 733126589 z10)
  have u11 : crcZeroSteps 1496650053 3980 = crcZeroSteps 2110565146 3540 :=
    Eq.trans u10 (crcZeroSteps_chunk40 3540 733126589 2110565146 z11)
  have u12 : crcZeroSteps 1496650053 3980 = crcZeroSteps 3708681930 3500 :=
    Eq.trans u11 (crcZeroSteps_chunk40 3500 2110565146 3708681930 z12)
  have u13 : crcZeroSteps 1496650053 3980 = crcZeroSteps 749742738 3460 :=
    Eq.trans u12 (crcZeroSteps_chunk40 3460 3708681930 749742738 z13)
  have u14 : crcZeroSteps 1496650053 3980 = crcZeroSteps 2259476690 3420 :=
    Eq.trans u13 (crcZeroSteps_chunk40 3420 749742738 2259476690 z14)
  have u15 : crcZeroSteps 1496650053 3980 = crcZeroSteps 3542696057 3380 :=
    Eq.trans u14 (crcZeroSteps_chunk40 3380 2259476690 3542696057 z15)
  have u16 : crcZeroSteps 1496650053 3980 = crcZeroSteps 4276860724 3340 :=
    Eq.trans u15 (crcZeroSteps_chunk40 3340 3542696057 4276860724 z16)
  have u17 : crcZeroSteps 1496650053 3980 = crcZeroSteps 1353516125 3300 :=
    Eq.trans u16 (crcZeroSteps_chunk40 3300 4276860724 1353516125 z17)
  have u18 : crcZeroSteps 1496650053 3980 = crcZeroSteps 944488965 3260 :=
    Eq.trans u17 (crcZeroSteps_chunk40 3260 1353516125 944488965 z18)
  have u19 : crcZeroSteps 1496650053 3980 = crcZeroSteps 1375367516 3220 :=
    Eq.trans u18 (crcZeroSteps_chunk40 3220 944488965 1375367516 z19)
  have u20 : crcZeroSteps 1496650053 3980 = crcZeroSteps 982573125 3180 :=
    Eq.trans u19 (crcZeroSteps_chunk40 3180 1375367516 982573125 z20)
  have u21 : crcZeroSteps 1496650053 3980 = crcZeroSteps 1305040227 3140 :=
    Eq.trans u20 (crcZeroSteps_chunk40 3140 982573125 1305040227 z21)
  have u22 : crcZeroSteps 1496650053 3980 = crcZeroSteps 1647923850 3100 :=
    Eq.trans u21 (crcZeroSteps_chunk40 3100 1305040227 1647923850 z22)
  have u23 : crcZeroSteps 1496650053 3980 = crcZeroSteps 657412330 3060 :=
    Eq.trans u22 (crcZeroSteps_chunk40 3060 1647923850 657412330 z23)
  have u24 : crcZeroSteps 1496650053 3980 = crcZeroSteps 2126349257 3020 :=
    Eq.trans u23 (crcZeroSteps_chunk40 3020 657412330 2126349257 z24)
  have u25 : crcZeroSteps 1496650053 3980 = crcZeroSteps 3145029526 2980 :=
    Eq.trans u24 (crcZeroSteps_chunk40 2980 2126349257 3145029526 z25)
  have u26 : crcZeroSteps 1496650053 3980 = crcZeroSteps 1267010001 2940 :=
    Eq.trans u25 (crcZeroSteps_chunk40 2940 3145029526 1267010001 z26)
  have u27 : crcZeroSteps 1496650053 3980 = crcZeroSteps 231515832 2900 :=
    Eq.trans u26 (crcZeroSteps_chunk40 2900 1267010001 231515832 z27)
  have u28 : crcZeroSteps 1496650053 3980 = crcZeroSteps 3816111865 2860 :=
    Eq.trans u27 (crcZeroSteps_chunk40 2860 231515832 3816111865 z28)
  have u29 : crcZeroSteps 1496650053 3980 = crcZeroSteps 2415215262 2820 :=
    Eq.trans u28 (crcZeroSteps_chunk40 2820 3816111865 2415215262 z29)
  have u30 : crcZeroSteps 1496650053 3980 = crcZeroSteps 3360374691 2780 :=
    Eq.trans u29 (crcZeroSteps_chunk40 2780 2415215262 3360374691 z30)
  have u31 : crcZeroSteps 1496650053 3980 = crcZeroSteps 3301320777 2740 :=
    Eq.trans u30 (crcZeroSteps_chunk40 2740 3360374691 3301320777 z31)
  have u32 : crcZeroSteps 1496650053 3980 = crcZeroSteps 3647249683 2700 :=
    Eq.trans u31 (crcZeroSteps_chunk40 2700 3301320777 3647249683 z32)
  have u33 : crcZeroSteps 1496650053 3980 = crcZeroSteps 2268641266 2660 :=
    Eq.trans u32 (crcZeroSteps_chunk40 2660 3647249683 2268641266 z33)
  have u34 : crcZeroSteps 1496650053 3980 = crcZeroSteps 3976656642 2620 :=
    Eq.trans u33 (crcZeroSteps_chunk40 2620 2268641266 3976656642 z34)
  have u35 : crcZeroSteps 1496650053 3980 = crcZeroSteps 4074696183 2580 :=
    Eq.trans u34 (crcZeroSteps_chunk40 2580 3976656642 4074696183 z35)
  have u36 : crcZeroSteps 1496650053 3980 = crcZeroSteps 3445426770 2540 :=
    Eq.trans u35 (crcZeroSteps_chunk40 2540 4074696183 3445426770 z36)
  have u37 : crcZeroSteps 1496650053 3980 = crcZeroSteps 966712758 2500 :=
    Eq.trans u36 (crcZeroSteps_chunk40 2500 3445426770 966712758 z37)
  have u38 : crcZeroSteps 1496650053 3980 = crcZeroSteps 2594415331 2460 :=
    Eq.trans u37 (crcZeroSteps_chunk40 2460 966712758 2594415331 z38)
  have u39 : crcZeroSteps 1496650053 3980 = crcZeroSteps 2551045041 2420 :=
    Eq.trans u38 (crcZeroSteps_chunk40 2420 2594415331 2551045041 z39)
  have u40 : crcZeroSteps 1496650053 3980 = crcZeroSteps 2865451689 2380 :=
    Eq.trans u39 (crcZeroSteps_chunk40 2380 2551045041 2865451689 z40)
  have u41 : crcZeroSteps 1496650053 3980 = crcZeroSteps 3293868245 2340 :=
    Eq.trans u40 (crcZeroSteps_chunk40 2340 2865451689 3293868245 z41)
  have u42 : crcZeroSteps 1496650053 3980 = crcZeroSteps 1898485947 2300 :=
    Eq.trans u41 (crcZeroSteps_chunk40 2300 3293868245 1898485947 z42)
  have u43 : crcZeroSteps 1496650053 3980 = crcZeroSteps 1115893708 2260 :=
    Eq.trans u42 (crcZeroSteps_chunk40 2260 1898485947 1115893708 z43)
  have u44 : crcZeroSteps 1496650053 3980 = crcZeroSteps 540093973 2220 :=
    Eq.trans u43 (crcZeroSteps_chunk40 2220 1115893708 540093973 z44)
  have u45 : crcZeroSteps 1496650053 3980 = crcZeroSteps 3313873688 2180 :=
    Eq.trans u44 (crcZeroSteps_chunk40 2180 540093973 3313873688 z45)
  have u46 : crcZeroSteps 1496650053 3980 = crcZeroSteps 785073480 2140 :=
    Eq.trans u45 (crcZeroSteps_chunk40 2140 3313873688 785073480 z46)
  have u47 : crcZeroSteps 1496650053 3980 = crcZeroSteps 1040630396 2100 :=
    Eq.trans u46 (crcZeroSteps_chunk40 2100 785073480 1040630396 z47)
  have u48 : crcZeroSteps 1496650053 3980 = crcZeroSteps 1227366485 2060 :=
    Eq.trans u47 (crcZeroSteps_chunk40 2060 1040630396 1227366485 z48)
  have u49 : crcZeroSteps 1496650053 3980 = crcZeroSteps 2173852649 2020 :=
    Eq.trans u48 (crcZeroSteps_chunk40 2020 1227366485 2173852649 z49)
  have u50 : crcZeroSteps 1496650053 3980 = crcZeroSteps 2160342919 1980 :=
    Eq.trans u49 (crcZeroSteps_chunk40 1980 2173852649 2160342919 z50)
  have u51 : crcZeroSteps 1496650053 3980 = crcZeroSteps 3170659198 1940 :=
    Eq.trans u50 (crcZeroSteps_chunk40 1940 2160342919 3170659198 z51)
  have u52 : crcZeroSteps 1496650053 3980 = crcZeroSteps 2743460941 1900 :=
    Eq.trans u51 (crcZeroSteps_chunk40 1900 3170659198 2743460941 z52)
  have u53 : crcZeroSteps 1496650053 3980 = crcZeroSteps 739180555 1860 :=
    Eq.trans u52 (crcZeroSteps_chunk40 1860 2743460941 739180555 z53)
  have u54 : crcZeroSteps 1496650053 3980 = crcZeroSteps 2273014902 1820 :=
    Eq.trans u53 (crcZeroSteps_chunk40 1820 739180555 2273014902 z54)
  have u55 : crcZeroSteps 1496650053 3980 = crcZeroSteps 1515105131 1780 :=
    Eq.trans u54 (crcZeroSteps_chunk40 1780 2273014902 1515105131 z55)
  have u56 : crcZeroSteps 1496650053 3980 = crcZeroSteps 1283835963 1740 :=
    Eq.trans u55 (crcZeroSteps_chunk40 1740 1515105131 1283835963 z56)
  have u57 : crcZeroSteps 1496650053 3980 = crcZeroSteps 2648678756 1700 :=
    Eq.trans u56 (crcZeroSteps_chunk40 1700 1283835963 2648678756 z57)
  have u58 : crcZeroSteps 1496650053 3980 = crcZeroSteps 491423850 1660 :=
    Eq.trans u57 (crcZeroSteps_chunk40 1660 2648678756 491423850 z58)
  have u59 : crcZeroSteps 1496650053 3980 = crcZeroSteps 1798699146 1620 :=
    Eq.trans u58 (crcZeroSteps_chunk40 1620 491423850 1798699146 z59)
  have u60 : crcZeroSteps 1496650053 3980 = crcZeroSteps 852004178 1580 :=
    Eq.trans u59 (crcZeroSteps_chunk40 1580 1798699146 852004178 z60)
  have u61 : crcZeroSteps 1496650053 3980 = crcZeroSteps 965628043 1540 :=
    Eq.trans u60 (crcZeroSteps_chunk40 1540 852004178 965628043 z61)
  have u62 : crcZeroSteps 1496650053 3980 = crcZeroSteps 473696668 1500 :=
    Eq.trans u61 (crcZeroSteps_chunk40 1500 965628043 473696668 z62)
  have u63 : crcZeroSteps 1496650053 3980 = crcZeroSteps 4194642015 1460 :=
    Eq.trans u62 (crcZeroSteps_chunk40 1460 473696668 4194642015 z63)
  have u64 : crcZeroSteps 1496650053 3980 = crcZeroSteps 3987375675 1420 :=
    Eq.trans u63 (crcZeroSteps_chunk40 1420 4194642015 3987375675 z64)
  have u65 : crcZeroSteps 1496650053 3980 = crcZeroSteps 3292321070 1380 :=
    Eq.trans u64 (crcZeroSteps_chunk40 1380 3987375675 3292321070 z65)
  have u66 : crcZeroSteps 1496650053 3980 = crcZeroSteps 2053468394 1340 :=
    Eq.trans u65 (crcZeroSteps_chunk40 1340 3292321070 2053468394 z66)
  have u67 : crcZeroSteps 1496650053 3980 = crcZeroSteps 3593525591 1300 :=
    Eq.trans u66 (crcZeroSteps_chunk40 1300 2053468394 3593525591 z67)
  have u68 : crcZeroSteps 1496650053 3980 = crcZeroSteps 2693164570 1260 :=
    Eq.trans u67 (crcZeroSteps_chunk40 1260 3593525591 2693164570 z68)
  have u69 : crcZeroSteps 1496650053 3980 = crcZeroSteps 2452615927 1220 :=
    Eq.trans u68 (crcZeroSteps_chunk40 1220 2693164570 2452615927 z69)
  have u70 : crcZeroSteps 1496650053 3980 = crcZeroSteps 3702565586 1180 :=
    Eq.trans u69 (crcZeroSteps_chunk40 1180 2452615927 3702565586 z70)
  have u71 : crcZeroSteps 1496650053 3980 = crcZeroSteps 4157793601 1140 :=
    Eq.trans u70 (crcZeroSteps_chunk40 1140 3702565586 4157793601 z71)
  have u72 : crcZeroSteps 1496650053 3980 = crcZeroSteps 2401861123 1100 :=
    Eq.trans u71 (crcZeroSteps_chunk40 1100 4157793601 2401861123 z72)
  have u73 : crcZeroSteps 1496650053 3980 = crcZeroSteps 273178610 1060 :=
    Eq.trans u72 (crcZeroSteps_chunk40 1060 2401861123 273178610 z73)
  have u74 : crcZeroSteps 1496650053 3980 = crcZeroSteps 1415459973 1020 :=
    Eq.trans u73 (crcZeroSteps_chunk40 1020 273178610 1415459973 z74)
  have u75 : crcZeroSteps 1496650053 3980 = crcZeroSteps 2097397318 980 :=
    Eq.trans u74 (crcZeroSteps_chunk40 980 1415459973 2097397318 z75)
  have u76 : crcZeroSteps 1496650053 3980 = crcZeroSteps 3450730582 940 :=
    Eq.trans u75 (crcZeroSteps_chunk40 940 2097397318 3450730582 z76)
  have u77 : crcZeroSteps 1496650053 3980 = crcZeroSteps 3153520262 900 :=
    Eq.trans u76 (crcZeroSteps_chunk40 900 3450730582 3153520262 z77)
  have u78 : crcZeroSteps 1496650053 3980 = crcZeroSteps 64751237 860 :=
    Eq.trans u77 (crcZeroSteps_chunk40 860 3153520262 64751237 z78)
  have u79 : crcZeroSteps 1496650053 3980 = crcZeroSteps 3705957587 820 :=
    Eq.trans u78 (crcZeroSteps_chunk40 820 64751237 3705957587 z79)
  have u80 : crcZeroSteps 1496650053 3980 = crcZeroSteps 4187308873 780 :=
    Eq.trans u79 (crcZeroSteps_chunk40 780 3705957587 4187308873 z80)
  have u81 : crcZeroSteps 1496650053 3980 = crcZeroSteps 1842350451 740 :=
    Eq.trans u80 (crcZeroSteps_chunk40 740 4187308873 1842350451 z81)
  have u82 : crcZeroSteps 1496650053 3980 = crcZeroSteps 3625938999 700 :=
    Eq.trans u81 (crcZeroSteps_chunk40 700 1842350451 3625938999 z82)
  have u83 : crcZeroSteps 1496650053 3980 = crcZeroSteps 4176815293 660 :=
    Eq.trans u82 (crcZeroSteps_chunk40 660 3625938999 4176815293 z83)
  have u84 : crcZeroSteps 1496650053 3980 = crcZeroSteps 3293490168 620 :=
    Eq.trans u83 (crcZeroSteps_chunk40 620 4176815293 3293490168 z84)
  have u85 : crcZeroSteps 1496650053 3980 = crcZeroSteps 4118420432 580 :=
    Eq.trans u84 (crcZeroSteps_chunk40 580 3293490168 4118420432 z85)
  have u86 : crcZeroSteps 1496650053 3980 = crcZeroSteps 3607824444 540 :=
    Eq.trans u85 (crcZeroSteps_chunk40 540 4118420432 3607824444 z86)
  have u87 : crcZeroSteps 1496650053 3980 = crcZeroSteps 762758564 500 :=
    Eq.trans u86 (crcZeroSteps_chunk40 500 3607824444 762758564 z87)
  have u88 : crcZeroSteps 1496650053 3980 = crcZeroSteps 3696436376 460 :=
    Eq.trans u87 (crcZeroSteps_chunk40 460 762758564 3696436376 z88)
  have u89 : crcZeroSteps 1496650053 3980 = crcZeroSteps 2770074850 420 :=
    Eq.trans u88 (crcZeroSteps_chunk40 420 3696436376 2770074850 z89)
  have u90 : crcZeroSteps 1496650053 3980 = crcZeroSteps 4268651053 380 :=
    Eq.trans u89 (crcZeroSteps_chunk40 380 2770074850 4268651053 z90)
  have u91 : crcZeroSteps 1496650053 3980 = crcZeroSteps 759660024 340 :=
    Eq.trans u90 (crcZeroSteps_chunk40 340 4268651053 759660024 z91)
  have u92 : crcZeroSteps 1496650053 3980 = crcZeroSteps 1691537512 300 :=
    Eq.trans u91 (crcZeroSteps_chunk40 300 759660024 1691537512 z92)
  have u93 : crcZeroSteps 1496650053 3980 = crcZeroSteps 217789639 260 :=
    Eq.trans u92 (crcZeroSteps_chunk40 260 1691537512 217789639 z93)
  have u94 : crcZeroSteps 1496650053 3980 = crcZeroSteps 3144905240 220 :=
    Eq.trans u93 (crcZeroSteps_chunk40 220 217789639 3144905240 z94)
  have u95 : crcZeroSteps 1496650053 3980 = crcZeroSteps 4245852772 180 :=
    Eq.trans u94 (crcZeroSteps_chunk40 180 3144905240 4245852772 z95)
  have u96 : crcZeroSteps 1496650053 3980 = crcZeroSteps 2050170243 140 :=
    Eq.trans u95 (crcZeroSteps_chunk40 140 4245852772 2050170243 z96)
  have u97 : crcZeroSteps 1496650053 3980 = crcZeroSteps 3729549903 100 :=
    Eq.trans u96 (crcZeroSteps_chunk40 100 2050170243 3729549903 z97)
  have u98 : crcZeroSteps 1496650053 3980 = crcZeroSteps 1629421833 60 :=
    Eq.trans u97 (crcZeroSteps_chunk40 60 3729549903 1629421833 z98)
  have u99 : crcZeroSteps 1496650053 3980 = crcZeroSteps 2554148374 20 :=
    Eq.trans u98 (crcZeroSteps_chunk40 20 1629421833 2554148374 z99)
  have uF : crcZeroSteps 1496650053 3980 = 125584949 := Eq.trans u99 zF
  have h116 : (sbBytes preC3).length = 116 := sbBytes_length _
  have hta : (sbBytes preC3).take (BS - 4) = sbBytes preC3 :=
    List.take_of_length_le (by rw [h116]; unfold BS; omega)
  have hlist : (sbBytes preC3 ++ List.replicate (BS - 116) 0).take (BS - 4) =
      sbBytes preC3 ++ List.replicate 3976 0 := by
    rw [List.take_append_eq_append_take, h116, hta, List.take_replicate,
        show (min (BS - 4 - 116) (BS - 116) : Nat) = 3976 from rfl]
  have hA : readLE fmt45 112 4 =
      crc32 ((sbBytes preC3 ++ List.replicate (BS - 116) 0).take (BS - 4)) := by
    show (readSB fmt45).checksum = _
    rw [hsb, hpre, superblock_crc_finalize_spec preC3, superblock_crc_finalize_zero_checksum,
        show ({ preC3 with checksum := 0 } : Superblock) = preC3 from rfl]
  have e2s : List.foldl crcFoldStep 4294967295 (sbBytes preC3 ++ List.replicate 3976 0) =
      162088470 := by
    rw [List.foldl_append, hbytes, List.foldl_append, List.foldl_append, c1, c2, c3,
        foldl_replicate_zero]
    exact tS
  have e2f : List.foldl crcFoldStep 4294967295 (sbBytes preC3 ++ List.replicate 3980 0) =
      125584949 := by
    rw [List.foldl_append, hbytes, List.foldl_append, List.foldl_append, c1, c2, c3,
        foldl_replicate_zero]
    exact uF
  have hstored : readLE fmt45 112 4 = 4132878825 :=
    hA.trans ((congrArg crc32 hlist).trans ((crc32_eq_foldl _).trans
      ((congrArg (fun t => t ^^^ 4294967295) e2s).trans (by decide))))
  have hXpre : ({ readSB fmt45 with checksum := 0 } : Superblock) = preC3 := by
    rw [hsb, hpre, superblock_crc_finalize_zero_checksum]
    exact rfl
  have hlistf : sbBytes { readSB fmt45 with checksum := 0 } ++ List.replicate (BS - 116) 0 =
      sbBytes preC3 ++ List.replicate 3980 0 := by
    rw [hXpre, show (BS - 116 : Nat) = 3980 from rfl]
  have hfull : crc32 (sbBytes { readSB fmt45 with checksum := 0 } ++
      List.replicate (BS - 116) 0) = 4169382346 :=
    (congrArg crc32 hlistf).trans ((crc32_eq_foldl _).trans
      ((congrArg (fun t => t ^^^ 4294967295) e2f).trans (by decide)))
  rw [hstored, hfull]
  decide

/-- C3 as amended: for every superblock finalized by format or by a
successful add_file, the stored 4-byte checksum (bytes 112..115 of the
image) equals the CRC-32 (polynomial 0xEDB88320 reflected, initial and
final XOR 0xFFFFFFFF) over the first 4092 bytes — all bytes except the
trailing four — of the 4096-byte zero-padded serialization of the
superblock with the checksum field itself zeroed. -/
theorem claim_C3_amended :
    (∀ size_kib inode_cnt now img, now < 2 ^ 64 → mkfs size_kib inode_cnt now = some img →
      readLE img 112 4 = crc32 ((sbBytes { readSB img with checksum := 0 } ++
        List.replicate (BS - 116) 0).take (BS - 4))) ∧
    (∀ (img : Image) (fname content : List Nat) (now n : Nat) (img' : Image),
      (∀ k, img k < 256) → now < 2 ^ 64 → add_file img fname content now = (.ok n, img') →
      readLE img' 112 4 = crc32 ((sbBytes { readSB img' with checksum := 0 } ++
        List.replicate (BS - 116) 0).take (BS - 4))) := by
  constructor
  · intro size_kib inode_cnt now img hnow hmk
    obtain ⟨L, hL, himg, hsk1, hsk2, hsk4, hic1, hic2⟩ := mkfs_some_inv hmk
    subst himg
    have hrd := readSB_buildImage hL hnow (by unfold BS; omega) (by omega)
    have hproj : readLE (buildImage (size_kib * 1024 / BS) inode_cnt now L) 112 4 =
        (readSB (buildImage (size_kib * 1024 / BS) inode_cnt now L)).checksum := rfl
    rw [hproj, hrd]
    unfold buildSB
    exact superblock_crc_finalize_spec _
  · intro img fname content now n img' hbytes hnow hadd
    obtain ⟨hm, h2, fi, hfi, hn, h4, h5, off, hoff, himg'⟩ := add_file_ok_inv hadd
    subst himg'
    have hrd := @readSB_addCommit (addStage3 img (readSB img) content now fi
        (scanFreeBlocks img ((readSB img).data_bitmap_start * BS) 0
          (needBlocks content.length) (readSB img).data_region_blocks))
      (readSB img) fname now fi
      ((readInodeAt (addStage3 img (readSB img) content now fi
        (scanFreeBlocks img ((readSB img).data_bitmap_start * BS) 0
          (needBlocks content.length) (readSB img).data_region_blocks))
        ((readSB img).inode_table_start * BS)).direct.getD 0 0)
      off (sbBounds_readSB hbytes) hnow
    have hproj : readLE (addCommit (addStage3 img (readSB img) content now fi
        (scanFreeBlocks img ((readSB img).data_bitmap_start * BS) 0
          (needBlocks content.length) (readSB img).data_region_blocks)) (readSB img)
        fname now fi
        ((readInodeAt (addStage3 img (readSB img) content now fi
          (scanFreeBlocks img ((readSB img).data_bitmap_start * BS) 0
            (needBlocks content.length) (readSB img).data_region_blocks))
          ((readSB img).inode_table_start * BS)).direct.getD 0 0) off) 112 4 =
        (readSB (addCommit (addStage3 img (readSB img) content now fi
          (scanFreeBlocks img ((readSB img).data_bitmap_start * BS) 0
            (needBlocks content.length) (readSB img).data_region_blocks)) (readSB img)
          fname now fi
          ((readInodeAt (addStage3 img (readSB img) content now fi
            (scanFreeBlocks img ((readSB img).data_bitmap_start * BS) 0
              (needBlocks content.length) (readSB img).data_region_blocks))
            ((readSB img).inode_table_start * BS)).direct.getD 0 0) off)).checksum := rfl
    rw [hproj, hrd]
    exact superblock_crc_finalize_spec _

/-- Witness for the amended C3, the format part discharged at the
example parameters and the add part discharged on the example image with
the 10-byte file of the specification. -/
theorem claim_C3_amended_witness :
    readLE fmt45 112 4 = crc32 ((sbBytes { readSB fmt45 with checksum := 0 } ++
      List.replicate (BS - 116) 0).take (BS - 4)) ∧
    readLE (add_file fmt45 helloName [1, 2, 3, 4, 5, 6, 7, 8, 9, 10] 5).snd 112 4 =
      crc32 ((sbBytes { readSB (add_file fmt45 helloName [1, 2, 3, 4, 5, 6, 7, 8, 9, 10] 5).snd
        with checksum := 0 } ++ List.replicate (BS - 116) 0).take (BS - 4)) := by
  have h := claim_C3_amended
  refine ⟨h.1 180 128 0 fmt45 (by decide) rfl, ?_⟩
  have hadd : add_file fmt45 helloName [1, 2, 3, 4, 5, 6, 7, 8, 9, 10] 5 =
      (.ok 2, (add_file fmt45 helloName [1, 2, 3, 4, 5, 6, 7, 8, 9, 10] 5).snd) := by
    refine Prod.ext ?_ rfl
    rfl
  exact h.2 fmt45 helloName [1, 2, 3, 4, 5, 6, 7, 8, 9, 10] 5 2 _ fmt45_bytes_lt (by decide) hadd

/-! ### Shared helpers for the reachability invariant -/

theorem padDirect_getD (l : List Nat) (k : Nat) (hk : k < DIRECT_MAX) :
    (padDirect l).getD k 0 = l.getD k 0 := by
  unfold padDirect
  rw [List.getD_eq_getElem?_getD, List.getElem?_map, List.getElem?_range hk]
  rfl

theorem mem_getD_iff (l : List Nat) (i : Nat) :
    i ∈ l ↔ ∃ k, k < l.length ∧ l.getD k 0 = i := by
  constructor
  · intro h
    obtain ⟨k, hk, he⟩ := List.mem_iff_getElem.mp h
    exact ⟨k, hk, by rw [List.getD_eq_getElem _ _ hk]; exact he⟩
  · rintro ⟨k, hk, he⟩
    rw [List.getD_eq_getElem _ _ hk] at he
    exact he ▸ List.getElem_mem hk

theorem countP_flip {p q : Nat → Bool} {s0 : Nat} :
    ∀ l : List Nat, l.Nodup → s0 ∈ l → (∀ a ∈ l, a ≠ s0 → q a = p a) →
      p s0 = false → q s0 = true → l.countP q = l.countP p + 1
  | [], _, hm, _, _, _ => absurd hm (List.not_mem_nil _)
  | a :: t, hnd, hm, hagree, hp, hq => by
    rw [List.nodup_cons] at hnd
    rcases List.mem_cons.mp hm with rfl | hmt
    · have ht : List.countP q t = List.countP p t :=
        List.countP_congr fun x hx => by
          rw [hagree x (List.mem_cons_of_mem _ hx) (fun he => hnd.1 (he ▸ hx))]
      rw [List.countP_cons, List.countP_cons, hp, hq, ht]
      simp
    · have has0 : a ≠ s0 := fun he => hnd.1 (he ▸ hmt)
      rw [List.countP_cons, List.countP_cons, hagree a (List.mem_cons_self _ _) has0,
        countP_flip t hnd.2 hmt (fun x hx hne => hagree x (List.mem_cons_of_mem _ hx) hne) hp hq]
      omega

theorem findFreeDirent_some {img : Image} {blockOff off : Nat}
    (h : findFreeDirent img blockOff = some off) :
    ∃ s, s < 64 ∧ off = s * 64 ∧ readLE img (blockOff + off) 4 = 0 := by
  unfold findFreeDirent at h
  have h1 := List.find?_some h
  have h2 := List.mem_of_find?_eq_some h
  rw [List.mem_map] at h2
  obtain ⟨s, hs, he⟩ := h2
  rw [List.mem_range] at hs
  subst he
  exact ⟨s, hs, rfl, by simpa using h1⟩

theorem needBlocks_one_of_le {n : Nat} (h1 : 0 < n) (h2 : n ≤ BS) : needBlocks n = 1 := by
  rw [needBlocks_pos_eq _ h1]
  unfold BS at *
  omega

theorem needBlocks_le_len {n : Nat} (h : needBlocks n ≤ 12) : n ≤ 49152 := by
  rcases Nat.eq_zero_or_pos n with rfl | hpos
  · omega
  · rw [needBlocks_pos_eq _ hpos] at h
    unfold BS at h
    omega

theorem readInodeAt_direct_lt {img : Image} {off : Nat} (h : ∀ k, img k < 256) :
    ∀ b ∈ (readInodeAt img off).direct, b < 2 ^ 32 := by
  intro b hb
  simp only [readInodeAt] at hb
  rw [List.mem_map] at hb
  obtain ⟨k, _, he⟩ := hb
  subst he
  exact Nat.lt_of_lt_of_le (readLE_lt_pow h) (by norm_num)

/-! ### Frame lemmas for a committed add -/

theorem addCommit_slot_frame (img : Image) (sb : Superblock) (content bf fname : List Nat)
    (now fi rel off j : Nat)
    (hibs : sb.inode_bitmap_start = 1) (hdbs : sb.data_bitmap_start = 2)
    (hits : sb.inode_table_start = 3) (hdrs : 3 ≤ sb.data_region_start)
    (htab : sb.inode_count * INODE_SIZE ≤ (sb.data_region_start - 3) * BS)
    (hic128 : 128 ≤ sb.inode_count) (hic8 : sb.inode_count ≤ 8 * BS)
    (hfi : fi < sb.inode_count) (hbf8 : ∀ b ∈ bf, b < 8 * BS)
    (hj : j < sb.inode_count) (hjfi : j ≠ fi) (hj0 : j ≠ 0) :
    readInodeAt (addCommit (addStage3 img sb content now fi bf) sb fname now fi rel off) (3 * BS + j * INODE_SIZE) =
      readInodeAt img (3 * BS + j * INODE_SIZE) := by
  have hBS : BS = 4096 := rfl
  have hIS : INODE_SIZE = 128 := rfl
  have hmuld : 3 * BS ≤ sb.data_region_start * BS := Nat.mul_le_mul_right BS hdrs
  have htab2 : 3 * BS + sb.inode_count * INODE_SIZE ≤ sb.data_region_start * BS := by
    have h1 : sb.data_region_start - 3 + 3 = sb.data_region_start := by omega
    have h2 : (sb.data_region_start - 3) * BS + 3 * BS = sb.data_region_start * BS := by
      rw [← Nat.add_mul, h1]
    omega
  have hicIS : 128 * INODE_SIZE ≤ sb.inode_count * INODE_SIZE :=
    Nat.mul_le_mul_right INODE_SIZE hic128
  have hfiub : fi * INODE_SIZE + INODE_SIZE ≤ sb.inode_count * INODE_SIZE := by
    have := Nat.mul_le_mul_right INODE_SIZE (show fi + 1 ≤ sb.inode_count from hfi)
    rw [Nat.add_mul] at this
    omega
  have hj1 : 1 * INODE_SIZE ≤ j * INODE_SIZE :=
    Nat.mul_le_mul_right INODE_SIZE (by omega)
  have hjub : j * INODE_SIZE + INODE_SIZE ≤ sb.inode_count * INODE_SIZE := by
    have := Nat.mul_le_mul_right INODE_SIZE (show j + 1 ≤ sb.inode_count from hj)
    rw [Nat.add_mul] at this
    omega
  have hdisj : j * INODE_SIZE + INODE_SIZE ≤ fi * INODE_SIZE ∨
      fi * INODE_SIZE + INODE_SIZE ≤ j * INODE_SIZE := by
    rcases Nat.lt_or_ge j fi with hlt | hge
    · left
      have := Nat.mul_le_mul_right INODE_SIZE (show j + 1 ≤ fi from hlt)
      rw [Nat.add_mul] at this
      omega
    · right
      have := Nat.mul_le_mul_right INODE_SIZE (show fi + 1 ≤ j from by omega)
      rw [Nat.add_mul] at this
      omega
  refine readInodeAt_congr fun r hr => ?_
  simp only [addCommit, addStage3]
  rw [hibs, hdbs, hits]
  rw [writeBytesAt_neg _ (by omega),
      writeBytesAt_neg _ (by omega),
      writeBytesAt_neg _ (by omega),
      writeBytesAt_neg _ (by omega),
      applyBlocks_apply_out bf _ 0 (fun b hb => ⟨by have := hbf8 b hb; omega,
        Or.inl (by omega)⟩),
      bit_set_apply_ne (by omega)]

theorem addStage3_root_slot_frame (img : Image) (sb : Superblock) (content bf : List Nat)
    (now fi : Nat)
    (hibs : sb.inode_bitmap_start = 1) (hdbs : sb.data_bitmap_start = 2)
    (hits : sb.inode_table_start = 3) (hdrs : 3 ≤ sb.data_region_start)
    (htab : sb.inode_count * INODE_SIZE ≤ (sb.data_region_start - 3) * BS)
    (hic128 : 128 ≤ sb.inode_count) (hic8 : sb.inode_count ≤ 8 * BS)
    (hfi : fi < sb.inode_count) (hbf8 : ∀ b ∈ bf, b < 8 * BS)
    (hfi1 : 1 ≤ fi) :
    readInodeAt (addStage3 img sb content now fi bf) (3 * BS) = readInodeAt img (3 * BS) := by
  have hBS : BS = 4096 := rfl
  have hIS : INODE_SIZE = 128 := rfl
  have hmuld : 3 * BS ≤ sb.data_region_start * BS := Nat.mul_le_mul_right BS hdrs
  have htab2 : 3 * BS + sb.inode_count * INODE_SIZE ≤ sb.data_region_start * BS := by
    have h1 : sb.data_region_start - 3 + 3 = sb.data_region_start := by omega
    have h2 : (sb.data_region_start - 3) * BS + 3 * BS = sb.data_region_start * BS := by
      rw [← Nat.add_mul, h1]
    omega
  have hicIS : 128 * INODE_SIZE ≤ sb.inode_count * INODE_SIZE :=
    Nat.mul_le_mul_right INODE_SIZE hic128
  have hfiub : fi * INODE_SIZE + INODE_SIZE ≤ sb.inode_count * INODE_SIZE := by
    have := Nat.mul_le_mul_right INODE_SIZE (show fi + 1 ≤ sb.inode_count from hfi)
    rw [Nat.add_mul] at this
    omega
  have hfi1IS : 1 * INODE_SIZE ≤ fi * INODE_SIZE :=
    Nat.mul_le_mul_right INODE_SIZE hfi1
  refine readInodeAt_congr fun r hr => ?_
  simp only [addStage3]
  rw [hibs, hdbs, hits]
  rw [writeBytesAt_neg _ (by omega),
      applyBlocks_apply_out bf _ 0 (fun b hb => ⟨by have := hbf8 b hb; omega,
        Or.inl (by omega)⟩),
      bit_set_apply_ne (by omega)]

theorem addCommit_root_slot (img : Image) (sb : Superblock) (content bf fname : List Nat)
    (now fi rel off : Nat)
    (hits : sb.inode_table_start = 3) (hdrs : 3 ≤ sb.data_region_start)
    (hbnd : InodeBounds (inode_crc_finalize { readInodeAt (addStage3 img sb content now fi bf) (3 * BS) with links := (readInodeAt (addStage3 img sb content now fi bf) (3 * BS)).links + 1, size_bytes := (readInodeAt (addStage3 img sb content now fi bf) (3 * BS)).size_bytes + 64 })) :
    readInodeAt (addCommit (addStage3 img sb content now fi bf) sb fname now fi rel off) (3 * BS) =
      { inode_crc_finalize { readInodeAt (addStage3 img sb content now fi bf) (3 * BS) with links := (readInodeAt (addStage3 img sb content now fi bf) (3 * BS)).links + 1, size_bytes := (readInodeAt (addStage3 img sb content now fi bf) (3 * BS)).size_bytes + 64 } with direct := padDirect (inode_crc_finalize { readInodeAt (addStage3 img sb content now fi bf) (3 * BS) with links := (readInodeAt (addStage3 img sb content now fi bf) (3 * BS)).links + 1, size_bytes := (readInodeAt (addStage3 img sb content now fi bf) (3 * BS)).size_bytes + 64 }).direct } := by
  have hBS : BS = 4096 := rfl
  have hIS : INODE_SIZE = 128 := rfl
  have hbyte : ∀ r, r < 128 → (addCommit (addStage3 img sb content now fi bf) sb fname now fi rel off) (3 * BS + r) =
      writeBytesAt (writeBytesAt (addStage3 img sb content now fi bf) (sb.data_region_start * BS + rel * BS + off) 64 (direntBytes (newDirent (fi + 1) fname))) (3 * BS) INODE_SIZE (inodeBytes (inode_crc_finalize { readInodeAt (addStage3 img sb content now fi bf) (3 * BS) with links := (readInodeAt (addStage3 img sb content now fi bf) (3 * BS)).links + 1, size_bytes := (readInodeAt (addStage3 img sb content now fi bf) (3 * BS)).size_bytes + 64 })) (3 * BS + r) := by
    intro r hr
    simp only [addCommit]
    rw [hits]
    rw [writeBytesAt_neg _ (by omega)]
  rw [readInodeAt_congr hbyte]
  exact readInodeAt_writeBytesAt _ (3 * BS) _ hbnd

theorem addCommit_new_slot (img : Image) (sb : Superblock) (content bf fname : List Nat)
    (now fi rel off : Nat)
    (hibs : sb.inode_bitmap_start = 1) (hdbs : sb.data_bitmap_start = 2)
    (hits : sb.inode_table_start = 3) (hdrs : 3 ≤ sb.data_region_start)
    (htab : sb.inode_count * INODE_SIZE ≤ (sb.data_region_start - 3) * BS)
    (hic128 : 128 ≤ sb.inode_count) (hic8 : sb.inode_count ≤ 8 * BS)
    (hfi : fi < sb.inode_count) (hbf8 : ∀ b ∈ bf, b < 8 * BS)
    (hfi1 : 1 ≤ fi)
    (hbnd : InodeBounds (newInode content.length now bf)) :
    readInodeAt (addCommit (addStage3 img sb content now fi bf) sb fname now fi rel off) (3 * BS + fi * INODE_SIZE) =
      { newInode content.length now bf with
        direct := padDirect (newInode content.length now bf).direct } := by
  have hBS : BS = 4096 := rfl
  have hIS : INODE_SIZE = 128 := rfl
  have hmuld : 3 * BS ≤ sb.data_region_start * BS := Nat.mul_le_mul_right BS hdrs
  have htab2 : 3 * BS + sb.inode_count * INODE_SIZE ≤ sb.data_region_start * BS := by
    have h1 : sb.data_region_start - 3 + 3 = sb.data_region_start := by omega
    have h2 : (sb.data_region_start - 3) * BS + 3 * BS = sb.data_region_start * BS := by
      rw [← Nat.add_mul, h1]
    omega
  have hicIS : 128 * INODE_SIZE ≤ sb.inode_count * INODE_SIZE :=
    Nat.mul_le_mul_right INODE_SIZE hic128
  have hfiub : fi * INODE_SIZE + INODE_SIZE ≤ sb.inode_count * INODE_SIZE := by
    have := Nat.mul_le_mul_right INODE_SIZE (show fi + 1 ≤ sb.inode_count from hfi)
    rw [Nat.add_mul] at this
    omega
  have hfi1IS : 1 * INODE_SIZE ≤ fi * INODE_SIZE :=
    Nat.mul_le_mul_right INODE_SIZE hfi1
  have hbyte : ∀ r, r < 128 → (addCommit (addStage3 img sb content now fi bf) sb fname now fi rel off) (3 * BS + fi * INODE_SIZE + r) =
      writeBytesAt (applyBlocks (2 * BS) (sb.data_region_start * BS) content (bit_set img (1 * BS) fi) 0 bf) (3 * BS + fi * INODE_SIZE) INODE_SIZE
        (inodeBytes (newInode content.length now bf)) (3 * BS + fi * INODE_SIZE + r) := by
    intro r hr
    simp only [addCommit, addStage3]
    rw [hibs, hdbs, hits]
    rw [writeBytesAt_neg _ (by omega),
        writeBytesAt_neg _ (by omega),
        writeBytesAt_neg _ (by omega)]
  rw [readInodeAt_congr hbyte]
  exact readInodeAt_writeBytesAt _ (3 * BS + fi * INODE_SIZE) _ hbnd

theorem addCommit_bitI_frame (img : Image) (sb : Superblock) (content bf fname : List Nat)
    (now fi rel off j : Nat)
    (hibs : sb.inode_bitmap_start = 1) (hdbs : sb.data_bitmap_start = 2)
    (hits : sb.inode_table_start = 3) (hdrs : 3 ≤ sb.data_region_start)
    (htab : sb.inode_count * INODE_SIZE ≤ (sb.data_region_start - 3) * BS)
    (hic128 : 128 ≤ sb.inode_count) (hic8 : sb.inode_count ≤ 8 * BS)
    (hfi : fi < sb.inode_count) (hbf8 : ∀ b ∈ bf, b < 8 * BS)
    (hj8 : j < 8 * BS) (hjfi : j ≠ fi) :
    bit_get (addCommit (addStage3 img sb content now fi bf) sb fname now fi rel off) (1 * BS) j = bit_get img (1 * BS) j := by
  have hBS : BS = 4096 := rfl
  have hIS : INODE_SIZE = 128 := rfl
  have hmuld : 3 * BS ≤ sb.data_region_start * BS := Nat.mul_le_mul_right BS hdrs
  have htab2 : 3 * BS + sb.inode_count * INODE_SIZE ≤ sb.data_region_start * BS := by
    have h1 : sb.data_region_start - 3 + 3 = sb.data_region_start := by omega
    have h2 : (sb.data_region_start - 3) * BS + 3 * BS = sb.data_region_start * BS := by
      rw [← Nat.add_mul, h1]
    omega
  have hicIS : 128 * INODE_SIZE ≤ sb.inode_count * INODE_SIZE :=
    Nat.mul_le_mul_right INODE_SIZE hic128
  have hfiub : fi * INODE_SIZE + INODE_SIZE ≤ sb.inode_count * INODE_SIZE := by
    have := Nat.mul_le_mul_right INODE_SIZE (show fi + 1 ≤ sb.inode_count from hfi)
    rw [Nat.add_mul] at this
    omega
  simp only [addCommit, addStage3]
  rw [hibs, hdbs, hits]
  rw [bit_get_congr (writeBytesAt_neg _ (by omega)),
      bit_get_congr (writeBytesAt_neg _ (by omega)),
      bit_get_congr (writeBytesAt_neg _ (by omega)),
      bit_get_congr (writeBytesAt_neg _ (by omega)),
      bit_get_congr (applyBlocks_apply_out bf _ 0 (fun b hb => ⟨by omega,
        Or.inl (by omega)⟩)),
      bit_get_bit_set_ne hjfi]

theorem addCommit_bitI_set (img : Image) (sb : Superblock) (content bf fname : List Nat)
    (now fi rel off : Nat)
    (hibs : sb.inode_bitmap_start = 1) (hdbs : sb.data_bitmap_start = 2)
    (hits : sb.inode_table_start = 3) (hdrs : 3 ≤ sb.data_region_start)
    (htab : sb.inode_count * INODE_SIZE ≤ (sb.data_region_start - 3) * BS)
    (hic128 : 128 ≤ sb.inode_count) (hic8 : sb.inode_count ≤ 8 * BS)
    (hfi : fi < sb.inode_count) (hbf8 : ∀ b ∈ bf, b < 8 * BS) :
    bit_get (addCommit (addStage3 img sb content now fi bf) sb fname now fi rel off) (1 * BS) fi = 1 := by
  have hBS : BS = 4096 := rfl
  have hIS : INODE_SIZE = 128 := rfl
  have hmuld : 3 * BS ≤ sb.data_region_start * BS := Nat.mul_le_mul_right BS hdrs
  have htab2 : 3 * BS + sb.inode_count * INODE_SIZE ≤ sb.data_region_start * BS := by
    have h1 : sb.data_region_start - 3 + 3 = sb.data_region_start := by omega
    have h2 : (sb.data_region_start - 3) * BS + 3 * BS = sb.data_region_start * BS := by
      rw [← Nat.add_mul, h1]
    omega
  have hicIS : 128 * INODE_SIZE ≤ sb.inode_count * INODE_SIZE :=
    Nat.mul_le_mul_right INODE_SIZE hic128
  have hfiub : fi * INODE_SIZE + INODE_SIZE ≤ sb.inode_count * INODE_SIZE := by
    have := Nat.mul_le_mul_right INODE_SIZE (show fi + 1 ≤ sb.inode_count from hfi)
    rw [Nat.add_mul] at this
    omega
  simp only [addCommit, addStage3]
  rw [hibs, hdbs, hits]
  rw [bit_get_congr (writeBytesAt_neg _ (by omega)),
      bit_get_congr (writeBytesAt_neg _ (by omega)),
      bit_get_congr (writeBytesAt_neg _ (by omega)),
      bit_get_congr (writeBytesAt_neg _ (by omega)),
      bit_get_congr (applyBlocks_apply_out bf _ 0 (fun b hb => ⟨by omega,
        Or.inl (by omega)⟩))]
  exact bit_get_bit_set_self

theorem addCommit_bitD_frame (img : Image) (sb : Superblock) (content bf fname : List Nat)
    (now fi rel off i : Nat)
    (hibs : sb.inode_bitmap_start = 1) (hdbs : sb.data_bitmap_start = 2)
    (hits : sb.inode_table_start = 3) (hdrs : 3 ≤ sb.data_region_start)
    (htab : sb.inode_count * INODE_SIZE ≤ (sb.data_region_start - 3) * BS)
    (hic128 : 128 ≤ sb.inode_count) (hic8 : sb.inode_count ≤ 8 * BS)
    (hfi : fi < sb.inode_count) (hbf8 : ∀ b ∈ bf, b < 8 * BS)
    (hi8 : i < 8 * BS) (hib : i ∉ bf) :
    bit_get (addCommit (addStage3 img sb content now fi bf) sb fname now fi rel off) (2 * BS) i = bit_get img (2 * BS) i := by
  have hBS : BS = 4096 := rfl
  have hIS : INODE_SIZE = 128 := rfl
  have hmuld : 3 * BS ≤ sb.data_region_start * BS := Nat.mul_le_mul_right BS hdrs
  have htab2 : 3 * BS + sb.inode_count * INODE_SIZE ≤ sb.data_region_start * BS := by
    have h1 : sb.data_region_start - 3 + 3 = sb.data_region_start := by omega
    have h2 : (sb.data_region_start - 3) * BS + 3 * BS = sb.data_region_start * BS := by
      rw [← Nat.add_mul, h1]
    omega
  have hicIS : 128 * INODE_SIZE ≤ sb.inode_count * INODE_SIZE :=
    Nat.mul_le_mul_right INODE_SIZE hic128
  have hfiub : fi * INODE_SIZE + INODE_SIZE ≤ sb.inode_count * INODE_SIZE := by
    have := Nat.mul_le_mul_right INODE_SIZE (show fi + 1 ≤ sb.inode_count from hfi)
    rw [Nat.add_mul] at this
    omega
  simp only [addCommit, addStage3]
  rw [hibs, hdbs, hits]
  rw [bit_get_congr (writeBytesAt_neg _ (by omega)),
      bit_get_congr (writeBytesAt_neg _ (by omega)),
      bit_get_congr (writeBytesAt_neg _ (by omega)),
      bit_get_congr (writeBytesAt_neg _ (by omega)),
      bit_get_applyBlocks bf _ 0 (fun b hb => Or.inl (by omega)),
      if_neg hib,
      bit_get_congr (bit_set_apply_ne (by omega))]

theorem addCommit_bitD_set (img : Image) (sb : Superblock) (content bf fname : List Nat)
    (now fi rel off i : Nat)
    (hibs : sb.inode_bitmap_start = 1) (hdbs : sb.data_bitmap_start = 2)
    (hits : sb.inode_table_start = 3) (hdrs : 3 ≤ sb.data_region_start)
    (htab : sb.inode_count * INODE_SIZE ≤ (sb.data_region_start - 3) * BS)
    (hic128 : 128 ≤ sb.inode_count) (hic8 : sb.inode_count ≤ 8 * BS)
    (hfi : fi < sb.inode_count) (hbf8 : ∀ b ∈ bf, b < 8 * BS)
    (hi8 : i < 8 * BS) (hib : i ∈ bf) :
    bit_get (addCommit (addStage3 img sb content now fi bf) sb fname now fi rel off) (2 * BS) i = 1 := by
  have hBS : BS = 4096 := rfl
  have hIS : INODE_SIZE = 128 := rfl
  have hmuld : 3 * BS ≤ sb.data_region_start * BS := Nat.mul_le_mul_right BS hdrs
  have htab2 : 3 * BS + sb.inode_count * INODE_SIZE ≤ sb.data_region_start * BS := by
    have h1 : sb.data_region_start - 3 + 3 = sb.data_region_start := by omega
    have h2 : (sb.data_region_start - 3) * BS + 3 * BS = sb.data_region_start * BS := by
      rw [← Nat.add_mul, h1]
    omega
  have hicIS : 128 * INODE_SIZE ≤ sb.inode_count * INODE_SIZE :=
    Nat.mul_le_mul_right INODE_SIZE hic128
  have hfiub : fi * INODE_SIZE + INODE_SIZE ≤ sb.inode_count * INODE_SIZE := by
    have := Nat.mul_le_mul_right INODE_SIZE (show fi + 1 ≤ sb.inode_count from hfi)
    rw [Nat.add_mul] at this
    omega
  simp only [addCommit, addStage3]
  rw [hibs, hdbs, hits]
  rw [bit_get_congr (writeBytesAt_neg _ (by omega)),
      bit_get_congr (writeBytesAt_neg _ (by omega)),
      bit_get_congr (writeBytesAt_neg _ (by omega)),
      bit_get_congr (writeBytesAt_neg _ (by omega)),
      bit_get_applyBlocks bf _ 0 (fun b hb => Or.inl (by omega)),
      if_pos hib]

theorem addStage3_rootblock_byte (img : Image) (sb : Superblock) (content bf : List Nat)
    (now fi rel r : Nat)
    (hibs : sb.inode_bitmap_start = 1) (hdbs : sb.data_bitmap_start = 2)
    (hits : sb.inode_table_start = 3) (hdrs : 3 ≤ sb.data_region_start)
    (htab : sb.inode_count * INODE_SIZE ≤ (sb.data_region_start - 3) * BS)
    (hic128 : 128 ≤ sb.inode_count) (hic8 : sb.inode_count ≤ 8 * BS)
    (hfi : fi < sb.inode_count) (hbf8 : ∀ b ∈ bf, b < 8 * BS)
    (hrelbf : rel ∉ bf) (hr : r < BS) :
    (addStage3 img sb content now fi bf) (sb.data_region_start * BS + rel * BS + r) =
      img (sb.data_region_start * BS + rel * BS + r) := by
  have hBS : BS = 4096 := rfl
  have hIS : INODE_SIZE = 128 := rfl
  have hmuld : 3 * BS ≤ sb.data_region_start * BS := Nat.mul_le_mul_right BS hdrs
  have htab2 : 3 * BS + sb.inode_count * INODE_SIZE ≤ sb.data_region_start * BS := by
    have h1 : sb.data_region_start - 3 + 3 = sb.data_region_start := by omega
    have h2 : (sb.data_region_start - 3) * BS + 3 * BS = sb.data_region_start * BS := by
      rw [← Nat.add_mul, h1]
    omega
  have hicIS : 128 * INODE_SIZE ≤ sb.inode_count * INODE_SIZE :=
    Nat.mul_le_mul_right INODE_SIZE hic128
  have hfiub : fi * INODE_SIZE + INODE_SIZE ≤ sb.inode_count * INODE_SIZE := by
    have := Nat.mul_le_mul_right INODE_SIZE (show fi + 1 ≤ sb.inode_count from hfi)
    rw [Nat.add_mul] at this
    omega
  simp only [addStage3]
  rw [hibs, hdbs, hits]
  rw [writeBytesAt_neg _ (by omega),
      applyBlocks_apply_out bf _ 0 (fun b hb => ⟨by have := hbf8 b hb; omega, ?_⟩),
      bit_set_apply_ne (by omega)]
  have hbrel : b ≠ rel := fun he => hrelbf (he ▸ hb)
  rcases Nat.lt_or_ge b rel with hlt | hge
  · right
    have := Nat.mul_le_mul_right BS (show b + 1 ≤ rel from hlt)
    rw [Nat.add_mul] at this
    omega
  · left
    have := Nat.mul_le_mul_right BS (show rel + 1 ≤ b from by omega)
    rw [Nat.add_mul] at this
    omega

theorem addCommit_rootblock_byte (img : Image) (sb : Superblock) (content bf fname : List Nat)
    (now fi rel off r : Nat)
    (hibs : sb.inode_bitmap_start = 1) (hdbs : sb.data_bitmap_start = 2)
    (hits : sb.inode_table_start = 3) (hdrs : 3 ≤ sb.data_region_start)
    (htab : sb.inode_count * INODE_SIZE ≤ (sb.data_region_start - 3) * BS)
    (hic128 : 128 ≤ sb.inode_count) (hic8 : sb.inode_count ≤ 8 * BS)
    (hfi : fi < sb.inode_count) (hbf8 : ∀ b ∈ bf, b < 8 * BS)
    (hrelbf : rel ∉ bf) (hr : r < BS) (hroff : r + 4 ≤ off ∨ off + 64 ≤ r) :
    (addCommit (addStage3 img sb content now fi bf) sb fname now fi rel off) (sb.data_region_start * BS + rel * BS + r) =
      img (sb.data_region_start * BS + rel * BS + r) := by
  have hBS : BS = 4096 := rfl
  have hIS : INODE_SIZE = 128 := rfl
  have hmuld : 3 * BS ≤ sb.data_region_start * BS := Nat.mul_le_mul_right BS hdrs
  have htab2 : 3 * BS + sb.inode_count * INODE_SIZE ≤ sb.data_region_start * BS := by
    have h1 : sb.data_region_start - 3 + 3 = sb.data_region_start := by omega
    have h2 : (sb.data_region_start - 3) * BS + 3 * BS = sb.data_region_start * BS := by
      rw [← Nat.add_mul, h1]
    omega
  have hicIS : 128 * INODE_SIZE ≤ sb.inode_count * INODE_SIZE :=
    Nat.mul_le_mul_right INODE_SIZE hic128
  have hfiub : fi * INODE_SIZE + INODE_SIZE ≤ sb.inode_count * INODE_SIZE := by
    have := Nat.mul_le_mul_right INODE_SIZE (show fi + 1 ≤ sb.inode_count from hfi)
    rw [Nat.add_mul] at this
    omega
  simp only [addCommit]
  rw [hits]
  rw [writeBytesAt_neg _ (by omega),
      writeBytesAt_neg _ (by omega),
      writeBytesAt_neg _ (by omega)]
  exact addStage3_rootblock_byte img sb content bf now fi rel r hibs hdbs hits hdrs htab
    hic128 hic8 hfi hbf8 hrelbf hr

theorem addCommit_offslot (img : Image) (sb : Superblock) (content bf fname : List Nat)
    (now fi rel off : Nat)
    (hits : sb.inode_table_start = 3) (hdrs : 3 ≤ sb.data_region_start)
    (htab : sb.inode_count * INODE_SIZE ≤ (sb.data_region_start - 3) * BS)
    (hic128 : 128 ≤ sb.inode_count)
    (h32 : fi + 1 < 2 ^ 32) :
    readLE (addCommit (addStage3 img sb content now fi bf) sb fname now fi rel off) (sb.data_region_start * BS + rel * BS + off) 4 = fi + 1 := by
  have hBS : BS = 4096 := rfl
  have hIS : INODE_SIZE = 128 := rfl
  have hmuld : 3 * BS ≤ sb.data_region_start * BS := Nat.mul_le_mul_right BS hdrs
  have htab2 : 3 * BS + sb.inode_count * INODE_SIZE ≤ sb.data_region_start * BS := by
    have h1 : sb.data_region_start - 3 + 3 = sb.data_region_start := by omega
    have h2 : (sb.data_region_start - 3) * BS + 3 * BS = sb.data_region_start * BS := by
      rw [← Nat.add_mul, h1]
    omega
  have hicIS : 128 * INODE_SIZE ≤ sb.inode_count * INODE_SIZE :=
    Nat.mul_le_mul_right INODE_SIZE hic128
  have hbyte : ∀ k, k < 4 → (addCommit (addStage3 img sb content now fi bf) sb fname now fi rel off) (sb.data_region_start * BS + rel * BS + off + k) =
      (writeBytesAt (addStage3 img sb content now fi bf) (sb.data_region_start * BS + rel * BS + off) 64 (direntBytes (newDirent (fi + 1) fname))) (sb.data_region_start * BS + rel * BS + off + k) := by
    intro k hk
    simp only [addCommit]
    rw [hits]
    rw [writeBytesAt_neg _ (by omega),
        writeBytesAt_neg _ (by omega)]
  calc readLE (addCommit (addStage3 img sb content now fi bf) sb fname now fi rel off) (sb.data_region_start * BS + rel * BS + off) 4
      = readLE (writeBytesAt (addStage3 img sb content now fi bf) (sb.data_region_start * BS + rel * BS + off) 64 (direntBytes (newDirent (fi + 1) fname))) (sb.data_region_start * BS + rel * BS + off) 4 :=
        readLE_congr 4 hbyte
    _ = fi + 1 :=
        congrArg Dirent.inode_no (readDirentAt_writeBytesAt (addStage3 img sb content now fi bf)
          (sb.data_region_start * BS + rel * BS + off) (newDirent (fi + 1) fname) h32)

/-! ### Claim C9 -/

/-- C9 (code bug): the claim says a name of length at least 58 has its
first 58 bytes stored in the directory entry's name field. The code's
`strncpy(nde.name, fname, MAX_FILENAME - 1)` copies at most 57 bytes into
the zeroed record, so the 58th byte of the stored field is always 0.
Adding a 10-byte file with a 58-byte name (58 times 'a' = byte 97) to the
example image succeeds with inode number 2, and the stored name field
(bytes 28805..28862 of the image: slot 2 of the root directory block at
28800, name at record offset 5) holds 97 at its index 56 but 0 at its
index 57 — only the first 57 bytes of the name, not the first 58. -/
theorem claim_C9 :
    (add_file fmt45 (List.replicate 58 97) [42] 5).fst = Except.ok 2 ∧
    (add_file fmt45 (List.replicate 58 97) [42] 5).snd 28861 = 97 ∧
    (add_file fmt45 (List.replicate 58 97) [42] 5).snd 28862 = 0 :=
  ⟨rfl, rfl, rfl⟩

/-! ### Claim C7 -/

/-- C7: the free-data-block scan of the adder collects relative indices
in ascending scan order, and every collected index lies inside the
scanned range with its data-bitmap bit clear; and for every image and
every file whose required block count exceeds the number of free data
blocks (the earlier checks passing: good magic, size within the
direct-pointer capacity, a free inode available), add_file fails with
the NoFreeBlocks error and the returned image is the input unchanged —
the insufficient-blocks check happens before any bit is set and nothing
is provisionally reserved. -/
theorem claim_C7 :
    (∀ (img : Image) (base i need r : Nat),
      List.Pairwise (· < ·) (scanFreeBlocks img base i need r) ∧
      ∀ b ∈ scanFreeBlocks img base i need r, i ≤ b ∧ b < i + r ∧ bit_get img base b = 0) ∧
    (∀ (img : Image) (fname content : List Nat) (now : Nat),
      (readSB img).magic = MAGIC →
      ¬ DIRECT_MAX < needBlocks content.length →
      (∃ fi, findFreeInode img ((readSB img).inode_bitmap_start * BS)
        (readSB img).inode_count = some fi) →
      freeCount img ((readSB img).data_bitmap_start * BS) 0
          (readSB img).data_region_blocks < needBlocks content.length →
      add_file img fname content now = (.error .noFreeBlocks, img)) := by
  constructor
  · intro img base i need r
    exact ⟨scanFreeBlocks_sorted i need r, fun b hb => scanFreeBlocks_mem i need r b hb⟩
  · intro img fname content now h h2 hex hfree
    obtain ⟨fi, h3⟩ := hex
    refine add_file_eq_noFreeBlocks h h2 h3 ?_
    rw [scanFreeBlocks_length]
    omega

/-- Witness for C7: on the 6-block example image (2 data-region blocks,
one free), a 4097-byte file needs 2 blocks but only 1 is free, and
add_file returns the NoFreeBlocks error with the image unchanged. -/
theorem claim_C7_witness :
    add_file imgBadRoot [104] (List.replicate 4097 7) 5 =
      (.error .noFreeBlocks, imgBadRoot) :=
  claim_C7.2 imgBadRoot [104] (List.replicate 4097 7) 5 (by decide)
    (by rw [List.length_replicate]; decide) ⟨1, by decide⟩
    (by rw [List.length_replicate]; decide)

/-! ### Claim C1 -/

theorem findFreeInode_some {img : Image} {base count fi : Nat}
    (h : findFreeInode img base count = some fi) :
    fi < count ∧ bit_get img base fi = 0 := by
  unfold findFreeInode at h
  have h1 := List.find?_some h
  have h2 := List.mem_range.mp (List.mem_of_find?_eq_some h)
  exact ⟨h2, by simpa using h1⟩

theorem add_file_noFreeDirEntry_inv {img img' : Image} {fname content : List Nat} {now : Nat}
    (h : add_file img fname content now = (.error .noFreeDirEntry, img')) :
    (readSB img).magic = MAGIC ∧
    ¬ DIRECT_MAX < needBlocks content.length ∧
    ∃ fi, findFreeInode img ((readSB img).inode_bitmap_start * BS) (readSB img).inode_count =
        some fi ∧
      ¬ (scanFreeBlocks img ((readSB img).data_bitmap_start * BS) 0 (needBlocks content.length)
          (readSB img).data_region_blocks).length < needBlocks content.length ∧
      img' = addRollback (addStage3 img (readSB img) content now fi
          (scanFreeBlocks img ((readSB img).data_bitmap_start * BS) 0 (needBlocks content.length)
            (readSB img).data_region_blocks)) (readSB img) fi
        (scanFreeBlocks img ((readSB img).data_bitmap_start * BS) 0 (needBlocks content.length)
          (readSB img).data_region_blocks) := by
  by_cases hm : (readSB img).magic = MAGIC
  · by_cases h2 : DIRECT_MAX < needBlocks content.length
    · rw [add_file_eq_fileTooLarge hm h2] at h
      exact absurd (congrArg Prod.fst h) (by simp)
    · cases hfi : findFreeInode img ((readSB img).inode_bitmap_start * BS)
        (readSB img).inode_count with
      | none =>
        rw [add_file_eq_noFreeInode hm h2 hfi] at h
        exact absurd (congrArg Prod.fst h) (by simp)
      | some fi =>
        by_cases h4 : (scanFreeBlocks img ((readSB img).data_bitmap_start * BS) 0
            (needBlocks content.length) (readSB img).data_region_blocks).length <
            needBlocks content.length
        · rw [add_file_eq_noFreeBlocks hm h2 hfi h4] at h
          exact absurd (congrArg Prod.fst h) (by simp)
        · by_cases h5 : (readSB img).data_region_blocks ≤
            (readInodeAt (addStage3 img (readSB img) content now fi
              (scanFreeBlocks img ((readSB img).data_bitmap_start * BS) 0
                (needBlocks content.length) (readSB img).data_region_blocks))
              ((readSB img).inode_table_start * BS)).direct.getD 0 0
          · rw [add_file_eq_corrupt hm h2 hfi h4 h5] at h
            exact absurd (congrArg Prod.fst h) (by simp)
          · cases hoff : findFreeDirent (addStage3 img (readSB img) content now fi
                (scanFreeBlocks img ((readSB img).data_bitmap_start * BS) 0
                  (needBlocks content.length) (readSB img).data_region_blocks))
                ((readSB img).data_region_start * BS +
                  (readInodeAt (addStage3 img (readSB img) content now fi
                    (scanFreeBlocks img ((readSB img).data_bitmap_start * BS) 0
                      (needBlocks content.length) (readSB img).data_region_blocks))
                    ((readSB img).inode_table_start * BS)).direct.getD 0 0 * BS) with
            | none =>
              rw [add_file_eq_noFreeDirEntry hm h2 hfi h4 h5 hoff] at h
              rw [Prod.mk.injEq] at h
              exact ⟨hm, h2, fi, rfl, h4, h.2.symm⟩
            | some off =>
              rw [add_file_eq_ok hm h2 hfi h4 h5 hoff] at h
              exact absurd (congrArg Prod.fst h) (by simp)
  · rw [add_file_eq_badMagic hm] at h
    exact absurd (congrArg Prod.fst h) (by simp)

/-- On the standard layout (inode bitmap at block 1, data bitmap at
block 2, inode table and data region at block 3 or later, bitmaps of at
most one block each), the NoFreeDirEntry rollback restores every inode
bitmap bit and every data bitmap bit to its pre-call value. -/
theorem rollback_bits {img img3 : Image} {content bf : List Nat} {now fi its drs ic drb : Nat}
    (hits : 3 ≤ its) (hdrs : 3 ≤ drs) (hic : ic ≤ 8 * BS) (hdrb : drb ≤ 8 * BS)
    (hfi_lt : fi < ic) (hfi_bit : bit_get img (1 * BS) fi = 0)
    (hbf : ∀ b ∈ bf, bit_get img (2 * BS) b = 0)
    (himg3 : img3 = writeBytesAt (applyBlocks (2 * BS) (drs * BS) content
      (bit_set img (1 * BS) fi) 0 bf)
      (its * BS + fi * INODE_SIZE) INODE_SIZE (inodeBytes (newInode content.length now bf))) :
    (∀ j, j < ic → bit_get (clearBlocks (2 * BS) (bit_clear img3 (1 * BS) fi) bf) (1 * BS) j =
      bit_get img (1 * BS) j) ∧
    (∀ i, i < drb → bit_get (clearBlocks (2 * BS) (bit_clear img3 (1 * BS) fi) bf) (2 * BS) i =
      bit_get img (2 * BS) i) := by
  subst himg3
  have hBS : BS = 4096 := rfl
  have hIS : INODE_SIZE = 128 := rfl
  have hmul1 : 3 * BS ≤ its * BS := Nat.mul_le_mul_right BS hits
  have hmul2 : 3 * BS ≤ drs * BS := Nat.mul_le_mul_right BS hdrs
  have h3 : ∀ k, k < 2 * BS →
      writeBytesAt (applyBlocks (2 * BS) (drs * BS) content (bit_set img (1 * BS) fi) 0 bf)
        (its * BS + fi * INODE_SIZE) INODE_SIZE
        (inodeBytes (newInode content.length now bf)) k = bit_set img (1 * BS) fi k := by
    intro k hk
    rw [writeBytesAt_neg _ (Or.inl (by omega))]
    rw [applyBlocks_apply_out bf _ 0 (fun b hb => ⟨by omega, Or.inl (by omega)⟩)]
  constructor
  · intro j hj
    rw [bit_get_congr (clearBlocks_apply_out bf _ (fun b hb => by omega))]
    by_cases hjfi : j = fi
    · subst hjfi
      rw [bit_get_bit_clear_self, hfi_bit]
    · rw [bit_get_bit_clear_ne hjfi, bit_get_congr (h3 _ (by omega)),
        bit_get_bit_set_ne hjfi]
  · intro i hi
    rw [bit_get_clearBlocks bf _]
    by_cases hib : i ∈ bf
    · rw [if_pos hib, hbf i hib]
    · rw [if_neg hib, bit_get_congr (bit_clear_apply_ne (by omega)),
        bit_get_congr (writeBytesAt_neg _ (Or.inl (by omega))),
        bit_get_applyBlocks bf _ 0 (fun b hb => Or.inl (by omega)),
        if_neg hib, bit_get_congr (bit_set_apply_ne (by omega))]

/-- C1 counterexample: failure returns are NOT always byte-for-byte the
pre-call image. On a 6-block image whose root directory block is
completely full, add_file fails with NoFreeDirEntry but returns a buffer
whose byte 12417 (inside the just-written inode record of table slot 1)
is 128 where the input had 0; on a 6-block image whose root inode holds
an out-of-range first direct pointer, add_file fails with
CorruptRootPointer and returns a buffer whose inode bitmap byte 4096 is
3 (the new inode bit still set) where the input had 1. -/
theorem claim_C1_counterexample :
    ((add_file imgFull [104] [42] 5).fst = Except.error AddErr.noFreeDirEntry ∧
      (add_file imgFull [104] [42] 5).snd 12417 = 128 ∧ imgFull 12417 = 0) ∧
    ((add_file imgBadRoot [104] [42] 5).fst = Except.error AddErr.corruptRootPointer ∧
      (add_file imgBadRoot [104] [42] 5).snd 4096 = 3 ∧ imgBadRoot 4096 = 1) :=
  ⟨⟨rfl, rfl, rfl⟩, ⟨rfl, rfl, rfl⟩⟩

/-- C1 as amended: the four early failure kinds (BadMagic, FileTooLarge,
NoFreeInode, NoFreeBlocks) return the image byte-for-byte unchanged, and
on the NoFreeDirEntry path the rollback restores every inode bitmap bit
and every data bitmap bit to its pre-call value on the standard layout
(inode bitmap at block 1, data bitmap at block 2, inode table and data
region at block 3 or later, at most one block of each bitmap in use) —
but, per the counterexample, the written inode record and data-block
contents persist, and the CorruptRootPointer path rolls back nothing. -/
theorem claim_C1_amended :
    (∀ (img : Image) (fname content : List Nat) (now : Nat),
      ((readSB img).magic ≠ MAGIC →
        add_file img fname content now = (.error .badMagic, img)) ∧
      ((readSB img).magic = MAGIC → DIRECT_MAX < needBlocks content.length →
        add_file img fname content now = (.error .fileTooLarge, img)) ∧
      ((readSB img).magic = MAGIC → ¬ DIRECT_MAX < needBlocks content.length →
        findFreeInode img ((readSB img).inode_bitmap_start * BS) (readSB img).inode_count =
          none →
        add_file img fname content now = (.error .noFreeInode, img)) ∧
      (∀ fi, (readSB img).magic = MAGIC → ¬ DIRECT_MAX < needBlocks content.length →
        findFreeInode img ((readSB img).inode_bitmap_start * BS) (readSB img).inode_count =
          some fi →
        (scanFreeBlocks img ((readSB img).data_bitmap_start * BS) 0 (needBlocks content.length)
          (readSB img).data_region_blocks).length < needBlocks content.length →
        add_file img fname content now = (.error .noFreeBlocks, img))) ∧
    (∀ (img img' : Image) (fname content : List Nat) (now : Nat),
      (readSB img).inode_bitmap_start = 1 → (readSB img).data_bitmap_start = 2 →
      3 ≤ (readSB img).inode_table_start → 3 ≤ (readSB img).data_region_start →
      (readSB img).inode_count ≤ 8 * BS → (readSB img).data_region_blocks ≤ 8 * BS →
      add_file img fname content now = (.error .noFreeDirEntry, img') →
      (∀ j, j < (readSB img).inode_count →
        bit_get img' ((readSB img).inode_bitmap_start * BS) j =
          bit_get img ((readSB img).inode_bitmap_start * BS) j) ∧
      (∀ i, i < (readSB img).data_region_blocks →
        bit_get img' ((readSB img).data_bitmap_start * BS) i =
          bit_get img ((readSB img).data_bitmap_start * BS) i)) := by
  constructor
  · intro img fname content now
    exact ⟨fun hm => add_file_eq_badMagic hm,
      fun hm h2 => add_file_eq_fileTooLarge hm h2,
      fun hm h2 h3 => add_file_eq_noFreeInode hm h2 h3,
      fun fi hm h2 h3 h4 => add_file_eq_noFreeBlocks hm h2 h3 h4⟩
  · intro img img' fname content now hibs hdbs hits hdrs hic hdrb hadd
    obtain ⟨hm, h2, fi, hfi, h4, himg'⟩ := add_file_noFreeDirEntry_inv hadd
    subst himg'
    rw [hibs] at hfi
    obtain ⟨hfi_lt, hfi_bit⟩ := findFreeInode_some hfi
    simp only [addRollback, addStage3]
    rw [hibs, hdbs]
    exact rollback_bits hits hdrs hic hdrb hfi_lt hfi_bit
      (fun b hb => (scanFreeBlocks_mem 0 _ _ b hb).2.2) rfl

/-- Witness for the amended C1: a zero image fails with BadMagic and is
returned unchanged, and on the full-root-directory example image the
NoFreeDirEntry failure leaves inode bitmap bit 1 with its pre-call
value. -/
theorem claim_C1_amended_witness :
    add_file (fun _ => 0) [104] [42] 5 = (.error .badMagic, fun _ => 0) ∧
    bit_get (add_file imgFull [104] [42] 5).snd ((readSB imgFull).inode_bitmap_start * BS) 1 =
      bit_get imgFull ((readSB imgFull).inode_bitmap_start * BS) 1 := by
  constructor
  · exact (claim_C1_amended.1 (fun _ => 0) [104] [42] 5).1 (by decide)
  · exact (claim_C1_amended.2 imgFull (add_file imgFull [104] [42] 5).snd [104] [42] 5
      (by decide) (by decide) (by decide) (by decide) (by decide) (by decide)
      (Prod.ext rfl rfl)).1 1 (by decide)

/-! ### The contents of a freshly formatted image -/

theorem mkfs_bitmapI (T inode_cnt now : Nat) :
    ∀ j, j < 8 * BS → bit_get (buildImage T inode_cnt now ⟨1, 2, 3, (inode_cnt * INODE_SIZE + BS - 1) / BS, 3 + (inode_cnt * INODE_SIZE + BS - 1) / BS, T - (3 + (inode_cnt * INODE_SIZE + BS - 1) / BS)⟩) (1 * BS) j = if j = 0 then 1 else 0 := by
  intro j hj
  rw [BS_eq] at hj
  unfold buildImage
  simp only [Layout.data_region_start, Layout.inode_table_blocks]
  rw [bit_get_congr (writeBytesAt_neg _ (by unfold BS INODE_SIZE; omega)),
      bit_get_congr (writeBytesAt_neg _ (by unfold BS INODE_SIZE; omega)),
      bit_get_congr (fillBytes_neg (by unfold BS INODE_SIZE; omega)),
      bit_get_congr (writeBytesAt_neg _ (by unfold BS INODE_SIZE; omega)),
      bit_get_congr (fillBytes_neg (by unfold BS INODE_SIZE; omega)),
      bit_get_congr (bit_set_apply_ne (by unfold BS; omega))]
  by_cases hj0 : j = 0
  · subst hj0
    rw [if_pos rfl]
    exact bit_get_bit_set_self
  · rw [if_neg hj0, bit_get_bit_set_ne hj0,
      bit_get_congr (fillBytes_neg (by unfold BS; omega)),
      bit_get_eq_testBit, fillBytes_pos (by unfold BS; omega) (by unfold BS; omega)]
    simp

theorem mkfs_bitmapD (T inode_cnt now : Nat) :
    ∀ i, i < 8 * BS → bit_get (buildImage T inode_cnt now ⟨1, 2, 3, (inode_cnt * INODE_SIZE + BS - 1) / BS, 3 + (inode_cnt * INODE_SIZE + BS - 1) / BS, T - (3 + (inode_cnt * INODE_SIZE + BS - 1) / BS)⟩) (2 * BS) i = if i = 0 then 1 else 0 := by
  intro i hi
  rw [BS_eq] at hi
  unfold buildImage
  simp only [Layout.data_region_start, Layout.inode_table_blocks]
  rw [bit_get_congr (writeBytesAt_neg _ (by unfold BS INODE_SIZE; omega)),
      bit_get_congr (writeBytesAt_neg _ (by unfold BS INODE_SIZE; omega)),
      bit_get_congr (fillBytes_neg (by unfold BS INODE_SIZE; omega)),
      bit_get_congr (writeBytesAt_neg _ (by unfold BS INODE_SIZE; omega)),
      bit_get_congr (fillBytes_neg (by unfold BS INODE_SIZE; omega))]
  by_cases hi0 : i = 0
  · subst hi0
    rw [if_pos rfl]
    exact bit_get_bit_set_self
  · rw [if_neg hi0, bit_get_bit_set_ne hi0,
      bit_get_congr (bit_set_apply_ne (by unfold BS; omega)),
      bit_get_eq_testBit, fillBytes_pos (by unfold BS; omega) (by unfold BS; omega)]
    simp

theorem mkfs_rootInode (T inode_cnt now : Nat) (hic1 : 128 ≤ inode_cnt)
    (hnow : now < 2 ^ 64) :
    readInodeAt (buildImage T inode_cnt now ⟨1, 2, 3, (inode_cnt * INODE_SIZE + BS - 1) / BS, 3 + (inode_cnt * INODE_SIZE + BS - 1) / BS, T - (3 + (inode_cnt * INODE_SIZE + BS - 1) / BS)⟩) (3 * BS) =
      { buildRootInode now with direct := padDirect (buildRootInode now).direct } := by
  have hIB : InodeBounds (buildRootInode now) := by
    refine ⟨(by norm_num : (16384 : Nat) < 2 ^ 16), (by norm_num : (2 : Nat) < 2 ^ 16),
      (by norm_num : (0 : Nat) < 2 ^ 32), (by norm_num : (0 : Nat) < 2 ^ 32),
      (by norm_num : (128 : Nat) < 2 ^ 64), hnow, hnow, hnow, ?_,
      (by norm_num : (0 : Nat) < 2 ^ 32), (by norm_num : (0 : Nat) < 2 ^ 32),
      (by norm_num : (0 : Nat) < 2 ^ 32), (by norm_num : (0 : Nat) < 2 ^ 32),
      (by norm_num : (0 : Nat) < 2 ^ 32), (by norm_num : (0 : Nat) < 2 ^ 64),
      Nat.lt_of_lt_of_le (crc32_lt _) (by norm_num)⟩
    intro b hb
    have hb2 : b ∈ List.replicate DIRECT_MAX 0 := hb
    rw [List.eq_of_mem_replicate hb2]
    norm_num
  have hCbytes : ∀ k, k < 128 → (buildImage T inode_cnt now ⟨1, 2, 3, (inode_cnt * INODE_SIZE + BS - 1) / BS, 3 + (inode_cnt * INODE_SIZE + BS - 1) / BS, T - (3 + (inode_cnt * INODE_SIZE + BS - 1) / BS)⟩) (3 * BS + k) = (writeBytesAt (fillBytes (bit_set (bit_set (fillBytes (fillBytes (writeBytesAt (fun _ => 0) 0 116 (sbBytes (buildSB T inode_cnt now ⟨1, 2, 3, (inode_cnt * INODE_SIZE + BS - 1) / BS, 3 + (inode_cnt * INODE_SIZE + BS - 1) / BS, T - (3 + (inode_cnt * INODE_SIZE + BS - 1) / BS)⟩))) (1 * BS) BS 0) (2 * BS) BS 0) (1 * BS) 0) (2 * BS) 0) (3 * BS) ((inode_cnt * INODE_SIZE + BS - 1) / BS * BS) 0) (3 * BS) INODE_SIZE (inodeBytes (buildRootInode now))) (3 * BS + k) := by
    intro k hk
    unfold buildImage
    simp only [Layout.data_region_start, Layout.inode_table_blocks]
    rw [writeBytesAt_neg _ (by unfold BS INODE_SIZE; omega),
        writeBytesAt_neg _ (by unfold BS INODE_SIZE; omega),
        fillBytes_neg (by unfold BS INODE_SIZE; omega)]
  rw [readInodeAt_congr hCbytes]
  exact readInodeAt_writeBytesAt _ (3 * BS) (buildRootInode now) hIB

theorem mkfs_dotD (T inode_cnt now : Nat) :
    readDirentAt (buildImage T inode_cnt now ⟨1, 2, 3, (inode_cnt * INODE_SIZE + BS - 1) / BS, 3 + (inode_cnt * INODE_SIZE + BS - 1) / BS, T - (3 + (inode_cnt * INODE_SIZE + BS - 1) / BS)⟩) ((3 + (inode_cnt * INODE_SIZE + BS - 1) / BS) * BS) =
      { inode_no := dotDirent.inode_no, type := dotDirent.type % 256,
        name := padName dotDirent.name, checksum := dotDirent.checksum % 256 } := by
  have hEbytes : ∀ k, k < 64 → (buildImage T inode_cnt now ⟨1, 2, 3, (inode_cnt * INODE_SIZE + BS - 1) / BS, 3 + (inode_cnt * INODE_SIZE + BS - 1) / BS, T - (3 + (inode_cnt * INODE_SIZE + BS - 1) / BS)⟩) ((3 + (inode_cnt * INODE_SIZE + BS - 1) / BS) * BS + k) =
      (writeBytesAt (fillBytes (writeBytesAt (fillBytes (bit_set (bit_set (fillBytes (fillBytes (writeBytesAt (fun _ => 0) 0 116 (sbBytes (buildSB T inode_cnt now ⟨1, 2, 3, (inode_cnt * INODE_SIZE + BS - 1) / BS, 3 + (inode_cnt * INODE_SIZE + BS - 1) / BS, T - (3 + (inode_cnt * INODE_SIZE + BS - 1) / BS)⟩))) (1 * BS) BS 0) (2 * BS) BS 0) (1 * BS) 0) (2 * BS) 0) (3 * BS) ((inode_cnt * INODE_SIZE + BS - 1) / BS * BS) 0) (3 * BS) INODE_SIZE (inodeBytes (buildRootInode now))) ((3 + (inode_cnt * INODE_SIZE + BS - 1) / BS) * BS) BS 0) ((3 + (inode_cnt * INODE_SIZE + BS - 1) / BS) * BS) 64 (direntBytes dotDirent))
        ((3 + (inode_cnt * INODE_SIZE + BS - 1) / BS) * BS + k) := by
    intro k hk
    unfold buildImage
    simp only [Layout.data_region_start, Layout.inode_table_blocks]
    rw [writeBytesAt_neg _ (by unfold BS INODE_SIZE; omega)]
  rw [readDirentAt_congr hEbytes]
  exact readDirentAt_writeBytesAt _ ((3 + (inode_cnt * INODE_SIZE + BS - 1) / BS) * BS) dotDirent (by decide)

theorem mkfs_dotdotD (T inode_cnt now : Nat) :
    readDirentAt (buildImage T inode_cnt now ⟨1, 2, 3, (inode_cnt * INODE_SIZE + BS - 1) / BS, 3 + (inode_cnt * INODE_SIZE + BS - 1) / BS, T - (3 + (inode_cnt * INODE_SIZE + BS - 1) / BS)⟩) ((3 + (inode_cnt * INODE_SIZE + BS - 1) / BS) * BS + 64) =
      { inode_no := dotdotDirent.inode_no, type := dotdotDirent.type % 256,
        name := padName dotdotDirent.name, checksum := dotdotDirent.checksum % 256 } := by
  unfold buildImage
  simp only [Layout.data_region_start, Layout.inode_table_blocks]
  exact readDirentAt_writeBytesAt _ _ dotdotDirent (by decide)

theorem mkfs_rootblock_zero (T inode_cnt now : Nat) :
    ∀ k, 128 ≤ k → k < BS → (buildImage T inode_cnt now ⟨1, 2, 3, (inode_cnt * INODE_SIZE + BS - 1) / BS, 3 + (inode_cnt * INODE_SIZE + BS - 1) / BS, T - (3 + (inode_cnt * INODE_SIZE + BS - 1) / BS)⟩) ((3 + (inode_cnt * INODE_SIZE + BS - 1) / BS) * BS + k) = 0 := by
  intro k hk1 hk2
  rw [BS_eq] at hk2
  unfold buildImage
  simp only [Layout.data_region_start, Layout.inode_table_blocks]
  rw [writeBytesAt_neg _ (by unfold BS INODE_SIZE; omega),
      writeBytesAt_neg _ (by unfold BS INODE_SIZE; omega),
      fillBytes_pos (by unfold BS INODE_SIZE; omega) (by unfold BS INODE_SIZE; omega)]

theorem mkfs_table_zero (T inode_cnt now : Nat) :
    ∀ k, 128 ≤ k → k < inode_cnt * INODE_SIZE → (buildImage T inode_cnt now ⟨1, 2, 3, (inode_cnt * INODE_SIZE + BS - 1) / BS, 3 + (inode_cnt * INODE_SIZE + BS - 1) / BS, T - (3 + (inode_cnt * INODE_SIZE + BS - 1) / BS)⟩) (3 * BS + k) = 0 := by
  intro k hk1 hk2
  rw [show INODE_SIZE = 128 from rfl] at hk2
  unfold buildImage
  simp only [Layout.data_region_start, Layout.inode_table_blocks]
  rw [writeBytesAt_neg _ (by simp only [BS_eq, INODE_SIZE_eq]; omega),
      writeBytesAt_neg _ (by simp only [BS_eq, INODE_SIZE_eq]; omega),
      fillBytes_neg (by simp only [BS_eq, INODE_SIZE_eq]; omega),
      writeBytesAt_neg _ (by simp only [BS_eq, INODE_SIZE_eq]; omega),
      fillBytes_pos (by simp only [BS_eq, INODE_SIZE_eq]; omega)
        (by simp only [BS_eq, INODE_SIZE_eq]; omega)]

/-! ### Claim C5 -/

/-- C5: every image produced by format has inode-bitmap bit 0 and
data-bitmap bit 0 set and every other bit of both bitmap blocks clear;
the root inode stored at table slot 0 is exactly the builder's root
inode (directory mode 0x4000, 2 links, size 2 × 64, all three
timestamps the format time, first direct pointer 0, checksum
finalized); and the root's data block holds the finalized "." and ".."
entries (both inode 1, type directory) at offsets 0 and 64 with every
remaining byte of the block zero. -/
theorem claim_C5 (size_kib inode_cnt now : Nat) (img : Image) (hnow : now < 2 ^ 64)
    (hmk : mkfs size_kib inode_cnt now = some img) :
    (∀ j, j < 8 * BS → bit_get img ((readSB img).inode_bitmap_start * BS) j =
      if j = 0 then 1 else 0) ∧
    (∀ i, i < 8 * BS → bit_get img ((readSB img).data_bitmap_start * BS) i =
      if i = 0 then 1 else 0) ∧
    readInodeAt img ((readSB img).inode_table_start * BS) =
      { buildRootInode now with direct := padDirect (buildRootInode now).direct } ∧
    ((readInodeAt img ((readSB img).inode_table_start * BS)).mode = 0x4000 ∧
      (readInodeAt img ((readSB img).inode_table_start * BS)).links = 2 ∧
      (readInodeAt img ((readSB img).inode_table_start * BS)).size_bytes = 2 * 64 ∧
      (readInodeAt img ((readSB img).inode_table_start * BS)).atime = now ∧
      (readInodeAt img ((readSB img).inode_table_start * BS)).mtime = now ∧
      (readInodeAt img ((readSB img).inode_table_start * BS)).ctime = now ∧
      (readInodeAt img ((readSB img).inode_table_start * BS)).direct.getD 0 0 = 0) ∧
    readDirentAt img ((readSB img).data_region_start * BS) =
      { inode_no := dotDirent.inode_no, type := dotDirent.type % 256,
        name := padName dotDirent.name, checksum := dotDirent.checksum % 256 } ∧
    readDirentAt img ((readSB img).data_region_start * BS + 64) =
      { inode_no := dotdotDirent.inode_no, type := dotdotDirent.type % 256,
        name := padName dotdotDirent.name, checksum := dotdotDirent.checksum % 256 } ∧
    (∀ k, 128 ≤ k → k < BS → img ((readSB img).data_region_start * BS + k) = 0) := by
  obtain ⟨L, hL, himg, hs1, hs2, hs3, hic1, hic2⟩ := mkfs_some_inv hmk
  subst himg
  obtain ⟨hLeq, hcap⟩ := computeLayout_some_inv hL
  subst hLeq
  have htb : size_kib * 1024 / BS ≤ 1024 := by unfold BS; omega
  have hsb := readSB_buildImage hL hnow htb hic2
  have hp1 : (buildSB (size_kib * 1024 / BS) inode_cnt now
      ⟨1, 2, 3, (inode_cnt * INODE_SIZE + BS - 1) / BS, 3 + (inode_cnt * INODE_SIZE + BS - 1) / BS,
        size_kib * 1024 / BS - (3 + (inode_cnt * INODE_SIZE + BS - 1) / BS)⟩).inode_bitmap_start = 1 := rfl
  have hp2 : (buildSB (size_kib * 1024 / BS) inode_cnt now
      ⟨1, 2, 3, (inode_cnt * INODE_SIZE + BS - 1) / BS, 3 + (inode_cnt * INODE_SIZE + BS - 1) / BS,
        size_kib * 1024 / BS - (3 + (inode_cnt * INODE_SIZE + BS - 1) / BS)⟩).data_bitmap_start = 2 := rfl
  have hp3 : (buildSB (size_kib * 1024 / BS) inode_cnt now
      ⟨1, 2, 3, (inode_cnt * INODE_SIZE + BS - 1) / BS, 3 + (inode_cnt * INODE_SIZE + BS - 1) / BS,
        size_kib * 1024 / BS - (3 + (inode_cnt * INODE_SIZE + BS - 1) / BS)⟩).inode_table_start = 3 := rfl
  have hp5 : (buildSB (size_kib * 1024 / BS) inode_cnt now
      ⟨1, 2, 3, (inode_cnt * INODE_SIZE + BS - 1) / BS, 3 + (inode_cnt * INODE_SIZE + BS - 1) / BS,
        size_kib * 1024 / BS - (3 + (inode_cnt * INODE_SIZE + BS - 1) / BS)⟩).data_region_start =
      3 + (inode_cnt * INODE_SIZE + BS - 1) / BS := rfl
  have hC := mkfs_rootInode (size_kib * 1024 / BS) inode_cnt now hic1 hnow
  have hD : (readInodeAt (buildImage (size_kib * 1024 / BS) inode_cnt now
        ⟨1, 2, 3, (inode_cnt * INODE_SIZE + BS - 1) / BS, 3 + (inode_cnt * INODE_SIZE + BS - 1) / BS,
          size_kib * 1024 / BS - (3 + (inode_cnt * INODE_SIZE + BS - 1) / BS)⟩) (3 * BS)).mode = 0x4000 ∧
      (readInodeAt (buildImage (size_kib * 1024 / BS) inode_cnt now
        ⟨1, 2, 3, (inode_cnt * INODE_SIZE + BS - 1) / BS, 3 + (inode_cnt * INODE_SIZE + BS - 1) / BS,
          size_kib * 1024 / BS - (3 + (inode_cnt * INODE_SIZE + BS - 1) / BS)⟩) (3 * BS)).links = 2 ∧
      (readInodeAt (buildImage (size_kib * 1024 / BS) inode_cnt now
        ⟨1, 2, 3, (inode_cnt * INODE_SIZE + BS - 1) / BS, 3 + (inode_cnt * INODE_SIZE + BS - 1) / BS,
          size_kib * 1024 / BS - (3 + (inode_cnt * INODE_SIZE + BS - 1) / BS)⟩) (3 * BS)).size_bytes = 2 * 64 ∧
      (readInodeAt (buildImage (size_kib * 1024 / BS) inode_cnt now
        ⟨1, 2, 3, (inode_cnt * INODE_SIZE + BS - 1) / BS, 3 + (inode_cnt * INODE_SIZE + BS - 1) / BS,
          size_kib * 1024 / BS - (3 + (inode_cnt * INODE_SIZE + BS - 1) / BS)⟩) (3 * BS)).atime = now ∧
      (readInodeAt (buildImage (size_kib * 1024 / BS) inode_cnt now
        ⟨1, 2, 3, (inode_cnt * INODE_SIZE + BS - 1) / BS, 3 + (inode_cnt * INODE_SIZE + BS - 1) / BS,
          size_kib * 1024 / BS - (3 + (inode_cnt * INODE_SIZE + BS - 1) / BS)⟩) (3 * BS)).mtime = now ∧
      (readInodeAt (buildImage (size_kib * 1024 / BS) inode_cnt now
        ⟨1, 2, 3, (inode_cnt * INODE_SIZE + BS - 1) / BS, 3 + (inode_cnt * INODE_SIZE + BS - 1) / BS,
          size_kib * 1024 / BS - (3 + (inode_cnt * INODE_SIZE + BS - 1) / BS)⟩) (3 * BS)).ctime = now ∧
      (readInodeAt (buildImage (size_kib * 1024 / BS) inode_cnt now
        ⟨1, 2, 3, (inode_cnt * INODE_SIZE + BS - 1) / BS, 3 + (inode_cnt * INODE_SIZE + BS - 1) / BS,
          size_kib * 1024 / BS - (3 + (inode_cnt * INODE_SIZE + BS - 1) / BS)⟩) (3 * BS)).direct.getD 0 0 = 0 := by
    refine ⟨?_, ?_, ?_, ?_, ?_, ?_, ?_⟩ <;> · rw [hC]; try rfl
  rw [hsb, hp1, hp2, hp3, hp5]
  exact ⟨mkfs_bitmapI _ _ _, mkfs_bitmapD _ _ _, hC, hD,
    mkfs_dotD _ _ _, mkfs_dotdotD _ _ _, mkfs_rootblock_zero _ _ _⟩

/-- Witness for C5 at the §8 parameters: inode-bitmap bit 0 is set,
data-bitmap bit 7 is clear, the stored root inode has 2 links, and the
"." entry reads back finalized. -/
theorem claim_C5_witness :
    bit_get fmt45 ((readSB fmt45).inode_bitmap_start * BS) 0 = 1 ∧
    bit_get fmt45 ((readSB fmt45).data_bitmap_start * BS) 7 = 0 ∧
    (readInodeAt fmt45 ((readSB fmt45).inode_table_start * BS)).links = 2 ∧
    readDirentAt fmt45 ((readSB fmt45).data_region_start * BS) =
      { inode_no := dotDirent.inode_no, type := dotDirent.type % 256,
        name := padName dotDirent.name, checksum := dotDirent.checksum % 256 } := by
  have h := claim_C5 180 128 0 fmt45 (by decide) rfl
  refine ⟨?_, ?_, h.2.2.2.1.2.1, h.2.2.2.2.1⟩
  · simpa using h.1 0 (by decide)
  · simpa using h.2.1 7 (by decide)

/-! ### Claim C8 -/

set_option maxRecDepth 100000 in
/-- C8: on every successful add_file the adder rewrites inode-table
slot 0 with exactly the serialization of the root record it read back,
with link count incremented by 1, size_bytes increased by 64 (one
directory-entry) and the checksum refinalized; and on the §8 example
(fresh 45-block/128-inode image, then a 10-byte file "hello.txt" at
time 5) the new file receives inode number 2 with stored size_bytes 10
and direct[0] = 1, the new root directory entry is inode 2, type 1,
name "hello.txt", and the stored root inode becomes links 3,
size_bytes 192. -/
theorem claim_C8 :
    (∀ (img : Image) (fname content : List Nat) (now n : Nat) (img' : Image),
      1 ≤ (readSB img).inode_table_start →
      add_file img fname content now = (.ok n, img') →
      ∃ fi, findFreeInode img ((readSB img).inode_bitmap_start * BS)
          (readSB img).inode_count = some fi ∧
        n = fi + 1 ∧
        ∀ k, k < 128 → img' ((readSB img).inode_table_start * BS + k) =
          (inodeBytes (inode_crc_finalize { readInodeAt (addStage3 img (readSB img) content now fi (scanFreeBlocks img ((readSB img).data_bitmap_start * BS) 0 (needBlocks content.length) (readSB img).data_region_blocks)) ((readSB img).inode_table_start * BS) with links := (readInodeAt (addStage3 img (readSB img) content now fi (scanFreeBlocks img ((readSB img).data_bitmap_start * BS) 0 (needBlocks content.length) (readSB img).data_region_blocks)) ((readSB img).inode_table_start * BS)).links + 1, size_bytes := (readInodeAt (addStage3 img (readSB img) content now fi (scanFreeBlocks img ((readSB img).data_bitmap_start * BS) 0 (needBlocks content.length) (readSB img).data_region_blocks)) ((readSB img).inode_table_start * BS)).size_bytes + 64 })).getD k 0) ∧
    ((add_file fmt45 helloName [1, 2, 3, 4, 5, 6, 7, 8, 9, 10] 5).fst = Except.ok 2 ∧
      (readInodeAt (add_file fmt45 helloName [1, 2, 3, 4, 5, 6, 7, 8, 9, 10] 5).snd (3 * BS + 128)).size_bytes = 10 ∧
      (readInodeAt (add_file fmt45 helloName [1, 2, 3, 4, 5, 6, 7, 8, 9, 10] 5).snd (3 * BS + 128)).direct.getD 0 0 = 1 ∧
      (readDirentAt (add_file fmt45 helloName [1, 2, 3, 4, 5, 6, 7, 8, 9, 10] 5).snd (7 * BS + 128)).inode_no = 2 ∧
      (readDirentAt (add_file fmt45 helloName [1, 2, 3, 4, 5, 6, 7, 8, 9, 10] 5).snd (7 * BS + 128)).type = 1 ∧
      (readDirentAt (add_file fmt45 helloName [1, 2, 3, 4, 5, 6, 7, 8, 9, 10] 5).snd (7 * BS + 128)).name = padName helloName ∧
      (readInodeAt (add_file fmt45 helloName [1, 2, 3, 4, 5, 6, 7, 8, 9, 10] 5).snd (3 * BS)).links = 3 ∧
      (readInodeAt (add_file fmt45 helloName [1, 2, 3, 4, 5, 6, 7, 8, 9, 10] 5).snd (3 * BS)).size_bytes = 192) := by
  constructor
  · intro img fname content now n img' hits1 hadd
    obtain ⟨hm, h2, fi, hfi, hn, h4, h5, off, hoff, himg'⟩ := add_file_ok_inv hadd
    subst himg'
    subst hn
    refine ⟨fi, hfi, rfl, ?_⟩
    intro k hk
    have hBS : BS = 4096 := rfl
    have hIS : INODE_SIZE = 128 := rfl
    have hmul : 1 * BS ≤ (readSB img).inode_table_start * BS := Nat.mul_le_mul_right BS hits1
    simp only [addCommit]
    rw [writeBytesAt_neg _ (by omega), writeBytesAt_pos _ (by omega) (by omega),
      show (readSB img).inode_table_start * BS + k - (readSB img).inode_table_start * BS = k
        from by omega]
  · exact ⟨rfl, rfl, rfl, rfl, rfl, rfl, rfl, rfl⟩

/-- Witness for C8, discharged on the §8 example: the 10-byte
"hello.txt" added to the example image at time 5 gets inode number 2 and
slot 0 is rewritten with the incremented, refinalized root record. -/
theorem claim_C8_witness :
    ∃ fi, findFreeInode fmt45 ((readSB fmt45).inode_bitmap_start * BS)
        (readSB fmt45).inode_count = some fi ∧
      2 = fi + 1 ∧
      ∀ k, k < 128 → (add_file fmt45 helloName [1, 2, 3, 4, 5, 6, 7, 8, 9, 10] 5).snd ((readSB fmt45).inode_table_start * BS + k) =
        (inodeBytes (inode_crc_finalize { readInodeAt (addStage3 fmt45 (readSB fmt45) [1, 2, 3, 4, 5, 6, 7, 8, 9, 10] 5 fi (scanFreeBlocks fmt45 ((readSB fmt45).data_bitmap_start * BS) 0 (needBlocks [1, 2, 3, 4, 5, 6, 7, 8, 9, 10].length) (readSB fmt45).data_region_blocks)) ((readSB fmt45).inode_table_start * BS) with links := (readInodeAt (addStage3 fmt45 (readSB fmt45) [1, 2, 3, 4, 5, 6, 7, 8, 9, 10] 5 fi (scanFreeBlocks fmt45 ((readSB fmt45).data_bitmap_start * BS) 0 (needBlocks [1, 2, 3, 4, 5, 6, 7, 8, 9, 10].length) (readSB fmt45).data_region_blocks)) ((readSB fmt45).inode_table_start * BS)).links + 1, size_bytes := (readInodeAt (addStage3 fmt45 (readSB fmt45) [1, 2, 3, 4, 5, 6, 7, 8, 9, 10] 5 fi (scanFreeBlocks fmt45 ((readSB fmt45).data_bitmap_start * BS) 0 (needBlocks [1, 2, 3, 4, 5, 6, 7, 8, 9, 10].length) (readSB fmt45).data_region_blocks)) ((readSB fmt45).inode_table_start * BS)).size_bytes + 64 })).getD k 0 :=
  claim_C8.1 fmt45 helloName [1, 2, 3, 4, 5, 6, 7, 8, 9, 10] 5 2 (add_file fmt45 helloName [1, 2, 3, 4, 5, 6, 7, 8, 9, 10] 5).snd (by decide) (Prod.ext rfl rfl)

/-! ### Claim C10 -/

/-- C10: on every successful add_file, the only parts of the image that
change are: the superblock (whose parsed fields change only in
mtime_epoch and the refinalized checksum), the chosen inode's bitmap
byte, the chosen data blocks' bitmap bytes, the new inode's table slot,
the chosen data blocks, the written 64-byte directory-entry slot and the
root inode's table slot — every byte outside those regions is unchanged;
and on the standard layout every inode-bitmap bit other than the chosen
inode's and every data-bitmap bit other than the chosen blocks' keeps
its exact pre-call value. -/
theorem claim_C10 (img : Image) (fname content : List Nat) (now n : Nat) (img' : Image)
    (hbytes : ∀ k, img k < 256) (hnow : now < 2 ^ 64)
    (hadd : add_file img fname content now = (.ok n, img')) :
    ∃ fi off,
      findFreeInode img ((readSB img).inode_bitmap_start * BS) (readSB img).inode_count =
        some fi ∧
      findFreeDirent (addStage3 img (readSB img) content now fi (scanFreeBlocks img ((readSB img).data_bitmap_start * BS) 0 (needBlocks content.length) (readSB img).data_region_blocks)) ((readSB img).data_region_start * BS + ((readInodeAt (addStage3 img (readSB img) content now fi (scanFreeBlocks img ((readSB img).data_bitmap_start * BS) 0 (needBlocks content.length) (readSB img).data_region_blocks)) ((readSB img).inode_table_start * BS)).direct.getD 0 0) * BS) = some off ∧
      readSB img' = superblock_crc_finalize { readSB img with mtime_epoch := now } ∧
      (∀ k, 116 ≤ k →
        k ≠ (readSB img).inode_bitmap_start * BS + fi / 8 →
        (∀ b ∈ (scanFreeBlocks img ((readSB img).data_bitmap_start * BS) 0 (needBlocks content.length) (readSB img).data_region_blocks), k ≠ (readSB img).data_bitmap_start * BS + b / 8) →
        ¬ ((readSB img).inode_table_start * BS + fi * INODE_SIZE ≤ k ∧
          k < (readSB img).inode_table_start * BS + fi * INODE_SIZE + INODE_SIZE) →
        (∀ b ∈ (scanFreeBlocks img ((readSB img).data_bitmap_start * BS) 0 (needBlocks content.length) (readSB img).data_region_blocks), ¬ ((readSB img).data_region_start * BS + b * BS ≤ k ∧
          k < (readSB img).data_region_start * BS + b * BS + BS)) →
        ¬ ((readSB img).data_region_start * BS + ((readInodeAt (addStage3 img (readSB img) content now fi (scanFreeBlocks img ((readSB img).data_bitmap_start * BS) 0 (needBlocks content.length) (readSB img).data_region_blocks)) ((readSB img).inode_table_start * BS)).direct.getD 0 0) * BS + off ≤ k ∧
          k < (readSB img).data_region_start * BS + ((readInodeAt (addStage3 img (readSB img) content now fi (scanFreeBlocks img ((readSB img).data_bitmap_start * BS) 0 (needBlocks content.length) (readSB img).data_region_blocks)) ((readSB img).inode_table_start * BS)).direct.getD 0 0) * BS + off + 64) →
        ¬ ((readSB img).inode_table_start * BS ≤ k ∧
          k < (readSB img).inode_table_start * BS + INODE_SIZE) →
        img' k = img k) ∧
      ((readSB img).inode_bitmap_start = 1 → (readSB img).data_bitmap_start = 2 →
        3 ≤ (readSB img).inode_table_start → 3 ≤ (readSB img).data_region_start →
        (readSB img).inode_count ≤ 8 * BS → (readSB img).data_region_blocks ≤ 8 * BS →
        (∀ j, j < (readSB img).inode_count → j ≠ fi →
          bit_get img' ((readSB img).inode_bitmap_start * BS) j =
            bit_get img ((readSB img).inode_bitmap_start * BS) j) ∧
        (∀ i, i < (readSB img).data_region_blocks → i ∉ (scanFreeBlocks img ((readSB img).data_bitmap_start * BS) 0 (needBlocks content.length) (readSB img).data_region_blocks) →
          bit_get img' ((readSB img).data_bitmap_start * BS) i =
            bit_get img ((readSB img).data_bitmap_start * BS) i)) := by
  obtain ⟨hm, h2, fi, hfi, hn, h4, h5, off, hoff, himg'⟩ := add_file_ok_inv hadd
  subst himg'
  have hBS : BS = 4096 := rfl
  have hIS : INODE_SIZE = 128 := rfl
  refine ⟨fi, off, hfi, hoff, readSB_addCommit (sbBounds_readSB hbytes) hnow, ?_, ?_⟩
  · intro k hk116 hA hB hC hD hE hF
    simp only [addStage3] at hE
    simp only [addCommit, addStage3]
    rw [writeBytesAt_neg _ (by omega),
        writeBytesAt_neg _ (by omega),
        writeBytesAt_neg _ (by omega),
        writeBytesAt_neg _ (by omega),
        applyBlocks_apply_out _ _ 0 (fun b hb => ⟨hB b hb, by have := hD b hb; omega⟩),
        bit_set_apply_ne hA]
  · intro hibs hdbs hits hdrs hic hdrb
    obtain ⟨hfi_lt, hfi_bit⟩ := findFreeInode_some hfi
    have hmul1 : 3 * BS ≤ (readSB img).inode_table_start * BS := Nat.mul_le_mul_right BS hits
    have hmul2 : 3 * BS ≤ (readSB img).data_region_start * BS := Nat.mul_le_mul_right BS hdrs
    constructor
    · intro j hj hjfi
      simp only [addCommit, addStage3]
      rw [hibs, hdbs]
      rw [bit_get_congr (writeBytesAt_neg _ (by omega)),
          bit_get_congr (writeBytesAt_neg _ (by omega)),
          bit_get_congr (writeBytesAt_neg _ (by omega)),
          bit_get_congr (writeBytesAt_neg _ (by omega)),
          bit_get_congr (applyBlocks_apply_out _ _ 0 (fun b hb => ⟨by omega, Or.inl (by omega)⟩)),
          bit_get_bit_set_ne hjfi]
    · intro i hi hib
      rw [hdbs] at hib
      simp only [addCommit, addStage3]
      rw [hibs, hdbs]
      rw [bit_get_congr (writeBytesAt_neg _ (by omega)),
          bit_get_congr (writeBytesAt_neg _ (by omega)),
          bit_get_congr (writeBytesAt_neg _ (by omega)),
          bit_get_congr (writeBytesAt_neg _ (by omega)),
          bit_get_applyBlocks _ _ 0 (fun b hb => Or.inl (by omega)),
          if_neg hib,
          bit_get_congr (bit_set_apply_ne (by omega))]

/-- Witness for C10 on the §8 example: applying the frame theorem to the
10-byte "hello.txt" addition shows the resulting superblock differs from
the example image's only in mtime_epoch and the refinalized checksum. -/
theorem claim_C10_witness :
    readSB (add_file fmt45 helloName [1, 2, 3, 4, 5, 6, 7, 8, 9, 10] 5).snd =
      superblock_crc_finalize { readSB fmt45 with mtime_epoch := 5 } := by
  obtain ⟨fi, off, hfi, hoff, ha, hb, hc⟩ :=
    claim_C10 fmt45 helloName [1, 2, 3, 4, 5, 6, 7, 8, 9, 10] 5 2
      (add_file fmt45 helloName [1, 2, 3, 4, 5, 6, 7, 8, 9, 10] 5).snd
      fmt45_bytes_lt (by decide) (Prod.ext rfl rfl)
  exact ha

/-! ### Claim C2: the bitmap or table consistency invariant -/

theorem countP_le_len (p : Nat → Bool) : ∀ l : List Nat, l.countP p ≤ l.length
  | [] => by simp
  | a :: t => by
    rw [List.countP_cons, List.length_cons]
    have h := countP_le_len p t
    split <;> omega

theorem countP_succ_le_length (p : Nat → Bool) (s0 : Nat) :
    ∀ l : List Nat, s0 ∈ l → p s0 = false → l.countP p + 1 ≤ l.length
  | [], hm, _ => absurd hm (List.not_mem_nil _)
  | a :: t, hm, hp => by
    rw [List.countP_cons, List.length_cons]
    rcases List.mem_cons.mp hm with rfl | hmt
    · have h := countP_le_len p t
      rw [hp]
      simp only [Bool.false_eq_true, if_false]
      omega
    · have h := countP_succ_le_length p s0 t hmt hp
      split <;> omega

theorem blockChunk_mem_lt {content : List Nat} (hc : ∀ b ∈ content, b < 256) (i : Nat) :
    ∀ b ∈ blockChunk content i, b < 256 := by
  intro b hb
  unfold blockChunk at hb
  rw [List.mem_append] at hb
  rcases hb with hb | hb
  · exact hc b (List.drop_subset _ _ (List.take_subset _ _ hb))
  · rw [List.eq_of_mem_replicate hb]
    omega

theorem applyBlocks_bytes_lt {dbmOff dataOff : Nat} {content : List Nat}
    (hc : ∀ b ∈ content, b < 256) :
    ∀ (blocks : List Nat) (img : Image) (i : Nat), (∀ k, img k < 256) →
      ∀ k, applyBlocks dbmOff dataOff content img i blocks k < 256
  | [], _, _, h => h
  | b :: rest, img, i, h => by
    rw [applyBlocks]
    exact applyBlocks_bytes_lt hc rest _ (i + 1)
      (writeBytesAt_bytes_lt (bit_set_bytes_lt h) (blockChunk_mem_lt hc i))

/-- In a freshly built image every inode-table slot other than slot 0 is
still zeroed, so its stored link count reads back as 0. -/
theorem mkfs_table_slot_links (T inode_cnt now j : Nat) (hj1 : 1 ≤ j) (hj : j < inode_cnt) :
    (readInodeAt (buildImage T inode_cnt now ⟨1, 2, 3, (inode_cnt * INODE_SIZE + BS - 1) / BS, 3 + (inode_cnt * INODE_SIZE + BS - 1) / BS, T - (3 + (inode_cnt * INODE_SIZE + BS - 1) / BS)⟩) (3 * BS + j * INODE_SIZE)).links = 0 := by
  have hIS : INODE_SIZE = 128 := rfl
  have hj1IS : 1 * INODE_SIZE ≤ j * INODE_SIZE := Nat.mul_le_mul_right INODE_SIZE hj1
  have hjub : j * INODE_SIZE + INODE_SIZE ≤ inode_cnt * INODE_SIZE := by
    have h := Nat.mul_le_mul_right INODE_SIZE (show j + 1 ≤ inode_cnt from hj)
    rw [Nat.add_mul] at h
    omega
  show readLE _ (3 * BS + j * INODE_SIZE + 2) 2 = 0
  refine readLE_zero 2 (fun k hk => ?_)
  rw [show 3 * BS + j * INODE_SIZE + 2 + k = 3 * BS + (j * INODE_SIZE + 2 + k) from by omega]
  exact mkfs_table_zero T inode_cnt now (j * INODE_SIZE + 2 + k) (by omega) (by omega)

/-- The inductive invariant holds for every image the formatter builds
with the standard layout. -/
theorem buildImage_good (T inode_cnt now : Nat) (hnow : now < 2 ^ 64)
    (hic1 : 128 ≤ inode_cnt) (hic2 : inode_cnt ≤ 512) (htb : T ≤ 1024)
    (hL : computeLayout T inode_cnt = some ⟨1, 2, 3, (inode_cnt * INODE_SIZE + BS - 1) / BS, 3 + (inode_cnt * INODE_SIZE + BS - 1) / BS, T - (3 + (inode_cnt * INODE_SIZE + BS - 1) / BS)⟩) :
    Good (buildImage T inode_cnt now ⟨1, 2, 3, (inode_cnt * INODE_SIZE + BS - 1) / BS, 3 + (inode_cnt * INODE_SIZE + BS - 1) / BS, T - (3 + (inode_cnt * INODE_SIZE + BS - 1) / BS)⟩) := by
  have hcap : 3 + (inode_cnt * INODE_SIZE + BS - 1) / BS < T := (computeLayout_some_inv hL).2
  have hBS : BS = 4096 := rfl
  have hIS : INODE_SIZE = 128 := rfl
  set L0 : Layout := ⟨1, 2, 3, (inode_cnt * INODE_SIZE + BS - 1) / BS, 3 + (inode_cnt * INODE_SIZE + BS - 1) / BS, T - (3 + (inode_cnt * INODE_SIZE + BS - 1) / BS)⟩ with hL0def
  set imgB := buildImage T inode_cnt now L0 with hBdef
  have hsb : readSB imgB = buildSB T inode_cnt now L0 := readSB_buildImage hL hnow htb hic2
  have hpm : (buildSB T inode_cnt now L0).magic = MAGIC := rfl
  have hp1 : (buildSB T inode_cnt now L0).inode_bitmap_start = 1 := rfl
  have hp2 : (buildSB T inode_cnt now L0).data_bitmap_start = 2 := rfl
  have hp3 : (buildSB T inode_cnt now L0).inode_table_start = 3 := rfl
  have hp4 : (buildSB T inode_cnt now L0).inode_count = inode_cnt := rfl
  have hp5 : (buildSB T inode_cnt now L0).data_region_start = 3 + (inode_cnt * INODE_SIZE + BS - 1) / BS := rfl
  have hp6 : (buildSB T inode_cnt now L0).data_region_blocks = T - (3 + (inode_cnt * INODE_SIZE + BS - 1) / BS) := rfl
  have hbmI : ∀ j, j < 8 * BS → bit_get imgB (1 * BS) j = if j = 0 then 1 else 0 :=
    mkfs_bitmapI T inode_cnt now
  have hbmD : ∀ i, i < 8 * BS → bit_get imgB (2 * BS) i = if i = 0 then 1 else 0 :=
    mkfs_bitmapD T inode_cnt now
  have hroot : readInodeAt imgB (3 * BS) = { buildRootInode now with direct := padDirect (buildRootInode now).direct } :=
    mkfs_rootInode T inode_cnt now hic1 hnow
  have hzero : ∀ k, 128 ≤ k → k < BS → imgB ((3 + (inode_cnt * INODE_SIZE + BS - 1) / BS) * BS + k) = 0 :=
    mkfs_rootblock_zero T inode_cnt now
  have hslotz : ∀ j, 1 ≤ j → j < inode_cnt → (readInodeAt imgB (3 * BS + j * INODE_SIZE)).links = 0 :=
    fun j h1 h2 => mkfs_table_slot_links T inode_cnt now j h1 h2
  have hdotI : readLE imgB ((3 + (inode_cnt * INODE_SIZE + BS - 1) / BS) * BS) 4 = 1 :=
    congrArg Dirent.inode_no (mkfs_dotD T inode_cnt now)
  have hddI : readLE imgB ((3 + (inode_cnt * INODE_SIZE + BS - 1) / BS) * BS + 64) 4 = 1 :=
    congrArg Dirent.inode_no (mkfs_dotdotD T inode_cnt now)
  have hg0 : (buildRootInode now).direct.getD 0 0 = 0 := rfl
  have hslot234 : ∀ s, 2 ≤ s → s < 64 → readLE imgB ((3 + (inode_cnt * INODE_SIZE + BS - 1) / BS) * BS + s * 64) 4 = 0 := by
    intro s h2s hs64
    refine readLE_zero 4 (fun k hk => ?_)
    rw [show (3 + (inode_cnt * INODE_SIZE + BS - 1) / BS) * BS + s * 64 + k = (3 + (inode_cnt * INODE_SIZE + BS - 1) / BS) * BS + (s * 64 + k) from by omega]
    exact hzero (s * 64 + k) (by omega) (by omega)
  have hcu : countUsedDirents imgB ((3 + (inode_cnt * INODE_SIZE + BS - 1) / BS) * BS) = 2 := by
    unfold countUsedDirents
    refine Eq.trans (List.countP_congr ?_) (show (List.range 64).countP (fun a => decide (a < 2)) = 2 from by decide)
    intro a ha
    rw [List.mem_range] at ha
    by_cases h2a : a < 2
    · have hv : readLE imgB ((3 + (inode_cnt * INODE_SIZE + BS - 1) / BS) * BS + a * 64) 4 = 1 := by
        interval_cases a
        · rw [show (3 + (inode_cnt * INODE_SIZE + BS - 1) / BS) * BS + 0 * 64 = (3 + (inode_cnt * INODE_SIZE + BS - 1) / BS) * BS from by simp]
          exact hdotI
        · rw [show (3 + (inode_cnt * INODE_SIZE + BS - 1) / BS) * BS + 1 * 64 = (3 + (inode_cnt * INODE_SIZE + BS - 1) / BS) * BS + 64 from by omega]
          exact hddI
      rw [hv]
      simp [h2a]
    · have hv := hslot234 a (by omega) ha
      rw [hv]
      simp [h2a]
  show (∀ k, imgB k < 256) ∧ StdLayout imgB ∧ RootGood imgB ∧ Consistent imgB
  refine ⟨buildImage_bytes_lt T inode_cnt now L0, ?_, ?_, ?_⟩
  · unfold StdLayout
    rw [hsb]
    refine ⟨rfl, rfl, rfl, rfl, ?_, ?_, hic1, hic2, ?_, ?_⟩
    · show (3 : Nat) ≤ 3 + (inode_cnt * INODE_SIZE + BS - 1) / BS
      simp only [BS_eq, INODE_SIZE_eq]
      omega
    · show inode_cnt * INODE_SIZE ≤ (3 + (inode_cnt * INODE_SIZE + BS - 1) / BS - 3) * BS
      simp only [BS_eq, INODE_SIZE_eq]
      omega
    · show (1 : Nat) ≤ T - (3 + (inode_cnt * INODE_SIZE + BS - 1) / BS)
      simp only [BS_eq, INODE_SIZE_eq] at hcap ⊢
      omega
    · show T - (3 + (inode_cnt * INODE_SIZE + BS - 1) / BS) ≤ 1024
      omega
  · unfold RootGood
    rw [hsb, hp5, hp6, hroot]
    refine ⟨?_, ?_, ?_, ?_⟩
    · show (padDirect (buildRootInode now).direct).getD 0 0 < T - (3 + (inode_cnt * INODE_SIZE + BS - 1) / BS)
      rw [padDirect_getD ((buildRootInode now).direct) 0 (by decide), hg0]
      omega
    · show (2 : Nat) = countUsedDirents imgB ((3 + (inode_cnt * INODE_SIZE + BS - 1) / BS) * BS + (padDirect (buildRootInode now).direct).getD 0 0 * BS)
      rw [padDirect_getD ((buildRootInode now).direct) 0 (by decide), hg0,
        show (3 + (inode_cnt * INODE_SIZE + BS - 1) / BS) * BS + 0 * BS = (3 + (inode_cnt * INODE_SIZE + BS - 1) / BS) * BS from by simp]
      exact hcu.symm
    · show (2 * 64 : Nat) = 64 * 2
      decide
    · show (2 : Nat) ≤ 2
      decide
  · unfold Consistent
    rw [hsb, hp1, hp2, hp3, hp4, hp6]
    constructor
    · intro i hi
      rw [hbmD i (by omega)]
      by_cases hi0 : i = 0
      · subst hi0
        rw [if_pos rfl]
        refine iff_of_true rfl ?_
        refine ⟨0, by omega, ?_, 0, ?_, by decide, ?_⟩
        · rw [hbmI 0 (by omega), if_pos rfl]
        · rw [show 3 * BS + 0 * INODE_SIZE = 3 * BS from by simp, hroot]
          show (0 : Nat) < needBlocks (2 * 64)
          decide
        · rw [show 3 * BS + 0 * INODE_SIZE = 3 * BS from by simp, hroot]
          show (padDirect (buildRootInode now).direct).getD 0 0 = 0
          rw [padDirect_getD ((buildRootInode now).direct) 0 (by decide)]
          exact hg0
      · rw [if_neg hi0]
        refine iff_of_false (by decide) ?_
        rintro ⟨j, hj, hbitj, k, hk1, hk2, hkval⟩
        rw [hbmI j (by omega)] at hbitj
        by_cases hj0 : j = 0
        · subst hj0
          rw [show 3 * BS + 0 * INODE_SIZE = 3 * BS from by simp, hroot] at hk1 hkval
          have hsz2 : ({ buildRootInode now with direct := padDirect (buildRootInode now).direct } : Inode).size_bytes = 2 * 64 := rfl
          rw [hsz2] at hk1
          have he : needBlocks (2 * 64) = 1 := by decide
          have hk0 : k = 0 := by omega
          subst hk0
          have hv : ({ buildRootInode now with direct := padDirect (buildRootInode now).direct } : Inode).direct.getD 0 0 = 0 := by
            show (padDirect (buildRootInode now).direct).getD 0 0 = 0
            rw [padDirect_getD ((buildRootInode now).direct) 0 (by decide)]
            exact hg0
          rw [hv] at hkval
          exact hi0 hkval.symm
        · rw [if_neg hj0] at hbitj
          exact absurd hbitj (by decide)
    · intro j hj
      rw [hbmI j (by omega)]
      by_cases hj0 : j = 0
      · subst hj0
        rw [if_pos rfl, show 3 * BS + 0 * INODE_SIZE = 3 * BS from by simp, hroot]
        refine iff_of_true rfl ?_
        show (2 : Nat) ≠ 0
        decide
      · rw [if_neg hj0, hslotz j (by omega) hj]
        exact iff_of_false (by decide) (by omega)

/-- The inductive invariant holds for every image mkfs produces. -/
theorem mkfs_good (size_kib inode_cnt now : Nat) (img : Image) (hnow : now < 2 ^ 64)
    (hmk : mkfs size_kib inode_cnt now = some img) : Good img := by
  obtain ⟨L, hL, himg, hs1, hs2, hs3, hic1, hic2⟩ := mkfs_some_inv hmk
  subst himg
  obtain ⟨hLeq, hcap⟩ := computeLayout_some_inv hL
  subst hLeq
  exact buildImage_good (size_kib * 1024 / BS) inode_cnt now hnow hic1 hic2
    (by unfold BS; omega) hL

/-- The inductive invariant is preserved by every successful add_file. -/
theorem add_good (img : Image) (fname content : List Nat) (now n : Nat) (img' : Image)
    (hg : Good img) (hfname : ∀ b ∈ fname, b < 256) (hcontent : ∀ b ∈ content, b < 256)
    (hnow : now < 2 ^ 64)
    (hadd : add_file img fname content now = (.ok n, img')) : Good img' := by
  obtain ⟨hbytes, hstd, hroot, hcons⟩ := hg
  obtain ⟨hmagic, hibs, hdbs, hits, hdrs, htab, hic128, hic512, hdrb1, hdrb1024⟩ := hstd
  obtain ⟨hrel_lt, hlinks_eq, hsize_eq, hlinks2⟩ := hroot
  obtain ⟨hconsD, hconsI⟩ := hcons
  rw [hibs, hits] at hconsI
  rw [hdbs, hibs, hits] at hconsD
  obtain ⟨hm, h2, fi, hfi, hn, h4, h5, off, hoff, himg'⟩ := add_file_ok_inv hadd
  rw [hibs] at hfi
  rw [hdbs] at h4 h5 hoff himg'
  rw [hits] at h5 hoff himg'
  set bf := scanFreeBlocks img (2 * BS) 0 (needBlocks content.length) (readSB img).data_region_blocks with hbfdef
  set rel := (readInodeAt (addStage3 img (readSB img) content now fi bf) (3 * BS)).direct.getD 0 0 with hreldef
  subst himg'
  set C := addCommit (addStage3 img (readSB img) content now fi bf) (readSB img) fname now fi rel off with hCdef
  have hBS : BS = 4096 := rfl
  have hIS : INODE_SIZE = 128 := rfl
  have hDM : DIRECT_MAX = 12 := rfl
  have hic8 : (readSB img).inode_count ≤ 8 * BS := by omega
  obtain ⟨hfiic, hfibit⟩ := findFreeInode_some hfi
  have hbfmem : ∀ b ∈ bf, b < (readSB img).data_region_blocks ∧ bit_get img (2 * BS) b = 0 := by
    intro b hb
    rw [hbfdef] at hb
    have h := scanFreeBlocks_mem 0 (needBlocks content.length) ((readSB img).data_region_blocks) b hb
    exact ⟨by omega, h.2.2⟩
  have hbf8 : ∀ b ∈ bf, b < 8 * BS := by
    intro b hb
    have h := (hbfmem b hb).1
    omega
  have hbflen : bf.length = needBlocks content.length := by
    have h := @scanFreeBlocks_length img (2 * BS) 0 (needBlocks content.length) ((readSB img).data_region_blocks)
    rw [← hbfdef] at h
    omega
  have hnb12 : needBlocks content.length ≤ 12 := by omega
  have hclen : content.length ≤ 49152 := needBlocks_le_len hnb12
  have hbit0 : bit_get img (1 * BS) 0 = 1 := by
    refine (hconsI 0 (by omega)).mpr ?_
    rw [show 3 * BS + 0 * INODE_SIZE = 3 * BS from by simp]
    omega
  have hfi0 : fi ≠ 0 := by
    intro he
    rw [he, hbit0] at hfibit
    exact absurd hfibit (by decide)
  have hfi1 : 1 ≤ fi := by omega
  have hroot3 : readInodeAt (addStage3 img (readSB img) content now fi bf) (3 * BS) = readInodeAt img (3 * BS) :=
    addStage3_root_slot_frame img (readSB img) content bf now fi hibs hdbs hits hdrs htab hic128 hic8 hfiic hbf8 hfi1
  have hrelval : rel = (readInodeAt img (3 * BS)).direct.getD 0 0 := by
    rw [hreldef, hroot3]
  have hbitrel : bit_get img (2 * BS) rel = 1 := by
    refine (hconsD rel (by omega)).mpr ⟨0, by omega, hbit0, 0, ?_, by decide, ?_⟩
    · rw [show 3 * BS + 0 * INODE_SIZE = 3 * BS from by simp]
      have h := needBlocks_eq_max (readInodeAt img (3 * BS)).size_bytes
      omega
    · rw [show 3 * BS + 0 * INODE_SIZE = 3 * BS from by simp]
      exact hrelval.symm
  have hrelbf : rel ∉ bf := by
    intro hmem
    have h1 := (hbfmem rel hmem).2
    omega
  obtain ⟨s, hs64, hoffeq, hslot0⟩ := findFreeDirent_some hoff
  have htr0 : readLE (addStage3 img (readSB img) content now fi bf) ((readSB img).data_region_start * BS + rel * BS + off) 4 = readLE img ((readSB img).data_region_start * BS + rel * BS + off) 4 := by
    refine readLE_congr 4 (fun k hk => ?_)
    rw [show (readSB img).data_region_start * BS + rel * BS + off + k = (readSB img).data_region_start * BS + rel * BS + (off + k) from by omega]
    exact addStage3_rootblock_byte img (readSB img) content bf now fi rel (off + k) hibs hdbs hits hdrs htab hic128 hic8 hfiic hbf8 hrelbf (by omega)
  have hslot0' : readLE img ((readSB img).data_region_start * BS + rel * BS + off) 4 = 0 :=
    htr0.symm.trans hslot0
  have hpfalse : (fun t => readLE img ((readSB img).data_region_start * BS + rel * BS + t * 64) 4 != 0) s = false := by
    show (readLE img ((readSB img).data_region_start * BS + rel * BS + s * 64) 4 != 0) = false
    rw [show (readSB img).data_region_start * BS + rel * BS + s * 64 = (readSB img).data_region_start * BS + rel * BS + off from by omega, hslot0']
    rfl
  have hcount63 : countUsedDirents img ((readSB img).data_region_start * BS + rel * BS) + 1 ≤ 64 := by
    unfold countUsedDirents
    have h := countP_succ_le_length (fun t => readLE img ((readSB img).data_region_start * BS + rel * BS + t * 64) 4 != 0) s (List.range 64) (List.mem_range.mpr hs64) hpfalse
    simpa using h
  have hlinksA : (readInodeAt img (3 * BS)).links = countUsedDirents img ((readSB img).data_region_start * BS + rel * BS) := by
    rw [hlinks_eq, ← hrelval]
  have hlinks63 : (readInodeAt img (3 * BS)).links + 1 ≤ 64 := by
    rw [hlinksA]
    exact hcount63
  have hneed_old_root : needBlocks (readInodeAt img (3 * BS)).size_bytes = 1 :=
    needBlocks_one_of_le (by omega) (by omega)
  have hneed_new_root : needBlocks ((readInodeAt img (3 * BS)).size_bytes + 64) = 1 :=
    needBlocks_one_of_le (by omega) (by omega)
  have hbndroot : InodeBounds (inode_crc_finalize { readInodeAt img (3 * BS) with links := (readInodeAt img (3 * BS)).links + 1, size_bytes := (readInodeAt img (3 * BS)).size_bytes + 64 }) := by
    refine ⟨?_, ?_, ?_, ?_, ?_, ?_, ?_, ?_, readInodeAt_direct_lt hbytes, ?_, ?_, ?_, ?_, ?_, ?_, Nat.lt_of_lt_of_le (crc32_lt _) (by norm_num)⟩
    · show readLE img (3 * BS) 2 < 2 ^ 16
      exact Nat.lt_of_lt_of_le (readLE_lt_pow hbytes) (by norm_num)
    · show (readInodeAt img (3 * BS)).links + 1 < 2 ^ 16
      omega
    · show readLE img (3 * BS + 4) 4 < 2 ^ 32
      exact Nat.lt_of_lt_of_le (readLE_lt_pow hbytes) (by norm_num)
    · show readLE img (3 * BS + 8) 4 < 2 ^ 32
      exact Nat.lt_of_lt_of_le (readLE_lt_pow hbytes) (by norm_num)
    · show (readInodeAt img (3 * BS)).size_bytes + 64 < 2 ^ 64
      omega
    · show readLE img (3 * BS + 20) 8 < 2 ^ 64
      exact Nat.lt_of_lt_of_le (readLE_lt_pow hbytes) (by norm_num)
    · show readLE img (3 * BS + 28) 8 < 2 ^ 64
      exact Nat.lt_of_lt_of_le (readLE_lt_pow hbytes) (by norm_num)
    · show readLE img (3 * BS + 36) 8 < 2 ^ 64
      exact Nat.lt_of_lt_of_le (readLE_lt_pow hbytes) (by norm_num)
    · show readLE img (3 * BS + 92) 4 < 2 ^ 32
      exact Nat.lt_of_lt_of_le (readLE_lt_pow hbytes) (by norm_num)
    · show readLE img (3 * BS + 96) 4 < 2 ^ 32
      exact Nat.lt_of_lt_of_le (readLE_lt_pow hbytes) (by norm_num)
    · show readLE img (3 * BS + 100) 4 < 2 ^ 32
      exact Nat.lt_of_lt_of_le (readLE_lt_pow hbytes) (by norm_num)
    · show readLE img (3 * BS + 104) 4 < 2 ^ 32
      exact Nat.lt_of_lt_of_le (readLE_lt_pow hbytes) (by norm_num)
    · show readLE img (3 * BS + 108) 4 < 2 ^ 32
      exact Nat.lt_of_lt_of_le (readLE_lt_pow hbytes) (by norm_num)
    · show readLE img (3 * BS + 112) 8 < 2 ^ 64
      exact Nat.lt_of_lt_of_le (readLE_lt_pow hbytes) (by norm_num)
  have hbndroot' : InodeBounds (inode_crc_finalize { readInodeAt (addStage3 img (readSB img) content now fi bf) (3 * BS) with links := (readInodeAt (addStage3 img (readSB img) content now fi bf) (3 * BS)).links + 1, size_bytes := (readInodeAt (addStage3 img (readSB img) content now fi bf) (3 * BS)).size_bytes + 64 }) := by
    rw [hroot3]
    exact hbndroot
  have hrootnew : readInodeAt C (3 * BS) = { inode_crc_finalize { readInodeAt img (3 * BS) with links := (readInodeAt img (3 * BS)).links + 1, size_bytes := (readInodeAt img (3 * BS)).size_bytes + 64 } with direct := padDirect (inode_crc_finalize { readInodeAt img (3 * BS) with links := (readInodeAt img (3 * BS)).links + 1, size_bytes := (readInodeAt img (3 * BS)).size_bytes + 64 }).direct } := by
    have h := addCommit_root_slot img (readSB img) content bf fname now fi rel off hits hdrs hbndroot'
    rw [hroot3] at h
    exact h
  have hr1 : (readInodeAt C (3 * BS)).direct.getD 0 0 = rel := by
    rw [hrootnew, hrelval]
    show (padDirect (readInodeAt img (3 * BS)).direct).getD 0 0 = (readInodeAt img (3 * BS)).direct.getD 0 0
    exact padDirect_getD ((readInodeAt img (3 * BS)).direct) 0 (by decide)
  have hr2 : (readInodeAt C (3 * BS)).links = (readInodeAt img (3 * BS)).links + 1 := by
    rw [hrootnew]
    rfl
  have hr3 : (readInodeAt C (3 * BS)).size_bytes = (readInodeAt img (3 * BS)).size_bytes + 64 := by
    rw [hrootnew]
    rfl
  have hbndnew : InodeBounds (newInode content.length now bf) := by
    refine ⟨(by norm_num : (0x8000 : Nat) < 2 ^ 16), (by norm_num : (1 : Nat) < 2 ^ 16),
      (by norm_num : (0 : Nat) < 2 ^ 32), (by norm_num : (0 : Nat) < 2 ^ 32),
      (by omega : content.length < 2 ^ 64), hnow, hnow, hnow, ?_,
      (by norm_num : (0 : Nat) < 2 ^ 32), (by norm_num : (0 : Nat) < 2 ^ 32),
      (by norm_num : (0 : Nat) < 2 ^ 32), (by norm_num : (0 : Nat) < 2 ^ 32),
      (by norm_num : (0 : Nat) < 2 ^ 32), (by norm_num : (0 : Nat) < 2 ^ 64),
      Nat.lt_of_lt_of_le (crc32_lt _) (by norm_num)⟩
    intro b hb
    have hb2 : b ∈ bf := hb
    have h := (hbfmem b hb2).1
    omega
  have hnewslot : readInodeAt C (3 * BS + fi * INODE_SIZE) = { newInode content.length now bf with direct := padDirect (newInode content.length now bf).direct } :=
    addCommit_new_slot img (readSB img) content bf fname now fi rel off hibs hdbs hits hdrs htab hic128 hic8 hfiic hbf8 hfi1 hbndnew
  have hsb' : readSB C = superblock_crc_finalize { readSB img with mtime_epoch := now } :=
    readSB_addCommit (sbBounds_readSB hbytes) hnow
  have hPmagic : (superblock_crc_finalize { readSB img with mtime_epoch := now }).magic = (readSB img).magic := rfl
  have hPibs : (superblock_crc_finalize { readSB img with mtime_epoch := now }).inode_bitmap_start = (readSB img).inode_bitmap_start := rfl
  have hPdbs : (superblock_crc_finalize { readSB img with mtime_epoch := now }).data_bitmap_start = (readSB img).data_bitmap_start := rfl
  have hPits : (superblock_crc_finalize { readSB img with mtime_epoch := now }).inode_table_start = (readSB img).inode_table_start := rfl
  have hPdrs : (superblock_crc_finalize { readSB img with mtime_epoch := now }).data_region_start = (readSB img).data_region_start := rfl
  have hPic : (superblock_crc_finalize { readSB img with mtime_epoch := now }).inode_count = (readSB img).inode_count := rfl
  have hPdrb : (superblock_crc_finalize { readSB img with mtime_epoch := now }).data_region_blocks = (readSB img).data_region_blocks := rfl
  have hbIfr : ∀ j, j < 8 * BS → j ≠ fi → bit_get C (1 * BS) j = bit_get img (1 * BS) j :=
    fun j hj hjfi => addCommit_bitI_frame img (readSB img) content bf fname now fi rel off j hibs hdbs hits hdrs htab hic128 hic8 hfiic hbf8 hj hjfi
  have hbIst : bit_get C (1 * BS) fi = 1 :=
    addCommit_bitI_set img (readSB img) content bf fname now fi rel off hibs hdbs hits hdrs htab hic128 hic8 hfiic hbf8
  have hbDfr : ∀ i, i < 8 * BS → i ∉ bf → bit_get C (2 * BS) i = bit_get img (2 * BS) i :=
    fun i hi hib => addCommit_bitD_frame img (readSB img) content bf fname now fi rel off i hibs hdbs hits hdrs htab hic128 hic8 hfiic hbf8 hi hib
  have hbDst : ∀ i, i < 8 * BS → i ∈ bf → bit_get C (2 * BS) i = 1 :=
    fun i hi hib => addCommit_bitD_set img (readSB img) content bf fname now fi rel off i hibs hdbs hits hdrs htab hic128 hic8 hfiic hbf8 hi hib
  have hslotfr : ∀ j, j < (readSB img).inode_count → j ≠ fi → j ≠ 0 → readInodeAt C (3 * BS + j * INODE_SIZE) = readInodeAt img (3 * BS + j * INODE_SIZE) :=
    fun j hj hjfi hj0 => addCommit_slot_frame img (readSB img) content bf fname now fi rel off j hibs hdbs hits hdrs htab hic128 hic8 hfiic hbf8 hj hjfi hj0
  have hoffval : readLE C ((readSB img).data_region_start * BS + rel * BS + off) 4 = fi + 1 :=
    addCommit_offslot img (readSB img) content bf fname now fi rel off hits hdrs htab hic128 (by omega)
  have htr : ∀ a, a < 64 → a ≠ s → readLE C ((readSB img).data_region_start * BS + rel * BS + a * 64) 4 = readLE img ((readSB img).data_region_start * BS + rel * BS + a * 64) 4 := by
    intro a ha hne
    rw [hCdef]
    refine readLE_congr 4 (fun k hk => ?_)
    rw [show (readSB img).data_region_start * BS + rel * BS + a * 64 + k = (readSB img).data_region_start * BS + rel * BS + (a * 64 + k) from by omega]
    exact addCommit_rootblock_byte img (readSB img) content bf fname now fi rel off (a * 64 + k) hibs hdbs hits hdrs htab hic128 hic8 hfiic hbf8 hrelbf (by omega) (by omega)
  have hcount' : countUsedDirents C ((readSB img).data_region_start * BS + rel * BS) = countUsedDirents img ((readSB img).data_region_start * BS + rel * BS) + 1 := by
    unfold countUsedDirents
    refine countP_flip (List.range 64) (List.nodup_range 64) (List.mem_range.mpr hs64) ?_ ?_ ?_
    · intro a ha hne
      rw [List.mem_range] at ha
      show (readLE C ((readSB img).data_region_start * BS + rel * BS + a * 64) 4 != 0) = (readLE img ((readSB img).data_region_start * BS + rel * BS + a * 64) 4 != 0)
      rw [htr a ha hne]
    · exact hpfalse
    · show (readLE C ((readSB img).data_region_start * BS + rel * BS + s * 64) 4 != 0) = true
      rw [show (readSB img).data_region_start * BS + rel * BS + s * 64 = (readSB img).data_region_start * BS + rel * BS + off from by omega, hoffval]
      simp
  have hbytesC : ∀ k, C k < 256 := by
    intro k
    rw [hCdef]
    simp only [addCommit, addStage3]
    refine writeBytesAt_bytes_lt (writeBytesAt_bytes_lt (writeBytesAt_bytes_lt (writeBytesAt_bytes_lt (applyBlocks_bytes_lt hcontent bf _ 0 (bit_set_bytes_lt hbytes)) (inodeBytes_mem_lt _)) (direntBytes_mem_lt _ ?_)) (inodeBytes_mem_lt _)) (sbBytes_mem_lt _) k
    intro b hb
    have hb2 : b ∈ fname.take (MAX_FILENAME - 1) := hb
    exact hfname b (List.take_subset _ _ hb2)
  show (∀ k, C k < 256) ∧ StdLayout C ∧ RootGood C ∧ Consistent C
  refine ⟨hbytesC, ?_, ?_, ?_⟩
  · unfold StdLayout
    rw [hsb', hPmagic, hPibs, hPdbs, hPits, hPdrs, hPic, hPdrb]
    exact ⟨hmagic, hibs, hdbs, hits, hdrs, htab, hic128, hic512, hdrb1, hdrb1024⟩
  · unfold RootGood
    rw [hsb', hPdrs, hPdrb]
    refine ⟨?_, ?_, ?_, ?_⟩
    · rw [hr1]
      omega
    · rw [hr2, hr1, hcount', hlinksA]
    · rw [hr3, hr2, hsize_eq]
      ring
    · rw [hr2]
      omega
  · unfold Consistent
    rw [hsb', hPibs, hPdbs, hPits, hPic, hPdrb, hibs, hdbs, hits]
    constructor
    · intro i hi
      by_cases hib : i ∈ bf
      · rw [hbDst i (by omega) hib]
        refine iff_of_true rfl ?_
        obtain ⟨k, hklen, hkval⟩ := (mem_getD_iff bf i).mp hib
        refine ⟨fi, hfiic, hbIst, k, ?_, ?_, ?_⟩
        · rw [hnewslot]
          show k < needBlocks content.length
          omega
        · omega
        · rw [hnewslot]
          show (padDirect bf).getD k 0 = i
          rw [padDirect_getD bf k (by omega)]
          exact hkval
      · rw [hbDfr i (by omega) hib, hconsD i hi]
        constructor
        · rintro ⟨j, hj, hbitj, k, hk1, hk2, hkval⟩
          have hjfi : j ≠ fi := by
            intro he
            rw [he, hfibit] at hbitj
            exact absurd hbitj (by decide)
          by_cases hj0 : j = 0
          · subst hj0
            rw [show 3 * BS + 0 * INODE_SIZE = 3 * BS from by simp] at hk1 hkval
            rw [hneed_old_root] at hk1
            have hk0 : k = 0 := by omega
            subst hk0
            refine ⟨0, by omega, ?_, 0, ?_, by decide, ?_⟩
            · rw [hbIfr 0 (by omega) (fun he => hfi0 he.symm)]
              exact hbit0
            · rw [show 3 * BS + 0 * INODE_SIZE = 3 * BS from by simp, hr3, hneed_new_root]
              decide
            · rw [show 3 * BS + 0 * INODE_SIZE = 3 * BS from by simp, hr1, hrelval]
              exact hkval
          · refine ⟨j, hj, ?_, k, ?_, hk2, ?_⟩
            · rw [hbIfr j (by omega) hjfi]
              exact hbitj
            · rw [hslotfr j hj hjfi hj0]
              exact hk1
            · rw [hslotfr j hj hjfi hj0]
              exact hkval
        · rintro ⟨j, hj, hbitj, k, hk1, hk2, hkval⟩
          by_cases hjfi : j = fi
          · subst hjfi
            exfalso
            rw [hnewslot] at hk1 hkval
            have hk1' : k < needBlocks content.length := hk1
            have hkv' : (padDirect bf).getD k 0 = i := hkval
            rw [padDirect_getD bf k hk2] at hkv'
            exact hib ((mem_getD_iff bf i).mpr ⟨k, by omega, hkv'⟩)
          · by_cases hj0 : j = 0
            · subst hj0
              rw [show 3 * BS + 0 * INODE_SIZE = 3 * BS from by simp] at hk1 hkval
              rw [hr3, hneed_new_root] at hk1
              have hk0 : k = 0 := by omega
              subst hk0
              rw [hr1] at hkval
              refine ⟨0, by omega, hbit0, 0, ?_, by decide, ?_⟩
              · rw [show 3 * BS + 0 * INODE_SIZE = 3 * BS from by simp, hneed_old_root]
                decide
              · rw [show 3 * BS + 0 * INODE_SIZE = 3 * BS from by simp, ← hrelval]
                exact hkval
            · refine ⟨j, hj, ?_, k, ?_, hk2, ?_⟩
              · rw [← hbIfr j (by omega) hjfi]
                exact hbitj
              · rw [← hslotfr j hj hjfi hj0]
                exact hk1
              · rw [← hslotfr j hj hjfi hj0]
                exact hkval
    · intro j hj
      by_cases hjfi : j = fi
      · subst hjfi
        rw [hbIst, hnewslot]
        refine iff_of_true rfl ?_
        show (1 : Nat) ≠ 0
        decide
      · by_cases hj0 : j = 0
        · subst hj0
          rw [show 3 * BS + 0 * INODE_SIZE = 3 * BS from by simp,
            hbIfr 0 (by omega) hjfi, hbit0, hr2]
          exact iff_of_true rfl (by omega)
        · rw [hbIfr j (by omega) hjfi, hslotfr j hj hjfi hj0]
          exact hconsI j hj

/-- Every reachable image satisfies the inductive invariant. -/
theorem good_reachable : ∀ img, Reachable img → Good img := by
  intro img h
  induction h with
  | fmt size_kib inode_cnt now img hnow hmk => exact mkfs_good size_kib inode_cnt now img hnow hmk
  | add img fname content now n img2 hR hfname hcontent hnow hadd ih =>
    exact add_good img fname content now n img2 ih hfname hcontent hnow hadd

/-- C2: for every image produced by format or by a successful add_file
(on a reachable image), the bitmaps and the inode table agree: a data
bitmap bit i is set exactly when some allocated inode (inode bitmap bit
set) holds relative index i among its first ceil(size_bytes/4096)
(minimum 1) direct slots, and an inode bitmap bit j is set exactly when
table record j (inode number j+1) is allocated (nonzero link count). -/
theorem claim_C2 (img : Image) (h : Reachable img) : Consistent img :=
  (good_reachable img h).2.2.2

/-- Witness for C2: the freshly formatted 45-block, 128-inode example
image of the spec is reachable, so its bitmaps and inode table agree. -/
theorem claim_C2_witness : Consistent fmt45 :=
  claim_C2 fmt45 (Reachable.fmt 180 128 0 fmt45 (by decide) mkfs_fmt45)

end MiniVSFS
